import Mathlib

/-!
Verification development for the consensus-state core: the state container
(read-only validator views and indexed accessors), the attestation
state-transition pipeline, and the canonical SSZ codec with Merkle hashing.
Definitions are shallow embeddings of the corresponding Go functions;
machine integers are modelled as Nat with explicit reduction modulo 2^64
(or 2^32 for serialized offsets) where the source's fixed-width arithmetic
can wrap.
-/

namespace Prysm

/-! ## Basic helpers -/

/-- Modulus of 64-bit unsigned arithmetic. -/
def U64MOD : Nat := 2 ^ 64

/-- Wrapping 64-bit addition, as performed by Go `uint64` / `types.Slot` `+`. -/
def u64add (a b : Nat) : Nat := (a + b) % U64MOD

/-- Fixed 48-byte conversion `bytesutil.ToBytes48`: copies at most 48 bytes
into a zero-initialised 48-byte array. -/
def toBytes48 (l : List Nat) : List Nat :=
  l.take 48 ++ List.replicate (48 - l.length) 0

/-! ## State container: validators and read-only views (getters file) -/

namespace StateTrie

/-- Modelled from the spec: the `ethpb.Validator` identity record (48-byte
public key, 32-byte withdrawal credential, stake amount, slashed flag,
activation-eligibility/activation/exit/withdrawable epoch markers). Its Go
definition lives in the external `ethereumapis` protobuf package. -/
structure Validator where
  publicKey : List Nat
  withdrawalCredentials : List Nat
  effectiveBalance : Nat
  slashed : Bool
  activationEligibilityEpoch : Nat
  activationEpoch : Nat
  exitEpoch : Nat
  withdrawableEpoch : Nat
deriving DecidableEq

/-- Zero-valued validator record, the Go `&ethpb.Validator{}`. -/
def Validator.empty : Validator :=
  { publicKey := [], withdrawalCredentials := [], effectiveBalance := 0,
    slashed := false, activationEligibilityEpoch := 0, activationEpoch := 0,
    exitEpoch := 0, withdrawableEpoch := 0 }

/-- ReadOnlyValidator: a borrowed, non-owning view over one validator record;
the wrapped pointer may be nil. -/
structure ReadOnlyValidator where
  validator : Option Validator
deriving DecidableEq

/-- IsNil reports whether the underlying validator pointer is nil. -/
def ReadOnlyValidator.IsNil (v : ReadOnlyValidator) : Bool :=
  v.validator.isNone

/-- EffectiveBalance returns the effective balance of the read only validator. -/
def ReadOnlyValidator.EffectiveBalance (v : ReadOnlyValidator) : Nat :=
  match v.validator with
  | none => 0
  | some val => val.effectiveBalance

/-- ActivationEligibilityEpoch returns the activation eligibility epoch of the
read only validator. -/
def ReadOnlyValidator.ActivationEligibilityEpoch (v : ReadOnlyValidator) : Nat :=
  match v.validator with
  | none => 0
  | some val => val.activationEligibilityEpoch

/-- ActivationEpoch returns the activation epoch of the read only validator. -/
def ReadOnlyValidator.ActivationEpoch (v : ReadOnlyValidator) : Nat :=
  match v.validator with
  | none => 0
  | some val => val.activationEpoch

/-- WithdrawableEpoch returns the withdrawable epoch of the read only validator. -/
def ReadOnlyValidator.WithdrawableEpoch (v : ReadOnlyValidator) : Nat :=
  match v.validator with
  | none => 0
  | some val => val.withdrawableEpoch

/-- ExitEpoch returns the exit epoch of the read only validator. -/
def ReadOnlyValidator.ExitEpoch (v : ReadOnlyValidator) : Nat :=
  match v.validator with
  | none => 0
  | some val => val.exitEpoch

/-- PublicKey returns the public key of the read only validator: the zero
48-byte array when nil, otherwise the stored key copied into a fixed
48-byte array. -/
def ReadOnlyValidator.PublicKey (v : ReadOnlyValidator) : List Nat :=
  match v.validator with
  | none => List.replicate 48 0
  | some val => toBytes48 val.publicKey

/-- WithdrawalCredentials returns the withdrawal credentials of the read only
validator. Unlike every sibling accessor the source has no IsNil guard here:
with a nil underlying record the Go code dereferences a nil pointer and
crashes; that fault is modelled as `none`, a successful copy as `some`. -/
def ReadOnlyValidator.WithdrawalCredentials (v : ReadOnlyValidator) : Option (List Nat) :=
  match v.validator with
  | none => none
  | some val => some val.withdrawalCredentials

/-- Slashed returns whether the read only validator is slashed. -/
def ReadOnlyValidator.Slashed (v : ReadOnlyValidator) : Bool :=
  match v.validator with
  | none => false
  | some val => val.slashed

/-- CopyValidator returns the copy of the read only validator (nil if the view
is nil). Deep copying is the identity on immutable values. -/
def ReadOnlyValidator.CopyValidator (v : ReadOnlyValidator) : Option Validator :=
  match v.validator with
  | none => none
  | some val => some val

/-- Inner protobuf state for the container accessors: the validator registry
and the balance list, each of which may be nil in the source. Only the fields
read by the indexed accessors under study are carried. -/
structure InnerState where
  validators : Option (List (Option Validator))
  balances : Option (List Nat)
deriving DecidableEq

/-- BeaconState container wrapper; `state` is nil before initialization. -/
structure BeaconState where
  state : Option InnerState
deriving DecidableEq

/-- Errors surfaced by the container accessors. -/
inductive AccErr where
  | nilInnerState
  | indexOutOfRange (idx : Nat)
deriving DecidableEq

/-- ValidatorAtIndex is the validator at the provided index: nil inner state
fails, a nil registry yields a fresh zero validator, an index past the end of
a non-nil registry fails with index-out-of-range, otherwise the (possibly
nil) record at that index is returned. -/
def BeaconState.ValidatorAtIndex (b : BeaconState) (idx : Nat) :
    Except AccErr (Option Validator) :=
  match b.state with
  | none => .error .nilInnerState
  | some st =>
    match st.validators with
    | none => .ok (some Validator.empty)
    | some vals =>
      if h : vals.length ≤ idx then .error (.indexOutOfRange idx)
      else .ok (vals.get ⟨idx, by omega⟩)

/-- ValidatorAtIndexReadOnly is the validator at the provided index as a
non-cloning read-only view; a nil registry yields the nil view with no error. -/
def BeaconState.ValidatorAtIndexReadOnly (b : BeaconState) (idx : Nat) :
    Except AccErr ReadOnlyValidator :=
  match b.state with
  | none => .error .nilInnerState
  | some st =>
    match st.validators with
    | none => .ok ⟨none⟩
    | some vals =>
      if h : vals.length ≤ idx then .error (.indexOutOfRange idx)
      else .ok ⟨vals.get ⟨idx, by omega⟩⟩

/-- PubkeyAtIndex returns the pubkey at the given validator index. The
function is total: out-of-range indices (including any index against a nil
registry) and nil records produce the zero 48-byte key, never an error. -/
def BeaconState.PubkeyAtIndex (b : BeaconState) (idx : Nat) : List Nat :=
  match b.state with
  | none => List.replicate 48 0
  | some st =>
    let vals := st.validators.getD []
    if h : vals.length ≤ idx then List.replicate 48 0
    else
      match vals.get ⟨idx, by omega⟩ with
      | none => List.replicate 48 0
      | some val => toBytes48 val.publicKey

/-- BalanceAtIndex of validator with the provided index: a nil balance list
yields 0 with no error, an index past the end of a non-nil list fails. -/
def BeaconState.BalanceAtIndex (b : BeaconState) (idx : Nat) : Except AccErr Nat :=
  match b.state with
  | none => .error .nilInnerState
  | some st =>
    match st.balances with
    | none => .ok 0
    | some bals =>
      if h : bals.length ≤ idx then .error (.indexOutOfRange idx)
      else .ok (bals.get ⟨idx, by omega⟩)

end StateTrie

end Prysm

namespace Prysm

/-! ## Attestation state-transition (attestation.go) -/

namespace Att

/-- Checkpoint: an (epoch, 32-byte block root) pair. -/
structure Checkpoint where
  epoch : Nat
  root : List Nat
deriving DecidableEq

/-- AttestationData: slot, committee index, beacon-block root and the
source/target checkpoint pair. -/
structure AttestationData where
  slot : Nat
  committeeIndex : Nat
  beaconBlockRoot : List Nat
  source : Checkpoint
  target : Checkpoint
deriving DecidableEq

/-- Attestation: data plus the aggregation bitfield. The aggregate signature
itself is consumed only by the external BLS collaborator, reached through the
environment's aggregateVerify oracle. -/
structure Attestation where
  data : AttestationData
  aggregationBits : List Bool
deriving DecidableEq

/-- Modelled from the spec: the global configuration constants read through
params.BeaconConfig() (an external package): inclusion delay, slots per
epoch, the three timeliness-flag bit constants with their reward numerators,
and the two reward quotients. -/
structure Config where
  minAttestationInclusionDelay : Nat
  slotsPerEpoch : Nat
  timelyHeadFlag : Nat
  timelySourceFlag : Nat
  timelyTargetFlag : Nat
  timelyHeadNumerator : Nat
  timelySourceNumerator : Nat
  timelyTargetNumerator : Nat
  rewardDenominator : Nat
  proposerRewardQuotient : Nat
deriving DecidableEq

/-- Beacon-state fields read or written by attestation processing: the slot,
the two justified checkpoints, the two epoch-participation byte arrays and
the balance list. -/
structure BState where
  slot : Nat
  currentJustifiedCheckpoint : Checkpoint
  previousJustifiedCheckpoint : Checkpoint
  currentEpochParticipation : List Nat
  previousEpochParticipation : List Nat
  balances : List Nat
deriving DecidableEq

/-- Modelled from the spec: the capabilities consumed from external
collaborators (spec section 6) — active-validator counting with committee
sizing, committee assignment, historical block-root lookups (epoch start and
exact slot), per-validator base rewards (a function of the registry's
effective balances, which attestation processing never mutates), the beacon
proposer index, and aggregate-signature verification. A fallible lookup
returns none on failure. -/
structure Env where
  activeValidatorCount : Nat → Option Nat
  slotCommitteeCount : Nat → Nat
  beaconCommittee : Nat → Nat → Option (List Nat)
  blockRoot : Nat → Option (List Nat)
  blockRootAtSlot : Nat → Option (List Nat)
  baseReward : Nat → Option Nat
  beaconProposerIndex : Option Nat
  aggregateVerify : Attestation → Bool

/-- Failure modes of attestation processing, one per return-with-error site of
the source pipeline. The participation-index constructor models the Go
out-of-range access fault on the participation array. -/
inductive AttErr where
  | targetEpochMismatch
  | slotEpochMismatch
  | minInclusionViolation
  | epochInclusionViolation
  | activeCountFailure
  | committeeIndexOutOfRange
  | bitfieldLengthMismatch
  | committeeFailure
  | invalidIndices
  | ffgEpochMismatch
  | sourceMismatch
  | targetRootFailure
  | headRootFailure
  | baseRewardFailure (idx : Nat)
  | participationIndexOutOfRange (idx : Nat)
  | proposerIndexFailure
  | increaseBalanceFailure
  | invalidSignature
deriving DecidableEq

/-- Wrapping 64-bit multiplication, as performed by Go uint64. -/
def u64mul (a b : Nat) : Nat := (a * b) % U64MOD

/-- Downward scan for the integer square root: the largest j at most k with
j * j at most n. -/
def isqrtScan (n : Nat) : Nat → Nat
  | 0 => 0
  | k + 1 => if (k + 1) * (k + 1) ≤ n then k + 1 else isqrtScan n k

/-- Modelled from the spec: mathutil.IntegerSquareRoot — the floor of the
square root, as used for the SOURCE timeliness deadline. -/
def integerSquareRoot (n : Nat) : Nat :=
  isqrtScan n n

/-- Modelled from the spec: helpers.CurrentEpoch — the epoch containing the
state's current slot. -/
def currentEpoch (cfg : Config) (s : BState) : Nat :=
  s.slot / cfg.slotsPerEpoch

/-- Modelled from the spec: helpers.PrevEpoch — the epoch before the current
one, or epoch 0 at genesis. -/
def prevEpoch (cfg : Config) (s : BState) : Nat :=
  currentEpoch cfg s - 1

/-- Modelled from the spec: helpers.ValidateSlotTargetEpoch — pipeline step 2:
the target epoch must equal the epoch containing the attested slot. -/
def validateSlotTargetEpoch (cfg : Config) (d : AttestationData) : Bool :=
  d.target.epoch == d.slot / cfg.slotsPerEpoch

/-- CheckPointIsEqual: two checkpoints are equal iff both fields match
exactly. -/
def checkPointIsEqual (a b : Checkpoint) : Bool :=
  a == b

/-- Modelled from the spec: attestationutil.AttestingIndices — the committee
members at the positions whose aggregation bit is set, in committee order. -/
def attestingIndices (bits : List Bool) (committee : List Nat) : List Nat :=
  (List.zip bits committee).filterMap (fun p => if p.1 then some p.2 else none)

/-- Executable strict-increase test on a list of indices. -/
def strictlyIncreasing : List Nat → Bool
  | [] => true
  | [_] => true
  | a :: b :: rest => decide (a < b) && strictlyIncreasing (b :: rest)

/-- Modelled from the spec: attestationutil.IsValidAttestationIndices —
pipeline step 6: the derived (sorted) index list must be non-empty and
strictly increasing, i.e. duplicate-free. -/
def isValidAttestationIndices (indices : List Nat) : Bool :=
  !indices.isEmpty && strictlyIncreasing indices

/-- Modelled from the spec: helpers.HasValidatorFlag — the bitmask has-test:
every bit of the flag is set in the participation byte. -/
def hasValidatorFlag (b flag : Nat) : Bool :=
  b &&& flag == flag

/-- Modelled from the spec: helpers.AddValidatorFlag — the bitmask set
operation on the participation byte. -/
def addValidatorFlag (b flag : Nat) : Nat :=
  b ||| flag

/-- The set of timeliness flags granted to the attestation. -/
structure FlagSet where
  head : Bool
  source : Bool
  target : Bool
deriving DecidableEq

/-- Timeliness-flag computation of ProcessAttestationNoVerifySignature
(source lines 227-239): HEAD needs matching head and target within the
inclusion delay, SOURCE needs a matching source within the square root of
the epoch length, TARGET needs a matching target within one epoch. Slot
additions are wrapping 64-bit additions as in the source. -/
def participatedFlags (cfg : Config) (stateSlot attSlot : Nat)
    (matchingHead matchingSource matchingTarget : Bool) : FlagSet :=
  { head := matchingHead && matchingTarget &&
      decide (stateSlot ≤ u64add attSlot cfg.minAttestationInclusionDelay),
    source := matchingSource &&
      decide (stateSlot ≤ u64add attSlot (integerSquareRoot cfg.slotsPerEpoch)),
    target := matchingTarget &&
      decide (stateSlot ≤ u64add attSlot cfg.slotsPerEpoch) }

/-- Lower bound of the inclusion-delay window (source line 153): the attested
slot plus the minimum inclusion delay (wrapping 64-bit addition) must not
exceed the state slot. -/
def minInclusionCheck (cfg : Config) (attSlot stateSlot : Nat) : Bool :=
  decide (u64add attSlot cfg.minAttestationInclusionDelay ≤ stateSlot)

/-- Upper bound of the inclusion-delay window (source line 162): the state
slot must not exceed the attested slot plus SLOTS_PER_EPOCH (wrapping 64-bit
addition). -/
def epochInclusionCheck (cfg : Config) (attSlot stateSlot : Nat) : Bool :=
  decide (stateSlot ≤ u64add attSlot cfg.slotsPerEpoch)

/-- One conditional flag update of the participation/reward loop (source
lines 250-261): when the flag was granted and is not yet recorded in the
participation byte, set its bit and accumulate base-reward times the flag
numerator into the running proposer-reward numerator (64-bit wrapping
arithmetic as in the source); otherwise leave byte and numerator untouched. -/
def applyFlagStep (flagOn : Bool) (flag numer br : Nat) (bn : Nat × Nat) : Nat × Nat :=
  if flagOn && !hasValidatorFlag bn.1 flag then
    (addValidatorFlag bn.1 flag, u64add bn.2 (u64mul br numer))
  else bn

/-- The three sequential conditional flag updates of one loop iteration, in
source order: head, then source, then target, each reading the byte written
by the previous step. -/
def updateByte (cfg : Config) (flags : FlagSet) (br : Nat) (b num : Nat) : Nat × Nat :=
  applyFlagStep flags.target cfg.timelyTargetFlag cfg.timelyTargetNumerator br
    (applyFlagStep flags.source cfg.timelySourceFlag cfg.timelySourceNumerator br
      (applyFlagStep flags.head cfg.timelyHeadFlag cfg.timelyHeadNumerator br (b, num)))

/-- The participation/reward loop of ProcessAttestationNoVerifySignature over
the attesting indices, threading the participation array and the
proposer-reward numerator. Base-reward lookup failures abort; an index past
the end of the participation array is the Go out-of-range fault. -/
def updateLoop (cfg : Config) (env : Env) (flags : FlagSet) :
    List Nat → Nat → List Nat → Except AttErr (List Nat × Nat)
  | p, num, [] => .ok (p, num)
  | p, num, idx :: rest =>
    match env.baseReward idx with
    | none => .error (.baseRewardFailure idx)
    | some br =>
      match p.get? idx with
      | none => .error (.participationIndexOutOfRange idx)
      | some b =>
        updateLoop cfg env flags (p.set idx (updateByte cfg flags br b num).1)
          (updateByte cfg flags br b num).2 rest

/-- Modelled from the spec: helpers.IncreaseBalance — credit the amount to
the validator's balance (wrapping 64-bit addition), failing when the index is
out of range of the balance list. -/
def increaseBalance (s : BState) (idx amount : Nat) : Option BState :=
  match s.balances.get? idx with
  | none => none
  | some bal => some { s with balances := s.balances.set idx (u64add bal amount) }

/-- Justified-checkpoint selection (source lines 199-207): the current
justified checkpoint when the target epoch is the current epoch, else the
previous justified checkpoint. -/
def justifiedCheckpoint (cfg : Config) (s : BState) (att : Attestation) : Checkpoint :=
  if att.data.target.epoch == currentEpoch cfg s then s.currentJustifiedCheckpoint
  else s.previousJustifiedCheckpoint

/-- Epoch-participation selection (source lines 199-207): the current-epoch
array when the target epoch is the current epoch, else the previous-epoch
array. The container getter hands the pipeline a copy. -/
def selectedParticipation (cfg : Config) (s : BState) (att : Attestation) : List Nat :=
  if att.data.target.epoch == currentEpoch cfg s then s.currentEpochParticipation
  else s.previousEpochParticipation

/-- Write-back of the mutated participation array (source lines 264-272),
the spec's set-participation swap, which cannot fail for a variable-length
field: SetCurrentParticipationBits or SetPreviousParticipationBits per the
target epoch. -/
def setParticipation (cfg : Config) (s : BState) (att : Attestation) (p : List Nat) : BState :=
  if att.data.target.epoch == currentEpoch cfg s then
    { s with currentEpochParticipation := p }
  else
    { s with previousEpochParticipation := p }

/-- ProcessAttestationNoVerifySignature: the validation pipeline (target
epoch membership, slot/target-epoch consistency, inclusion window, committee
index bound, bitfield length, attesting-index validity, source-checkpoint
match), then the matching-root and timeliness-flag computation, the
participation/reward loop on a copy of the selected epoch-participation
array, the write-back of that array (the spec's set-participation swap,
which cannot fail for a variable-length field), and finally the proposer
reward. The result pairs the final state of the mutated state object with
the error, mirroring the Go pointer semantics: failures after the
participation write-back leave the write-back visible. -/
def processAttestationNoVerifySignature (cfg : Config) (env : Env)
    (s : BState) (att : Attestation) : BState × Option AttErr :=
  if att.data.target.epoch ≠ prevEpoch cfg s
      ∧ att.data.target.epoch ≠ currentEpoch cfg s then
    (s, some .targetEpochMismatch)
  else if ¬ validateSlotTargetEpoch cfg att.data then
    (s, some .slotEpochMismatch)
  else if ¬ minInclusionCheck cfg att.data.slot s.slot then
    (s, some .minInclusionViolation)
  else if ¬ epochInclusionCheck cfg att.data.slot s.slot then
    (s, some .epochInclusionViolation)
  else
    match env.activeValidatorCount att.data.target.epoch with
    | none => (s, some .activeCountFailure)
    | some avc =>
      if att.data.committeeIndex ≥ env.slotCommitteeCount avc then
        (s, some .committeeIndexOutOfRange)
      else
        match env.beaconCommittee att.data.slot att.data.committeeIndex with
        | none => (s, some .committeeFailure)
        | some committee =>
          if att.aggregationBits.length ≠ committee.length then
            (s, some .bitfieldLengthMismatch)
          else if ¬ isValidAttestationIndices
              ((attestingIndices att.aggregationBits committee).insertionSort (· ≤ ·)) then
            (s, some .invalidIndices)
          else if att.data.target.epoch ≠
              (if att.data.target.epoch == currentEpoch cfg s
                then currentEpoch cfg s else prevEpoch cfg s) then
            (s, some .ffgEpochMismatch)
          else if ¬ checkPointIsEqual att.data.source (justifiedCheckpoint cfg s att) then
            (s, some .sourceMismatch)
          else
            match env.blockRoot att.data.target.epoch with
            | none => (s, some .targetRootFailure)
            | some rTarget =>
              match env.blockRootAtSlot att.data.slot with
              | none => (s, some .headRootFailure)
              | some rHead =>
                match updateLoop cfg env
                    (participatedFlags cfg s.slot att.data.slot
                      (rHead == att.data.beaconBlockRoot)
                      (checkPointIsEqual att.data.source (justifiedCheckpoint cfg s att))
                      (rTarget == att.data.target.root))
                    (selectedParticipation cfg s att)
                    0 (attestingIndices att.aggregationBits committee) with
                | .error e => (s, some e)
                | .ok (p, num) =>
                  match env.beaconProposerIndex with
                  | none => (setParticipation cfg s att p, some .proposerIndexFailure)
                  | some propIdx =>
                    match increaseBalance (setParticipation cfg s att p) propIdx
                        (num / (cfg.rewardDenominator * cfg.proposerRewardQuotient)) with
                    | none => (setParticipation cfg s att p, some .increaseBalanceFailure)
                    | some s2 => (s2, none)

/-- VerifyAttestationSignature: fetch the committee, convert to an indexed
attestation, re-validate its indices, and verify the aggregate signature.
Domain derivation, public-key deserialization and BLS verification are
external collaborators, collapsed into the environment's aggregateVerify
oracle. -/
def verifyAttestationSignature (env : Env) (att : Attestation) : Option AttErr :=
  match env.beaconCommittee att.data.slot att.data.committeeIndex with
  | none => some .committeeFailure
  | some committee =>
    if ¬ isValidAttestationIndices
        ((attestingIndices att.aggregationBits committee).insertionSort (· ≤ ·)) then
      some .invalidIndices
    else if env.aggregateVerify att then none
    else some .invalidSignature

/-- ProcessAttestation: the no-signature pipeline followed by signature
verification. A verification failure returns the error while the mutations
of the first phase remain visible in the state object, as in the source. -/
def processAttestation (cfg : Config) (env : Env) (s : BState) (att : Attestation) :
    BState × Option AttErr :=
  match processAttestationNoVerifySignature cfg env s att with
  | (s1, some e) => (s1, some e)
  | (s1, none) =>
    match verifyAttestationSignature env att with
    | some e => (s1, some e)
    | none => (s1, none)

end Att

/-! ## Concrete fixtures for closed instances -/

/-- Mainnet-flavoured configuration: inclusion delay 1, 32 slots per epoch,
flag bits 1/2/4 for head/source/target with numerators 12/12/24, reward
denominator 64 and proposer-reward quotient 8. -/
def cfg0 : Att.Config :=
  { minAttestationInclusionDelay := 1, slotsPerEpoch := 32,
    timelyHeadFlag := 1, timelySourceFlag := 2, timelyTargetFlag := 4,
    timelyHeadNumerator := 12, timelySourceNumerator := 12,
    timelyTargetNumerator := 24, rewardDenominator := 64,
    proposerRewardQuotient := 8 }

/-- Target-epoch block root used by the fixtures. -/
def rootT : List Nat := [3]

/-- Attested-slot block root used by the fixtures. -/
def rootH : List Nat := [4]

/-- Justified checkpoint shared by the fixture state and attestation. -/
def cp0 : Att.Checkpoint := ⟨0, [5]⟩

/-- Environment fixture: one committee of validators 0 and 1, matching block
roots, base reward 100, proposer 0, and an aggregate signature that fails to
verify. -/
def env0 : Att.Env :=
  { activeValidatorCount := fun _ => some 2,
    slotCommitteeCount := fun _ => 1,
    beaconCommittee := fun _ _ => some [0, 1],
    blockRoot := fun _ => some rootT,
    blockRootAtSlot := fun _ => some rootH,
    baseReward := fun _ => some 100,
    beaconProposerIndex := some 0,
    aggregateVerify := fun _ => false }

/-- State fixture at slot 1 with two validators, empty participation and
balances 10 and 20. -/
def s0 : Att.BState :=
  ⟨1, cp0, cp0, [0, 0], [0, 0], [10, 20]⟩

/-- Attestation fixture for slot 0, committee 0, both bits set, matching
source, target and head roots. -/
def att0 : Att.Attestation :=
  ⟨⟨0, 0, rootH, cp0, ⟨0, rootT⟩⟩, [true, true]⟩

/-- Attestation fixture whose source checkpoint does not match the justified
checkpoint of s0: processing rejects it before any mutation. -/
def attBad : Att.Attestation :=
  ⟨⟨0, 0, rootH, ⟨1, [9]⟩, ⟨0, rootT⟩⟩, [true, true]⟩

/-- Environment fixture for the inclusion-window boundary: the window check
fails before any committee data is consulted. -/
def env4 : Att.Env :=
  { env0 with beaconCommittee := fun _ _ => some [0] }

/-- State fixture at the last representable slot. -/
def s4 : Att.BState :=
  ⟨2 ^ 64 - 1, cp0, cp0, [0], [0], [10]⟩

/-- Attestation fixture attesting slot 2^64 - 2, inside the claimed inclusion
window of s4 under exact arithmetic. -/
def att4 : Att.Attestation :=
  ⟨⟨2 ^ 64 - 2, 0, rootH, cp0, ⟨576460752303423487, rootT⟩⟩, [true]⟩

/-- The state produced by successfully processing att0 on s0: both committee
members gained all three timeliness flags (participation byte 7) and the
proposer (validator 0) was credited 18 gwei. -/
def s1after : Att.BState :=
  ⟨1, cp0, cp0, [7, 7], [0, 0], [28, 20]⟩

namespace Att

/-- Following the spec's words (spec step 10): the proposer-reward
contribution of a single attesting index — for each satisfied flag not
already recorded in that validator's participation byte, base reward times
that flag's fixed numerator constant; flags already set contribute
nothing. -/
def specFlagContribution (cfg : Config) (fl : FlagSet) (br b : Nat) : Nat :=
  (if fl.head && !hasValidatorFlag b cfg.timelyHeadFlag
    then br * cfg.timelyHeadNumerator else 0)
  + (if fl.source && !hasValidatorFlag b cfg.timelySourceFlag
    then br * cfg.timelySourceNumerator else 0)
  + (if fl.target && !hasValidatorFlag b cfg.timelyTargetFlag
    then br * cfg.timelyTargetNumerator else 0)

/-- Following the spec's words (spec step 10): the proposer-reward numerator
is the sum over attesting indices of each index's contribution, judged
against the pre-call participation array. -/
def specNumerator (cfg : Config) (env : Env) (fl : FlagSet)
    (p : List Nat) (l : List Nat) : Nat :=
  (l.map (fun idx =>
    specFlagContribution cfg fl ((env.baseReward idx).getD 0) (p.getD idx 0))).sum

end Att

/-! ## SSZ codec embedding (src/unnamed/part_000)

Byte strings are lists of naturals (each byte a value below 256). Slicing
`buf[i:j]` is `bslice buf i j`; the little-endian integer codecs mirror
ssz.MarshalUint64 / ssz.UnmarshallUint64 / ssz.ReadOffset / ssz.WriteOffset
(the latter truncates the offset to 32 bits exactly as Go's uint32
conversion). Fallible codecs return Except over the fastssz error
constants. -/

namespace Ssz

/-- fastssz error constants (ErrSize, ErrOffset, ErrBytesLength,
ErrVectorLength, ErrListTooBig, and the error of ssz.DivideInt2). -/
inductive SszErr where
  | errSize
  | errOffset
  | errBytesLength
  | errVectorLength
  | errListTooBig
  | errDivide
deriving DecidableEq

/-- Go slice expression buf[i:j] (j clamped by the length, a full slice of
exactly j-i elements when in range). -/
def bslice (l : List Nat) (i j : Nat) : List Nat :=
  (l.drop i).take (j - i)

/-- ssz.MarshalUint64: append the 8 little-endian bytes of the value. -/
def marshalU64 (v : Nat) : List Nat :=
  [v % 256, v / 256 % 256, v / 256 ^ 2 % 256, v / 256 ^ 3 % 256,
    v / 256 ^ 4 % 256, v / 256 ^ 5 % 256, v / 256 ^ 6 % 256, v / 256 ^ 7 % 256]

/-- ssz.UnmarshallUint64: binary.LittleEndian.Uint64 of the first 8
bytes. -/
def unmarshalU64 (l : List Nat) : Nat :=
  l.getD 0 0 + 256 * (l.getD 1 0 + 256 * (l.getD 2 0 + 256 * (l.getD 3 0
    + 256 * (l.getD 4 0 + 256 * (l.getD 5 0 + 256 * (l.getD 6 0
    + 256 * l.getD 7 0))))))

/-- ssz.WriteOffset: append the offset as 4 little-endian bytes — Go first
converts the int offset to uint32, truncating it modulo 2^32. -/
def writeOffset (v : Nat) : List Nat :=
  [v % 256, v / 256 % 256, v / 256 ^ 2 % 256, v / 256 ^ 3 % 256]

/-- ssz.ReadOffset: binary.LittleEndian.Uint32 of the 4 offset bytes. -/
def readOffset (l : List Nat) : Nat :=
  l.getD 0 0 + 256 * (l.getD 1 0 + 256 * (l.getD 2 0 + 256 * l.getD 3 0))

/-- ssz.MarshalBool: one byte, 1 for true and 0 for false. -/
def marshalBool (b : Bool) : List Nat :=
  [if b then 1 else 0]

/-- ssz.UnmarshalBool: the byte equals 1. -/
def unmarshalBool (l : List Nat) : Bool :=
  l.getD 0 0 == 1

/-- A generated vector decode: n fixed-width chunks sliced out of the
section. -/
def unmarshalVector (w n : Nat) (buf : List Nat) : List (List Nat) :=
  (List.range n).map (fun ii => bslice buf (ii * w) ((ii + 1) * w))

/-- A generated list encode over a fallible element codec, stopping at the
first failing element as the Go loop does. -/
def marshalList (f : α → Except SszErr (List Nat)) : List α → Except SszErr (List Nat)
  | [] => .ok []
  | a :: t =>
    match f a with
    | .error e => .error e
    | .ok fa =>
      match marshalList f t with
      | .error e => .error e
      | .ok ft => .ok (fa ++ ft)

/-- A generated list decode over a fallible element codec: n fixed-width
chunks starting at byte i of the section, stopping at the first failing
element as the Go loop does. -/
def unmarshalChunks (g : List Nat → Except SszErr α) (w : Nat) :
    Nat → Nat → List Nat → Except SszErr (List α)
  | 0, _, _ => .ok []
  | n + 1, i, buf =>
    match g (bslice buf i (i + w)) with
    | .error e => .error e
    | .ok a =>
      match unmarshalChunks g w n (i + w) buf with
      | .error e => .error e
      | .ok rest => .ok (a :: rest)

/-- A generated uint64-list decode: n 8-byte little-endian chunks. -/
def unmarshalU64List (n : Nat) (buf : List Nat) : List Nat :=
  (List.range n).map (fun ii => unmarshalU64 (bslice buf (ii * 8) ((ii + 1) * 8)))

/-- Status (source part_000 lines 55-134): fork digest (4), finalized root
(32), finalized epoch, head root (32), head slot — 84 bytes. -/
structure Status where
  forkDigest : List Nat
  finalizedRoot : List Nat
  finalizedEpoch : Nat
  headRoot : List Nat
  headSlot : Nat
deriving DecidableEq

def Status.marshalSSZ (s : Status) : Except SszErr (List Nat) :=
  if s.forkDigest.length ≠ 4 then .error .errBytesLength
  else if s.finalizedRoot.length ≠ 32 then .error .errBytesLength
  else if s.headRoot.length ≠ 32 then .error .errBytesLength
  else .ok (s.forkDigest ++ s.finalizedRoot ++ marshalU64 s.finalizedEpoch
    ++ s.headRoot ++ marshalU64 s.headSlot)

def Status.unmarshalSSZ (buf : List Nat) : Except SszErr Status :=
  if buf.length ≠ 84 then .error .errSize
  else .ok ⟨bslice buf 0 4, bslice buf 4 36, unmarshalU64 (bslice buf 36 44),
    bslice buf 44 76, unmarshalU64 (bslice buf 76 84)⟩

def Status.sizeSSZ (_ : Status) : Nat := 84

/-- The uint64 fields fit Go's machine width (implicit in the Go types). -/
def Status.u64Bounded (s : Status) : Bool :=
  decide (s.finalizedEpoch < 2 ^ 64) && decide (s.headSlot < 2 ^ 64)

/-- Fork (source part_000 lines 1130-1189): previous version (4), current
version (4), epoch — 16 bytes. -/
structure Fork where
  previousVersion : List Nat
  currentVersion : List Nat
  epoch : Nat
deriving DecidableEq

def Fork.marshalSSZ (f : Fork) : Except SszErr (List Nat) :=
  if f.previousVersion.length ≠ 4 then .error .errBytesLength
  else if f.currentVersion.length ≠ 4 then .error .errBytesLength
  else .ok (f.previousVersion ++ f.currentVersion ++ marshalU64 f.epoch)

def Fork.unmarshalSSZ (buf : List Nat) : Except SszErr Fork :=
  if buf.length ≠ 16 then .error .errSize
  else .ok ⟨bslice buf 0 4, bslice buf 4 8, unmarshalU64 (bslice buf 8 16)⟩

def Fork.sizeSSZ (_ : Fork) : Nat := 16

/-- The uint64 fields fit Go's machine width (implicit in the Go types). -/
def Fork.u64Bounded (f : Fork) : Bool :=
  decide (f.epoch < 2 ^ 64)

/-- SigningData (source part_000 lines 1341-1396): object root (32), domain
(32) — 64 bytes. -/
structure SigningData where
  objectRoot : List Nat
  domain : List Nat
deriving DecidableEq

def SigningData.marshalSSZ (s : SigningData) : Except SszErr (List Nat) :=
  if s.objectRoot.length ≠ 32 then .error .errBytesLength
  else if s.domain.length ≠ 32 then .error .errBytesLength
  else .ok (s.objectRoot ++ s.domain)

def SigningData.unmarshalSSZ (buf : List Nat) : Except SszErr SigningData :=
  if buf.length ≠ 64 then .error .errSize
  else .ok ⟨bslice buf 0 32, bslice buf 32 64⟩

def SigningData.sizeSSZ (_ : SigningData) : Nat := 64

/-- ForkData (source part_000 lines 1423-1477): current version (4), genesis
validators root (32) — 36 bytes. -/
structure ForkData where
  currentVersion : List Nat
  genesisValidatorsRoot : List Nat
deriving DecidableEq

def ForkData.marshalSSZ (f : ForkData) : Except SszErr (List Nat) :=
  if f.currentVersion.length ≠ 4 then .error .errBytesLength
  else if f.genesisValidatorsRoot.length ≠ 32 then .error .errBytesLength
  else .ok (f.currentVersion ++ f.genesisValidatorsRoot)

def ForkData.unmarshalSSZ (buf : List Nat) : Except SszErr ForkData :=
  if buf.length ≠ 36 then .error .errSize
  else .ok ⟨bslice buf 0 4, bslice buf 4 36⟩

def ForkData.sizeSSZ (_ : ForkData) : Nat := 36

/-- DepositMessage (source part_000 lines 1505-1565): public key (48),
withdrawal credentials (32), amount — 88 bytes. -/
structure DepositMessage where
  publicKey : List Nat
  withdrawalCredentials : List Nat
  amount : Nat
deriving DecidableEq

def DepositMessage.marshalSSZ (d : DepositMessage) : Except SszErr (List Nat) :=
  if d.publicKey.length ≠ 48 then .error .errBytesLength
  else if d.withdrawalCredentials.length ≠ 32 then .error .errBytesLength
  else .ok (d.publicKey ++ d.withdrawalCredentials ++ marshalU64 d.amount)

def DepositMessage.unmarshalSSZ (buf : List Nat) : Except SszErr DepositMessage :=
  if buf.length ≠ 88 then .error .errSize
  else .ok ⟨bslice buf 0 48, bslice buf 48 80, unmarshalU64 (bslice buf 80 88)⟩

def DepositMessage.sizeSSZ (_ : DepositMessage) : Nat := 88

/-- The uint64 fields fit Go's machine width (implicit in the Go types). -/
def DepositMessage.u64Bounded (d : DepositMessage) : Bool :=
  decide (d.amount < 2 ^ 64)

/-- SyncCommittee (source part_000 lines 1596-1668): 1024 pubkeys of 48
bytes, 16 aggregates of 48 bytes — 49920 bytes. -/
structure SyncCommittee where
  pubkeys : List (List Nat)
  pubkeyAggregates : List (List Nat)
deriving DecidableEq

def SyncCommittee.marshalSSZ (s : SyncCommittee) : Except SszErr (List Nat) :=
  if s.pubkeys.length ≠ 1024 then .error .errVectorLength
  else if s.pubkeys.any (fun x => decide (x.length ≠ 48)) then .error .errBytesLength
  else if s.pubkeyAggregates.length ≠ 16 then .error .errVectorLength
  else if s.pubkeyAggregates.any (fun x => decide (x.length ≠ 48)) then
    .error .errBytesLength
  else .ok (s.pubkeys.flatten ++ s.pubkeyAggregates.flatten)

def SyncCommittee.unmarshalSSZ (buf : List Nat) : Except SszErr SyncCommittee :=
  if buf.length ≠ 49920 then .error .errSize
  else .ok ⟨unmarshalVector 48 1024 (bslice buf 0 49152),
    unmarshalVector 48 16 (bslice buf 49152 49920)⟩

def SyncCommittee.sizeSSZ (_ : SyncCommittee) : Nat := 49920

/-- HistoricalBatch (source part_000 lines 1221-1292): 8192 block roots and
8192 state roots of 32 bytes — 524288 bytes. -/
structure HistoricalBatch where
  blockRoots : List (List Nat)
  stateRoots : List (List Nat)
deriving DecidableEq

def HistoricalBatch.marshalSSZ (h : HistoricalBatch) : Except SszErr (List Nat) :=
  if h.blockRoots.length ≠ 8192 then .error .errVectorLength
  else if h.blockRoots.any (fun x => decide (x.length ≠ 32)) then .error .errBytesLength
  else if h.stateRoots.length ≠ 8192 then .error .errVectorLength
  else if h.stateRoots.any (fun x => decide (x.length ≠ 32)) then .error .errBytesLength
  else .ok (h.blockRoots.flatten ++ h.stateRoots.flatten)

def HistoricalBatch.unmarshalSSZ (buf : List Nat) : Except SszErr HistoricalBatch :=
  if buf.length ≠ 524288 then .error .errSize
  else .ok ⟨unmarshalVector 32 8192 (bslice buf 0 262144),
    unmarshalVector 32 8192 (bslice buf 262144 524288)⟩

def HistoricalBatch.sizeSSZ (_ : HistoricalBatch) : Nat := 524288

/-- Modelled from the spec: the external v1alpha1.Checkpoint codec — epoch
then 32-byte root, 40 bytes. -/
structure Checkpoint where
  epoch : Nat
  root : List Nat
deriving DecidableEq

def Checkpoint.marshalSSZ (c : Checkpoint) : Except SszErr (List Nat) :=
  if c.root.length ≠ 32 then .error .errBytesLength
  else .ok (marshalU64 c.epoch ++ c.root)

def Checkpoint.unmarshalSSZ (buf : List Nat) : Except SszErr Checkpoint :=
  if buf.length ≠ 40 then .error .errSize
  else .ok ⟨unmarshalU64 (bslice buf 0 8), bslice buf 8 40⟩

/-- The uint64 fields fit Go's machine width (implicit in the Go types). -/
def Checkpoint.u64Bounded (c : Checkpoint) : Bool :=
  decide (c.epoch < 2 ^ 64)

/-- Modelled from the spec: the external v1alpha1.Eth1Data codec — 32-byte
deposit root, deposit count, 32-byte block hash, 72 bytes. -/
structure Eth1Data where
  depositRoot : List Nat
  depositCount : Nat
  blockHash : List Nat
deriving DecidableEq

def Eth1Data.marshalSSZ (e : Eth1Data) : Except SszErr (List Nat) :=
  if e.depositRoot.length ≠ 32 then .error .errBytesLength
  else if e.blockHash.length ≠ 32 then .error .errBytesLength
  else .ok (e.depositRoot ++ marshalU64 e.depositCount ++ e.blockHash)

def Eth1Data.unmarshalSSZ (buf : List Nat) : Except SszErr Eth1Data :=
  if buf.length ≠ 72 then .error .errSize
  else .ok ⟨bslice buf 0 32, unmarshalU64 (bslice buf 32 40), bslice buf 40 72⟩

/-- The uint64 fields fit Go's machine width (implicit in the Go types). -/
def Eth1Data.u64Bounded (e : Eth1Data) : Bool :=
  decide (e.depositCount < 2 ^ 64)

/-- Modelled from the spec: the external v1alpha1.BeaconBlockHeader codec —
slot, proposer index, then parent/state/body roots of 32 bytes each,
112 bytes. -/
structure BeaconBlockHeader where
  slot : Nat
  proposerIndex : Nat
  parentRoot : List Nat
  stateRoot : List Nat
  bodyRoot : List Nat
deriving DecidableEq

def BeaconBlockHeader.marshalSSZ (h : BeaconBlockHeader) : Except SszErr (List Nat) :=
  if h.parentRoot.length ≠ 32 then .error .errBytesLength
  else if h.stateRoot.length ≠ 32 then .error .errBytesLength
  else if h.bodyRoot.length ≠ 32 then .error .errBytesLength
  else .ok (marshalU64 h.slot ++ marshalU64 h.proposerIndex ++ h.parentRoot
    ++ h.stateRoot ++ h.bodyRoot)

def BeaconBlockHeader.unmarshalSSZ (buf : List Nat) : Except SszErr BeaconBlockHeader :=
  if buf.length ≠ 112 then .error .errSize
  else .ok ⟨unmarshalU64 (bslice buf 0 8), unmarshalU64 (bslice buf 8 16),
    bslice buf 16 48, bslice buf 48 80, bslice buf 80 112⟩

/-- The uint64 fields fit Go's machine width (implicit in the Go types). -/
def BeaconBlockHeader.u64Bounded (h : BeaconBlockHeader) : Bool :=
  decide (h.slot < 2 ^ 64) && decide (h.proposerIndex < 2 ^ 64)

/-- Modelled from the spec: the external v1alpha1.Validator codec — 48-byte
pubkey, 32-byte withdrawal credentials, effective balance, slashed flag,
then the four epoch markers, 121 bytes. -/
structure Validator where
  publicKey : List Nat
  withdrawalCredentials : List Nat
  effectiveBalance : Nat
  slashed : Bool
  activationEligibilityEpoch : Nat
  activationEpoch : Nat
  exitEpoch : Nat
  withdrawableEpoch : Nat
deriving DecidableEq

def Validator.marshalSSZ (v : Validator) : Except SszErr (List Nat) :=
  if v.publicKey.length ≠ 48 then .error .errBytesLength
  else if v.withdrawalCredentials.length ≠ 32 then .error .errBytesLength
  else .ok (v.publicKey ++ v.withdrawalCredentials ++ marshalU64 v.effectiveBalance
    ++ marshalBool v.slashed ++ marshalU64 v.activationEligibilityEpoch
    ++ marshalU64 v.activationEpoch ++ marshalU64 v.exitEpoch
    ++ marshalU64 v.withdrawableEpoch)

def Validator.unmarshalSSZ (buf : List Nat) : Except SszErr Validator :=
  if buf.length ≠ 121 then .error .errSize
  else .ok ⟨bslice buf 0 48, bslice buf 48 80, unmarshalU64 (bslice buf 80 88),
    unmarshalBool (bslice buf 88 89), unmarshalU64 (bslice buf 89 97),
    unmarshalU64 (bslice buf 97 105), unmarshalU64 (bslice buf 105 113),
    unmarshalU64 (bslice buf 113 121)⟩

/-- The uint64 fields fit Go's machine width (implicit in the Go types). -/
def Validator.u64Bounded (v : Validator) : Bool :=
  decide (v.effectiveBalance < 2 ^ 64) && decide (v.activationEligibilityEpoch < 2 ^ 64)
    && decide (v.activationEpoch < 2 ^ 64) && decide (v.exitEpoch < 2 ^ 64)
    && decide (v.withdrawableEpoch < 2 ^ 64)

/-- BeaconState (source part_000 lines 406-909): 17 fixed fields of
2787217 bytes followed by the six variable sections, whose 4-byte offsets
sit inside the fixed part. -/
structure BeaconState where
  genesisTime : Nat
  genesisValidatorsRoot : List Nat
  slot : Nat
  fork : Fork
  latestBlockHeader : BeaconBlockHeader
  blockRoots : List (List Nat)
  stateRoots : List (List Nat)
  historicalRoots : List (List Nat)
  eth1Data : Eth1Data
  eth1DataVotes : List Eth1Data
  eth1DepositIndex : Nat
  validators : List Validator
  balances : List Nat
  randaoMixes : List (List Nat)
  slashings : List Nat
  previousEpochParticipation : List Nat
  currentEpochParticipation : List Nat
  justificationBits : List Nat
  previousJustifiedCheckpoint : Checkpoint
  currentJustifiedCheckpoint : Checkpoint
  finalizedCheckpoint : Checkpoint
  currentSyncCommittee : SyncCommittee
  nextSyncCommittee : SyncCommittee
deriving DecidableEq

/-- SizeSSZ of BeaconState: the fixed 2787217 bytes plus the six variable
sections. -/
def BeaconState.sizeSSZ (b : BeaconState) : Nat :=
  2787217 + b.historicalRoots.length * 32 + b.eth1DataVotes.length * 72
    + b.validators.length * 121 + b.balances.length * 8
    + b.previousEpochParticipation.length + b.currentEpochParticipation.length

/-- MarshalSSZ(To) of BeaconState: the checks (boolean guards via cond, one
per Go if-statement) and writes in source order;
the running offset starts at 2787217 and each variable section's offset is
written (as a truncated uint32) before its bytes are appended after the
fixed part. -/
def BeaconState.marshalSSZ (b : BeaconState) : Except SszErr (List Nat) :=
  cond (decide (b.genesisValidatorsRoot.length ≠ 32)) (.error .errBytesLength) <|
    match b.fork.marshalSSZ with
    | .error e => .error e
    | .ok forkB =>
      match b.latestBlockHeader.marshalSSZ with
      | .error e => .error e
      | .ok lbhB =>
        cond (decide (b.blockRoots.length ≠ 8192)) (.error .errVectorLength) <|
        cond (b.blockRoots.any (fun x => decide (x.length ≠ 32)))
          (.error .errBytesLength) <|
        cond (decide (b.stateRoots.length ≠ 8192)) (.error .errVectorLength) <|
        cond (b.stateRoots.any (fun x => decide (x.length ≠ 32)))
          (.error .errBytesLength) <|
          match b.eth1Data.marshalSSZ with
          | .error e => .error e
          | .ok e1B =>
            cond (decide (b.randaoMixes.length ≠ 65536)) (.error .errVectorLength) <|
            cond (b.randaoMixes.any (fun x => decide (x.length ≠ 32)))
              (.error .errBytesLength) <|
            cond (decide (b.slashings.length ≠ 8192)) (.error .errVectorLength) <|
            cond (decide (b.justificationBits.length ≠ 1)) (.error .errBytesLength) <|
              match b.previousJustifiedCheckpoint.marshalSSZ with
              | .error e => .error e
              | .ok pjcB =>
                match b.currentJustifiedCheckpoint.marshalSSZ with
                | .error e => .error e
                | .ok cjcB =>
                  match b.finalizedCheckpoint.marshalSSZ with
                  | .error e => .error e
                  | .ok fcB =>
                    match b.currentSyncCommittee.marshalSSZ with
                    | .error e => .error e
                    | .ok cscB =>
                      match b.nextSyncCommittee.marshalSSZ with
                      | .error e => .error e
                      | .ok nscB =>
                        cond (decide (b.historicalRoots.length > 16777216))
                          (.error .errListTooBig) <|
                        cond (b.historicalRoots.any (fun x => decide (x.length ≠ 32)))
                          (.error .errBytesLength) <|
                        cond (decide (b.eth1DataVotes.length > 2048))
                          (.error .errListTooBig) <|
                          match marshalList Eth1Data.marshalSSZ b.eth1DataVotes with
                          | .error e => .error e
                          | .ok votesB =>
                            cond (decide (b.validators.length > 1099511627776))
                              (.error .errListTooBig) <|
                              match marshalList Validator.marshalSSZ b.validators with
                              | .error e => .error e
                              | .ok valsB =>
                                cond (decide (b.balances.length > 1099511627776))
                                  (.error .errListTooBig) <|
                                cond (decide (b.previousEpochParticipation.length
                                    > 1099511627776))
                                  (.error .errBytesLength) <|
                                cond (decide (b.currentEpochParticipation.length
                                    > 1099511627776))
                                  (.error .errBytesLength) <|
                                .ok (marshalU64 b.genesisTime
                                  ++ b.genesisValidatorsRoot
                                  ++ marshalU64 b.slot
                                  ++ forkB
                                  ++ lbhB
                                  ++ b.blockRoots.flatten
                                  ++ b.stateRoots.flatten
                                  ++ writeOffset 2787217
                                  ++ e1B
                                  ++ writeOffset (2787217
                                    + b.historicalRoots.length * 32)
                                  ++ marshalU64 b.eth1DepositIndex
                                  ++ writeOffset (2787217
                                    + b.historicalRoots.length * 32
                                    + b.eth1DataVotes.length * 72)
                                  ++ writeOffset (2787217
                                    + b.historicalRoots.length * 32
                                    + b.eth1DataVotes.length * 72
                                    + b.validators.length * 121)
                                  ++ b.randaoMixes.flatten
                                  ++ (b.slashings.map marshalU64).flatten
                                  ++ writeOffset (2787217
                                    + b.historicalRoots.length * 32
                                    + b.eth1DataVotes.length * 72
                                    + b.validators.length * 121
                                    + b.balances.length * 8)
                                  ++ writeOffset (2787217
                                    + b.historicalRoots.length * 32
                                    + b.eth1DataVotes.length * 72
                                    + b.validators.length * 121
                                    + b.balances.length * 8
                                    + b.previousEpochParticipation.length)
                                  ++ b.justificationBits
                                  ++ pjcB ++ cjcB ++ fcB ++ cscB ++ nscB
                                  ++ b.historicalRoots.flatten
                                  ++ votesB
                                  ++ valsB
                                  ++ (b.balances.map marshalU64).flatten
                                  ++ b.previousEpochParticipation
                                  ++ b.currentEpochParticipation)

/-- The six variable-field offsets read back by UnmarshalSSZ, at their fixed
positions. -/
def bsO7 (buf : List Nat) : Nat := readOffset (bslice buf 524464 524468)

def bsO9 (buf : List Nat) : Nat := readOffset (bslice buf 524540 524544)

def bsO11 (buf : List Nat) : Nat := readOffset (bslice buf 524552 524556)

def bsO12 (buf : List Nat) : Nat := readOffset (bslice buf 524556 524560)

def bsO15 (buf : List Nat) : Nat := readOffset (bslice buf 2687248 2687252)

def bsO16 (buf : List Nat) : Nat := readOffset (bslice buf 2687252 2687256)

/-- UnmarshalSSZ of BeaconState, in source order (boolean guards via cond,
one per Go if-statement): the size guard, the fixed
fields and sub-unmarshals interleaved with the six offset reads and their
checks (each offset must not exceed the buffer length nor undershoot its
predecessor), then the six variable sections cut at the offsets, each with
its division/limit check; ssz.DivideInt2's two failure modes are collapsed
into the one errDivide constant. -/
def BeaconState.unmarshalSSZ (buf : List Nat) : Except SszErr BeaconState :=
  cond (decide (buf.length < 2787217)) (.error .errSize) <|
    match Fork.unmarshalSSZ (bslice buf 48 64) with
    | .error e => .error e
    | .ok fork =>
      match BeaconBlockHeader.unmarshalSSZ (bslice buf 64 176) with
      | .error e => .error e
      | .ok lbh =>
        cond (decide (bsO7 buf > buf.length)) (.error .errOffset) <|
          match Eth1Data.unmarshalSSZ (bslice buf 524468 524540) with
          | .error e => .error e
          | .ok e1 =>
            cond (decide (bsO9 buf > buf.length ∨ bsO7 buf > bsO9 buf))
              (.error .errOffset) <|
            cond (decide (bsO11 buf > buf.length ∨ bsO9 buf > bsO11 buf))
              (.error .errOffset) <|
            cond (decide (bsO12 buf > buf.length ∨ bsO11 buf > bsO12 buf))
              (.error .errOffset) <|
            cond (decide (bsO15 buf > buf.length ∨ bsO12 buf > bsO15 buf))
              (.error .errOffset) <|
            cond (decide (bsO16 buf > buf.length ∨ bsO15 buf > bsO16 buf))
              (.error .errOffset) <|
              match Checkpoint.unmarshalSSZ (bslice buf 2687257 2687297) with
              | .error e => .error e
              | .ok pjc =>
                match Checkpoint.unmarshalSSZ (bslice buf 2687297 2687337) with
                | .error e => .error e
                | .ok cjc =>
                  match Checkpoint.unmarshalSSZ (bslice buf 2687337 2687377) with
                  | .error e => .error e
                  | .ok fc =>
                    match SyncCommittee.unmarshalSSZ (bslice buf 2687377 2737297) with
                    | .error e => .error e
                    | .ok csc =>
                      match SyncCommittee.unmarshalSSZ (bslice buf 2737297 2787217) with
                      | .error e => .error e
                      | .ok nsc =>
                        cond (decide (¬ ((bslice buf (bsO7 buf) (bsO9 buf)).length % 32 = 0
                            ∧ (bslice buf (bsO7 buf) (bsO9 buf)).length / 32
                              ≤ 16777216))) (.error .errDivide) <|
                        cond (decide (¬ ((bslice buf (bsO9 buf) (bsO11 buf)).length % 72 = 0
                            ∧ (bslice buf (bsO9 buf) (bsO11 buf)).length / 72
                              ≤ 2048))) (.error .errDivide) <|
                          match unmarshalChunks Eth1Data.unmarshalSSZ 72
                              ((bslice buf (bsO9 buf) (bsO11 buf)).length / 72) 0
                              (bslice buf (bsO9 buf) (bsO11 buf)) with
                          | .error e => .error e
                          | .ok votes =>
                            cond (decide (¬ ((bslice buf (bsO11 buf) (bsO12 buf)).length % 121 = 0
                                ∧ (bslice buf (bsO11 buf) (bsO12 buf)).length / 121
                                  ≤ 1099511627776))) (.error .errDivide) <|
                              match unmarshalChunks Validator.unmarshalSSZ 121
                                  ((bslice buf (bsO11 buf) (bsO12 buf)).length / 121) 0
                                  (bslice buf (bsO11 buf) (bsO12 buf)) with
                              | .error e => .error e
                              | .ok vals =>
                                cond (decide (¬ ((bslice buf (bsO12 buf) (bsO15 buf)).length % 8 = 0
                                    ∧ (bslice buf (bsO12 buf) (bsO15 buf)).length / 8
                                      ≤ 1099511627776))) (.error .errDivide) <|
                                cond (decide ((bslice buf (bsO15 buf) (bsO16 buf)).length
                                    > 1099511627776)) (.error .errBytesLength) <|
                                cond (decide ((bslice buf (bsO16 buf) buf.length).length
                                    > 1099511627776)) (.error .errBytesLength) <|
                                .ok ⟨unmarshalU64 (bslice buf 0 8),
                                  bslice buf 8 40,
                                  unmarshalU64 (bslice buf 40 48),
                                  fork, lbh,
                                  unmarshalVector 32 8192 (bslice buf 176 262320),
                                  unmarshalVector 32 8192 (bslice buf 262320 524464),
                                  unmarshalVector 32
                                    ((bslice buf (bsO7 buf) (bsO9 buf)).length / 32)
                                    (bslice buf (bsO7 buf) (bsO9 buf)),
                                  e1, votes,
                                  unmarshalU64 (bslice buf 524544 524552),
                                  vals,
                                  unmarshalU64List
                                    ((bslice buf (bsO12 buf) (bsO15 buf)).length / 8)
                                    (bslice buf (bsO12 buf) (bsO15 buf)),
                                  unmarshalVector 32 65536 (bslice buf 524560 2621712),
                                  unmarshalU64List 8192 (bslice buf 2621712 2687248),
                                  bslice buf (bsO15 buf) (bsO16 buf),
                                  bslice buf (bsO16 buf) buf.length,
                                  bslice buf 2687256 2687257,
                                  pjc, cjc, fc, csc, nsc⟩

/-- The uint64 fields fit Go's machine width (implicit in the Go types). -/
def BeaconState.u64Bounded (b : BeaconState) : Bool :=
  decide (b.genesisTime < 2 ^ 64) && decide (b.slot < 2 ^ 64)
    && b.fork.u64Bounded && b.latestBlockHeader.u64Bounded
    && b.eth1Data.u64Bounded && decide (b.eth1DepositIndex < 2 ^ 64)
    && b.eth1DataVotes.all Eth1Data.u64Bounded
    && b.validators.all Validator.u64Bounded
    && b.balances.all (fun x => decide (x < 2 ^ 64))
    && b.slashings.all (fun x => decide (x < 2 ^ 64))
    && b.previousJustifiedCheckpoint.u64Bounded
    && b.currentJustifiedCheckpoint.u64Bounded
    && b.finalizedCheckpoint.u64Bounded


/-- Zero-valued Checkpoint fixture for the codec counterexample. -/
def cpZero : Checkpoint := ⟨0, List.replicate 32 0⟩

/-- Zero-valued SyncCommittee fixture for the codec counterexample. -/
def scZero : SyncCommittee :=
  ⟨List.replicate 1024 (List.replicate 48 0), List.replicate 16 (List.replicate 48 0)⟩

/-- A well-formed BeaconState whose previous-epoch participation list holds
2^32 bytes, pushing the running offset past the uint32 range: every vector
has its required length and every list is within its SSZ limit, so the
record is valid for the codec. -/
def sBig : BeaconState :=
  ⟨0, List.replicate 32 0, 0,
    ⟨List.replicate 4 0, List.replicate 4 0, 0⟩,
    ⟨0, 0, List.replicate 32 0, List.replicate 32 0, List.replicate 32 0⟩,
    List.replicate 8192 (List.replicate 32 0),
    List.replicate 8192 (List.replicate 32 0),
    [],
    ⟨List.replicate 32 0, 0, List.replicate 32 0⟩,
    [], 0, [], [],
    List.replicate 65536 (List.replicate 32 0),
    List.replicate 8192 0,
    List.replicate 4294967296 0,
    [], [0],
    cpZero, cpZero, cpZero, scZero, scZero⟩

/-- Encoding of sBig's Fork. -/
def fkB : List Nat := List.replicate 4 0 ++ List.replicate 4 0 ++ marshalU64 0

/-- Encoding of sBig's latest block header. -/
def lbhZB : List Nat :=
  marshalU64 0 ++ marshalU64 0 ++ List.replicate 32 0 ++ List.replicate 32 0
    ++ List.replicate 32 0

/-- Encoding of sBig's Eth1Data. -/
def e1ZB : List Nat := List.replicate 32 0 ++ marshalU64 0 ++ List.replicate 32 0

/-- Encoding of the zero Checkpoint. -/
def cpZB : List Nat := marshalU64 0 ++ List.replicate 32 0

/-- Encoding of the zero SyncCommittee. -/
def scZB : List Nat :=
  (List.replicate 1024 (List.replicate 48 0)).flatten
    ++ (List.replicate 16 (List.replicate 48 0)).flatten

/-- The encoding MarshalSSZ produces for sBig (its payload with the
sub-record encodings spelled out). -/
def bigB : List Nat :=
  marshalU64 sBig.genesisTime
    ++ sBig.genesisValidatorsRoot
    ++ marshalU64 sBig.slot
    ++ fkB
    ++ lbhZB
    ++ sBig.blockRoots.flatten
    ++ sBig.stateRoots.flatten
    ++ writeOffset 2787217
    ++ e1ZB
    ++ writeOffset (2787217 + sBig.historicalRoots.length * 32)
    ++ marshalU64 sBig.eth1DepositIndex
    ++ writeOffset (2787217 + sBig.historicalRoots.length * 32
      + sBig.eth1DataVotes.length * 72)
    ++ writeOffset (2787217 + sBig.historicalRoots.length * 32
      + sBig.eth1DataVotes.length * 72 + sBig.validators.length * 121)
    ++ sBig.randaoMixes.flatten
    ++ (sBig.slashings.map marshalU64).flatten
    ++ writeOffset (2787217 + sBig.historicalRoots.length * 32
      + sBig.eth1DataVotes.length * 72 + sBig.validators.length * 121
      + sBig.balances.length * 8)
    ++ writeOffset (2787217 + sBig.historicalRoots.length * 32
      + sBig.eth1DataVotes.length * 72 + sBig.validators.length * 121
      + sBig.balances.length * 8 + sBig.previousEpochParticipation.length)
    ++ sBig.justificationBits
    ++ cpZB ++ cpZB ++ cpZB ++ scZB ++ scZB
    ++ sBig.historicalRoots.flatten
    ++ [] ++ []
    ++ (sBig.balances.map marshalU64).flatten
    ++ sBig.previousEpochParticipation
    ++ sBig.currentEpochParticipation

end Ssz

namespace Merkle

/-- Error cases of HashTreeRootWith (ssz.ErrListTooBig,
ssz.ErrIncorrectListSize, ssz.ErrBytesLength). -/
inductive HtrErr where
  | errListTooBig
  | errIncorrectListSize
  | errBytesLength
deriving DecidableEq

/-- Modelled from the spec: the hasher's cached zero-subtree hash at each
depth — depth 0 is the zero chunk, depth d+1 hashes two depth-d zero
subtrees. The 2-to-1 hash H is a parameter (the concrete sha256 is outside
the source). -/
def zeroHash (H : Nat → Nat → Nat) : Nat → Nat
  | 0 => 0
  | d + 1 => H (zeroHash H d) (zeroHash H d)

/-- Modelled from the spec: hh.Merkleize over a virtual tree with 2^depth
leaf slots — the root of the chunk list padded to 2^depth leaves, absent
right subtrees taken from the zero-subtree cache. Chunks are read as
little-endian naturals. -/
def merkleize (H : Nat → Nat → Nat) : Nat → List Nat → Nat
  | 0, cs => cs.headD 0
  | d + 1, cs =>
    H (merkleize H d (cs.take (2 ^ d)))
      (if cs.length ≤ 2 ^ d then zeroHash H d else merkleize H d (cs.drop (2 ^ d)))

/-- Modelled from the spec: the final mix-in hash whose second leaf encodes
the actual element count (the count's 32-byte little-endian chunk reads
back as the count itself). -/
def mixInLength (H : Nat → Nat → Nat) (root len : Nat) : Nat := H root len

/-- Modelled from the spec: hh.MerkleizeWithMixin(subIndx, num, limit) with
limit = 2^depth — Merkle root over the limit-sized tree, then one more hash
mixing in the element count. -/
def merkleizeWithMixin (H : Nat → Nat → Nat) (depth : Nat) (chunks : List Nat)
    (num : Nat) : Nat :=
  mixInLength H (merkleize H depth chunks) num

/-- Modelled from the spec: ssz.CalculateLimit(maxCapacity, numItems, size)
— the chunk count covering maxCapacity items of the given byte size. -/
def calculateLimit (maxCapacity numItems size : Nat) : Nat :=
  if (maxCapacity * size + 31) / 32 = 0 then
    (if numItems = 0 then 1 else numItems)
  else (maxCapacity * size + 31) / 32

/-- A 32-byte chunk read as a little-endian natural number. -/
def chunkOfBytes (l : List Nat) : Nat := l.foldr (fun b acc => b % 256 + 256 * acc) 0

/-- hh.AppendUint64 for each balance followed by hh.FillUpTo32: the packed
chunks, four little-endian uint64s per 32-byte chunk, the last chunk
zero-padded. -/
def packU64s (bal : List Nat) : List Nat :=
  (List.range ((bal.length + 3) / 4)).map
    (fun i => chunkOfBytes (((bal.drop (4 * i)).take 4).map Ssz.marshalU64).flatten)

/-- HistoricalRoots hashing (source part_000 lines 977-993): the length
check, the per-root 32-byte checks, then MerkleizeWithMixin over
CalculateLimit(16777216, n, 32) leaf slots mixing in the count. -/
def htrHistoricalRoots (H : Nat → Nat → Nat) (hr : List (List Nat)) :
    Except HtrErr Nat :=
  if hr.length > 16777216 then .error .errListTooBig
  else if hr.any (fun x => decide (x.length ≠ 32)) then .error .errBytesLength
  else .ok (merkleizeWithMixin H (Nat.log2 (calculateLimit 16777216 hr.length 32))
    (hr.map chunkOfBytes) hr.length)

/-- Eth1DataVotes hashing (source part_000 lines 1000-1014): the element
roots (each element hashed by its own HashTreeRootWith, one chunk per
element) merkleized over the fixed limit 2048 and mixed with the count. -/
def htrEth1DataVotes (H : Nat → Nat → Nat) (roots : List Nat) : Except HtrErr Nat :=
  if roots.length > 2048 then .error .errIncorrectListSize
  else .ok (merkleizeWithMixin H (Nat.log2 2048) roots roots.length)

/-- Validators hashing (source part_000 lines 1019-1032): element roots
merkleized over the fixed limit 1099511627776 and mixed with the count. -/
def htrValidators (H : Nat → Nat → Nat) (roots : List Nat) : Except HtrErr Nat :=
  if roots.length > 1099511627776 then .error .errIncorrectListSize
  else .ok (merkleizeWithMixin H (Nat.log2 1099511627776) roots roots.length)

/-- Balances hashing (source part_000 lines 1035-1048): uint64s packed four
to a chunk, merkleized over CalculateLimit(1099511627776, n, 8) chunk slots
and mixed with the count. -/
def htrBalances (H : Nat → Nat → Nat) (bal : List Nat) : Except HtrErr Nat :=
  if bal.length > 1099511627776 then .error .errListTooBig
  else .ok (merkleizeWithMixin H (Nat.log2 (calculateLimit 1099511627776 bal.length 8))
    (packU64s bal) bal.length)

/-- A sample 2-to-1 combiner with a closed form over singleton chunk lists,
used to exhibit that the root depends on the configured limit. -/
def addHash (a b : Nat) : Nat := a + b + 1

end Merkle


end Prysm

namespace Prysm

/-! ## Theorems -/

open StateTrie in
/-- C9 counterexample: the claim that every indexed accessor fails with an
index-out-of-range error for every index at or past the validator count is
false on the code: with a nil validator registry (count 0) ValidatorAtIndex
returns a fresh zero validator with no error, and PubkeyAtIndex — whose
signature has no error result at all — returns the zero 48-byte pubkey. -/
theorem c9_counterexample :
    (BeaconState.ValidatorAtIndex ⟨some ⟨none, none⟩⟩ 5
       = .ok (some Validator.empty))
    ∧ (BeaconState.PubkeyAtIndex ⟨some ⟨none, none⟩⟩ 5
       = List.replicate 48 0) :=
  ⟨rfl, rfl⟩

open StateTrie in
/-- C9 amended: when the validator registry (resp. the balance list) is
non-nil, ValidatorAtIndex and ValidatorAtIndexReadOnly (resp. BalanceAtIndex)
fail with an index-out-of-range error for every index at or past the list
length, while PubkeyAtIndex instead returns the zero 48-byte pubkey for such
indices (it has no error path). -/
theorem c9_indexed_accessor_out_of_range
    (vals : List (Option Validator)) (bals : List Nat) (idx : Nat)
    (hv : vals.length ≤ idx) (hb : bals.length ≤ idx) :
    (BeaconState.ValidatorAtIndex ⟨some ⟨some vals, some bals⟩⟩ idx
       = .error (.indexOutOfRange idx))
    ∧ (BeaconState.ValidatorAtIndexReadOnly ⟨some ⟨some vals, some bals⟩⟩ idx
       = .error (.indexOutOfRange idx))
    ∧ (BeaconState.BalanceAtIndex ⟨some ⟨some vals, some bals⟩⟩ idx
       = .error (.indexOutOfRange idx))
    ∧ (BeaconState.PubkeyAtIndex ⟨some ⟨some vals, some bals⟩⟩ idx
       = List.replicate 48 0) := by
  refine ⟨?_, ?_, ?_, ?_⟩
  · simp [BeaconState.ValidatorAtIndex, hv]
  · simp [BeaconState.ValidatorAtIndexReadOnly, hv]
  · simp [BeaconState.BalanceAtIndex, hb]
  · simp [BeaconState.PubkeyAtIndex, hv]

open StateTrie in
/-- C9 witness: the amended out-of-range theorem applied at a concrete state
with one validator and one balance and index 3. -/
theorem c9_indexed_accessor_out_of_range_witness :
    ([some Validator.empty].length ≤ 3 ∧ [(0 : Nat)].length ≤ 3)
    ∧ (BeaconState.ValidatorAtIndex ⟨some ⟨some [some Validator.empty], some [0]⟩⟩ 3
        = .error (.indexOutOfRange 3)) :=
  ⟨⟨by decide, by decide⟩,
    (c9_indexed_accessor_out_of_range [some Validator.empty] [0] 3
      (by decide) (by decide)).1⟩

open StateTrie in
/-- C10: on the nil underlying record, every guarded accessor of
ReadOnlyValidator returns the zero value of its result type, but
WithdrawalCredentials — the one accessor the source leaves unguarded —
dereferences the nil record (a crash, modelled as none) instead of
returning a byte slice. -/
theorem c10_nil_readonly_validator_accessors :
    (ReadOnlyValidator.EffectiveBalance ⟨none⟩ = 0)
    ∧ (ReadOnlyValidator.ActivationEligibilityEpoch ⟨none⟩ = 0)
    ∧ (ReadOnlyValidator.ActivationEpoch ⟨none⟩ = 0)
    ∧ (ReadOnlyValidator.ExitEpoch ⟨none⟩ = 0)
    ∧ (ReadOnlyValidator.WithdrawableEpoch ⟨none⟩ = 0)
    ∧ (ReadOnlyValidator.PublicKey ⟨none⟩ = List.replicate 48 0)
    ∧ (ReadOnlyValidator.Slashed ⟨none⟩ = false)
    ∧ (ReadOnlyValidator.CopyValidator ⟨none⟩ = none)
    ∧ (ReadOnlyValidator.WithdrawalCredentials ⟨none⟩ = none) :=
  ⟨rfl, rfl, rfl, rfl, rfl, rfl, rfl, rfl, rfl⟩

open Att in
/-- Helper: the participation/reward loop fails only with a base-reward
failure or a participation-index fault. -/
theorem updateLoop_error_cases (cfg : Att.Config) (env : Att.Env)
    (flags : Att.FlagSet) (p : List Nat) (num : Nat) (l : List Nat)
    (e : Att.AttErr) (h : updateLoop cfg env flags p num l = .error e) :
    (∃ i, e = .baseRewardFailure i) ∨ (∃ i, e = .participationIndexOutOfRange i) := by
  induction l generalizing p num with
  | nil => simp [updateLoop] at h
  | cons idx rest ih =>
    rw [updateLoop] at h
    rcases hbr : env.baseReward idx with _ | br <;> rw [hbr] at h
    · simp at h
      exact Or.inl ⟨idx, h.symm⟩
    · rcases hb : p.get? idx with _ | b <;> rw [hb] at h
      · simp at h
        exact Or.inr ⟨idx, h.symm⟩
      · exact ih _ _ h

/-- Helper: the downward scan computes the minimum of the true square root
and the scan bound. -/
theorem isqrtScan_eq_min (n k : Nat) : Att.isqrtScan n k = min (Nat.sqrt n) k := by
  induction k with
  | zero => simp [Att.isqrtScan]
  | succ k ih =>
    unfold Att.isqrtScan
    by_cases h : (k + 1) * (k + 1) ≤ n
    · have hk : k + 1 ≤ Nat.sqrt n := by
        rw [Nat.le_sqrt']
        nlinarith
      rw [if_pos h]
      omega
    · have hk : Nat.sqrt n ≤ k := by
        by_contra hc
        push_neg at hc
        have := Nat.le_sqrt'.mp hc
        nlinarith
      rw [if_neg h, ih]
      omega

/-- Helper: the modelled integer square root agrees with the floor square
root. -/
theorem integerSquareRoot_eq_sqrt (n : Nat) : Att.integerSquareRoot n = Nat.sqrt n := by
  unfold Att.integerSquareRoot
  rw [isqrtScan_eq_min]
  have := Nat.sqrt_le_self n
  omega

open Att in
/-- C2: timeliness-flag computation. First, within the pipeline the wrapping
slot additions cannot actually wrap: once the target-epoch checks and the
upper window bound have passed, attestation.slot + SLOTS_PER_EPOCH is below
2^64. Second, under that no-overflow condition the granted flag set is
exactly as claimed: HEAD iff matching head and matching target and
state.slot <= slot + MIN_ATTESTATION_INCLUSION_DELAY; SOURCE iff matching
source and state.slot <= slot + floor(sqrt(SLOTS_PER_EPOCH)); TARGET iff
matching target and state.slot <= slot + SLOTS_PER_EPOCH. -/
theorem c2_timeliness_flags :
    (∀ (cfg : Att.Config) (s : Att.BState) (d : Att.AttestationData),
      0 < cfg.slotsPerEpoch → 2 * cfg.slotsPerEpoch ≤ U64MOD → d.slot < U64MOD →
      (d.target.epoch = prevEpoch cfg s ∨ d.target.epoch = currentEpoch cfg s) →
      validateSlotTargetEpoch cfg d = true →
      epochInclusionCheck cfg d.slot s.slot = true →
      d.slot + cfg.slotsPerEpoch < U64MOD)
    ∧ (∀ (cfg : Att.Config) (stateSlot attSlot : Nat) (mh ms mt : Bool),
      attSlot + cfg.slotsPerEpoch < U64MOD →
      cfg.minAttestationInclusionDelay ≤ cfg.slotsPerEpoch →
      ((participatedFlags cfg stateSlot attSlot mh ms mt).head = true
        ↔ (mh = true ∧ mt = true
            ∧ stateSlot ≤ attSlot + cfg.minAttestationInclusionDelay))
      ∧ ((participatedFlags cfg stateSlot attSlot mh ms mt).source = true
        ↔ (ms = true ∧ stateSlot ≤ attSlot + Nat.sqrt cfg.slotsPerEpoch))
      ∧ ((participatedFlags cfg stateSlot attSlot mh ms mt).target = true
        ↔ (mt = true ∧ stateSlot ≤ attSlot + cfg.slotsPerEpoch))) := by
  constructor
  · intro cfg s d hspe h2 hds hmem hval hec
    by_contra hov
    push_neg at hov
    have hu : u64add d.slot cfg.slotsPerEpoch
        = d.slot + cfg.slotsPerEpoch - U64MOD := by
      unfold u64add
      rw [Nat.mod_eq_sub_mod (by omega)]
      exact Nat.mod_eq_of_lt (by omega)
    have hec' : s.slot ≤ d.slot + cfg.slotsPerEpoch - U64MOD := by
      unfold epochInclusionCheck at hec
      simp only [decide_eq_true_eq] at hec
      rw [hu] at hec
      exact hec
    have hce : currentEpoch cfg s = 0 := by
      unfold currentEpoch
      exact Nat.div_eq_of_lt (by omega)
    have hpe : prevEpoch cfg s = 0 := by
      unfold prevEpoch
      rw [hce]
    have htz : d.target.epoch = 0 := by
      rcases hmem with hm | hm <;> omega
    have hv : d.target.epoch = d.slot / cfg.slotsPerEpoch := by
      unfold validateSlotTargetEpoch at hval
      simpa using hval
    have hq : d.slot / cfg.slotsPerEpoch = 0 := by
      rw [← hv, htz]
    have hlt : d.slot < cfg.slotsPerEpoch := (Nat.div_eq_zero_iff (by omega)).mp hq
    omega
  · intro cfg ss as mh ms mt hov hd
    have e1 : u64add as cfg.minAttestationInclusionDelay
        = as + cfg.minAttestationInclusionDelay := by
      unfold u64add
      exact Nat.mod_eq_of_lt (by omega)
    have e2 : u64add as (integerSquareRoot cfg.slotsPerEpoch)
        = as + Nat.sqrt cfg.slotsPerEpoch := by
      unfold u64add
      rw [integerSquareRoot_eq_sqrt]
      have := Nat.sqrt_le_self cfg.slotsPerEpoch
      exact Nat.mod_eq_of_lt (by omega)
    have e3 : u64add as cfg.slotsPerEpoch = as + cfg.slotsPerEpoch := by
      unfold u64add
      exact Nat.mod_eq_of_lt hov
    refine ⟨?_, ?_, ?_⟩ <;>
      simp [participatedFlags, e1, e2, e3, and_assoc]

open Att in
/-- C2 witness: the flag characterization applied at the fixture
configuration, state slot 1 and attested slot 0 with all roots matching. -/
theorem c2_timeliness_flags_witness :
    (att0.data.slot + cfg0.slotsPerEpoch < U64MOD
      ∧ cfg0.minAttestationInclusionDelay ≤ cfg0.slotsPerEpoch)
    ∧ ((Att.participatedFlags cfg0 1 0 true true true).head = true
        ↔ (true = true ∧ true = true
            ∧ (1 : Nat) ≤ 0 + cfg0.minAttestationInclusionDelay)) :=
  ⟨⟨by decide, by decide⟩,
    (c2_timeliness_flags.2 cfg0 1 0 true true true (by decide) (by decide)).1⟩

open Att in
/-- Helper: inversion of a successful run of the no-signature pipeline,
recovering every validation fact and intermediate value of the run. -/
theorem processNoVerify_ok_inv (cfg : Att.Config) (env : Att.Env)
    (s s₁ : Att.BState) (att : Att.Attestation)
    (h : processAttestationNoVerifySignature cfg env s att = (s₁, none)) :
    ∃ avc committee rT rH p num propIdx,
      ¬ (att.data.target.epoch ≠ prevEpoch cfg s
          ∧ att.data.target.epoch ≠ currentEpoch cfg s)
      ∧ validateSlotTargetEpoch cfg att.data = true
      ∧ minInclusionCheck cfg att.data.slot s.slot = true
      ∧ epochInclusionCheck cfg att.data.slot s.slot = true
      ∧ env.activeValidatorCount att.data.target.epoch = some avc
      ∧ att.data.committeeIndex < env.slotCommitteeCount avc
      ∧ env.beaconCommittee att.data.slot att.data.committeeIndex = some committee
      ∧ att.aggregationBits.length = committee.length
      ∧ isValidAttestationIndices
          ((attestingIndices att.aggregationBits committee).insertionSort (· ≤ ·)) = true
      ∧ checkPointIsEqual att.data.source (justifiedCheckpoint cfg s att) = true
      ∧ env.blockRoot att.data.target.epoch = some rT
      ∧ env.blockRootAtSlot att.data.slot = some rH
      ∧ updateLoop cfg env
          (participatedFlags cfg s.slot att.data.slot
            (rH == att.data.beaconBlockRoot)
            (checkPointIsEqual att.data.source (justifiedCheckpoint cfg s att))
            (rT == att.data.target.root))
          (selectedParticipation cfg s att)
          0 (attestingIndices att.aggregationBits committee) = .ok (p, num)
      ∧ env.beaconProposerIndex = some propIdx
      ∧ increaseBalance (setParticipation cfg s att p) propIdx
          (num / (cfg.rewardDenominator * cfg.proposerRewardQuotient))
          = some s₁ := by
  unfold processAttestationNoVerifySignature at h
  by_cases hmem : att.data.target.epoch ≠ prevEpoch cfg s
      ∧ att.data.target.epoch ≠ currentEpoch cfg s
  · rw [if_pos hmem] at h
    simp at h
  rw [if_neg hmem] at h
  by_cases hval : ¬ validateSlotTargetEpoch cfg att.data = true
  · rw [if_pos hval] at h
    simp at h
  rw [if_neg hval] at h
  by_cases hminc : ¬ minInclusionCheck cfg att.data.slot s.slot = true
  · rw [if_pos hminc] at h
    simp at h
  rw [if_neg hminc] at h
  by_cases hepc : ¬ epochInclusionCheck cfg att.data.slot s.slot = true
  · rw [if_pos hepc] at h
    simp at h
  rw [if_neg hepc] at h
  repeat' (split at h)
  all_goals try (exfalso; simpa using congrArg Prod.snd h)
  all_goals
    (refine ⟨?_, ?_, ?_, ?_, ?_, ?_, ?_, ?_, ?_, ?_, ?_, ?_, ?_, ?_, ?_, ?_,
        ?_, ?_, ?_, ?_, ?_, ?_⟩
     rotate_left 7
     all_goals
       first
         | assumption
         | (exact not_not.mp (by assumption))
         | omega
         | (injection h with h1 h2
            rw [← h1]
            assumption))

open Att in
/-- C4 counterexample: with 64-bit wrap-around slot arithmetic the claimed
characterization of the inclusion-delay window fails near the top of the
slot range: the attestation of slot 2^64 - 2 at state slot 2^64 - 1
satisfies both claimed inclusive bounds (slot + delay <= state slot <=
slot + SLOTS_PER_EPOCH under exact arithmetic), yet the code rejects it
with the epoch-inclusion violation because slot + SLOTS_PER_EPOCH wraps
to 30. -/
theorem c4_counterexample :
    (Att.processAttestationNoVerifySignature cfg0 env4 s4 att4).2
       = some .epochInclusionViolation
    ∧ att4.data.slot + cfg0.minAttestationInclusionDelay ≤ s4.slot
    ∧ s4.slot ≤ att4.data.slot + cfg0.slotsPerEpoch :=
  ⟨by decide, by decide, by decide⟩

open Att in
/-- C4 amended: the window additions are wrapping 64-bit additions; whenever
attestation.slot + SLOTS_PER_EPOCH does not overflow (in particular at every
realistic slot), the check rejects exactly when attestation.slot +
MIN_ATTESTATION_INCLUSION_DELAY > state.slot or state.slot >
attestation.slot + SLOTS_PER_EPOCH, both bounds inclusive, given that the
two preceding target-epoch checks passed. -/
theorem c4_inclusion_window_amended (cfg : Att.Config) (env : Att.Env)
    (s : Att.BState) (att : Att.Attestation)
    (hov : att.data.slot + cfg.slotsPerEpoch < U64MOD)
    (hd : cfg.minAttestationInclusionDelay ≤ cfg.slotsPerEpoch)
    (h1 : att.data.target.epoch = prevEpoch cfg s
          ∨ att.data.target.epoch = currentEpoch cfg s)
    (h2 : validateSlotTargetEpoch cfg att.data = true) :
    (((minInclusionCheck cfg att.data.slot s.slot
        && epochInclusionCheck cfg att.data.slot s.slot) = false)
      ↔ (s.slot < att.data.slot + cfg.minAttestationInclusionDelay
          ∨ att.data.slot + cfg.slotsPerEpoch < s.slot))
    ∧ (minInclusionCheck cfg att.data.slot s.slot = false →
        processAttestationNoVerifySignature cfg env s att
          = (s, some .minInclusionViolation))
    ∧ (minInclusionCheck cfg att.data.slot s.slot = true →
        epochInclusionCheck cfg att.data.slot s.slot = false →
        processAttestationNoVerifySignature cfg env s att
          = (s, some .epochInclusionViolation)) := by
  have hmod1 : u64add att.data.slot cfg.minAttestationInclusionDelay
      = att.data.slot + cfg.minAttestationInclusionDelay := by
    unfold u64add
    exact Nat.mod_eq_of_lt (by omega)
  have hmod2 : u64add att.data.slot cfg.slotsPerEpoch
      = att.data.slot + cfg.slotsPerEpoch := by
    unfold u64add
    exact Nat.mod_eq_of_lt hov
  have hm : ¬ (att.data.target.epoch ≠ prevEpoch cfg s
      ∧ att.data.target.epoch ≠ currentEpoch cfg s) := by tauto
  refine ⟨?_, ?_, ?_⟩
  · simp only [minInclusionCheck, epochInclusionCheck, hmod1, hmod2]
    rcases Nat.lt_or_ge s.slot (att.data.slot + cfg.minAttestationInclusionDelay)
        with hc | hc <;>
      rcases Nat.lt_or_ge (att.data.slot + cfg.slotsPerEpoch) s.slot with hc2 | hc2 <;>
      simp <;> omega
  · intro hc
    unfold processAttestationNoVerifySignature
    rw [if_neg hm, if_neg (by simp [h2]), if_pos (by simp [hc])]
  · intro hc1 hc2
    unfold processAttestationNoVerifySignature
    rw [if_neg hm, if_neg (by simp [h2]), if_neg (by simp [hc1]),
      if_pos (by simp [hc2])]

open Att in
/-- C4 witness: the amended window theorem applied to the fixture state at
slot 1 and the fixture attestation of slot 0. -/
theorem c4_inclusion_window_witness :
    (att0.data.slot + cfg0.slotsPerEpoch < U64MOD
      ∧ cfg0.minAttestationInclusionDelay ≤ cfg0.slotsPerEpoch
      ∧ Att.validateSlotTargetEpoch cfg0 att0.data = true)
    ∧ ((Att.minInclusionCheck cfg0 att0.data.slot s0.slot
          && Att.epochInclusionCheck cfg0 att0.data.slot s0.slot) = false
        ↔ (s0.slot < att0.data.slot + cfg0.minAttestationInclusionDelay
            ∨ att0.data.slot + cfg0.slotsPerEpoch < s0.slot)) :=
  ⟨⟨by decide, by decide, by decide⟩,
    (c4_inclusion_window_amended cfg0 env0 s0 att0 (by decide) (by decide)
      (Or.inl (by decide)) (by decide)).1⟩



open Att in
/-- C1 counterexample: processing is not atomic on failure. With the fixture
environment whose aggregate-signature check fails, ProcessAttestation runs
the full mutation phase first: it returns the signature error, yet the
participation flags of both attesting validators and the proposer balance
have visibly changed in the state object. -/
theorem c1_counterexample :
    (Att.processAttestation cfg0 env0 s0 att0).2 = some .invalidSignature
    ∧ (Att.processAttestation cfg0 env0 s0 att0).1.currentEpochParticipation
        ≠ s0.currentEpochParticipation
    ∧ (Att.processAttestation cfg0 env0 s0 att0).1.balances ≠ s0.balances :=
  ⟨by decide, by decide, by decide⟩

open Att in
/-- C1 amended: every failure raised before the participation write-back —
all validation errors, committee/root/base-reward lookup failures and the
participation-index fault — leaves the state object unchanged; only the
proposer-index and balance-credit failures (after the write-back in the
no-signature pipeline) and, for ProcessAttestation, a signature-verification
failure can surface with mutations already visible. -/
theorem c1_pre_commit_failures_atomic (cfg : Att.Config) (env : Att.Env)
    (s : Att.BState) (att : Att.Attestation) (s' : Att.BState) (e : Att.AttErr) :
    (processAttestationNoVerifySignature cfg env s att = (s', some e) →
      e ≠ .proposerIndexFailure → e ≠ .increaseBalanceFailure → s' = s)
    ∧ (processAttestation cfg env s att = (s', some e) →
      e ≠ .proposerIndexFailure → e ≠ .increaseBalanceFailure →
      e ≠ .invalidSignature → s' = s) := by
  have key : ∀ (s' : Att.BState) (e : Att.AttErr),
      processAttestationNoVerifySignature cfg env s att = (s', some e) →
      e ≠ .proposerIndexFailure → e ≠ .increaseBalanceFailure → s' = s := by
    intro s' e h he1 he2
    unfold processAttestationNoVerifySignature at h
    by_cases hmem : att.data.target.epoch ≠ prevEpoch cfg s
        ∧ att.data.target.epoch ≠ currentEpoch cfg s
    · rw [if_pos hmem] at h
      exact (congrArg Prod.fst h).symm
    rw [if_neg hmem] at h
    by_cases hval : ¬ validateSlotTargetEpoch cfg att.data = true
    · rw [if_pos hval] at h
      exact (congrArg Prod.fst h).symm
    rw [if_neg hval] at h
    by_cases hminc : ¬ minInclusionCheck cfg att.data.slot s.slot = true
    · rw [if_pos hminc] at h
      exact (congrArg Prod.fst h).symm
    rw [if_neg hminc] at h
    by_cases hepc : ¬ epochInclusionCheck cfg att.data.slot s.slot = true
    · rw [if_pos hepc] at h
      exact (congrArg Prod.fst h).symm
    rw [if_neg hepc] at h
    repeat' (split at h)
    all_goals
      first
        | exact (congrArg Prod.fst h).symm
        | (injection h with h1 h2
           exact Option.noConfusion h2)
        | (injection h with h1 h2
           injection h2 with h3
           first
             | exact absurd h3.symm he1
             | exact absurd h3.symm he2)
  constructor
  · exact key s' e
  · intro h he1 he2 he3
    unfold processAttestation at h
    split at h
    next s1 e1 heq =>
      have h1 : s1 = s' := by
        simpa using congrArg Prod.fst h
      have h2 : e1 = e := by
        have := congrArg Prod.snd h
        simpa using this
      exact h1 ▸ (key s1 e1 heq (h2 ▸ he1) (h2 ▸ he2))
    next s1 heq =>
      rcases processNoVerify_ok_inv cfg env s s1 att heq with
        ⟨avc, committee, rT, rH, p, num, propIdx, _, _, _, _, _, _, hcom, _,
          hvalid, _, _, _, _, _, _⟩
      have hv : verifyAttestationSignature env att
          = if env.aggregateVerify att then none
            else some AttErr.invalidSignature := by
        unfold verifyAttestationSignature
        rw [hcom]
        simp [hvalid]
      rw [hv] at h
      by_cases hagg : env.aggregateVerify att = true
      · rw [if_pos hagg] at h
        exact absurd (congrArg Prod.snd h) (by simp)
      · rw [if_neg hagg] at h
        have h2 : AttErr.invalidSignature = e := by
          simpa using congrArg Prod.snd h
        exact absurd h2.symm he3

open Att in
/-- C1 witness: the amended atomicity theorem applied to the fixture whose
source checkpoint mismatches: the pipeline rejects it with the
source-mismatch error and the state object is returned unchanged. -/
theorem c1_pre_commit_failures_atomic_witness :
    Att.processAttestationNoVerifySignature cfg0 env0 s0 attBad
      = (s0, some .sourceMismatch) ∧ s0 = s0 :=
  ⟨by decide,
    (c1_pre_commit_failures_atomic cfg0 env0 s0 attBad s0 .sourceMismatch).1
      (by decide) (by decide) (by decide)⟩

/-! ## Bitmask and list helper lemmas for the participation loop -/

open Att in
/-- Helper: the bitmask has-test holds exactly when every set bit of the flag
is set in the participation byte. -/
theorem hasValidatorFlag_iff_testBit (b f : Nat) :
    hasValidatorFlag b f = true ↔ ∀ i, f.testBit i = true → b.testBit i = true := by
  unfold hasValidatorFlag
  rw [beq_iff_eq]
  constructor
  · intro h i hf
    have h2 := congrArg (fun m => m.testBit i) h
    simpa [Nat.testBit_and, hf] using h2
  · intro h
    apply Nat.eq_of_testBit_eq
    intro i
    rw [Nat.testBit_and]
    cases hf : f.testBit i
    · simp
    · simp [h i hf]

open Att in
/-- Helper: setting a flag makes its has-test succeed. -/
theorem hasValidatorFlag_add_self (b f : Nat) :
    hasValidatorFlag (addValidatorFlag b f) f = true := by
  rw [hasValidatorFlag_iff_testBit]
  intro i hf
  unfold addValidatorFlag
  simp [Nat.testBit_or, hf]

open Att in
/-- Helper: setting one flag never clears another flag's has-test. -/
theorem hasValidatorFlag_add_mono (b x f : Nat) (h : hasValidatorFlag b f = true) :
    hasValidatorFlag (addValidatorFlag b x) f = true := by
  rw [hasValidatorFlag_iff_testBit] at h ⊢
  intro i hf
  unfold addValidatorFlag
  simp [Nat.testBit_or, h i hf]

open Att in
/-- Helper: setting a flag that shares no bit with another flag does not
change the other flag's has-test. -/
theorem hasValidatorFlag_add_disjoint (b f g : Nat) (hdisj : f &&& g = 0) :
    hasValidatorFlag (addValidatorFlag b g) f = hasValidatorFlag b f := by
  cases hb : hasValidatorFlag b f
  · cases hg : hasValidatorFlag (addValidatorFlag b g) f
    · rfl
    · exfalso
      rw [hasValidatorFlag_iff_testBit] at hg
      rw [Bool.eq_false_iff, Ne, hasValidatorFlag_iff_testBit] at hb
      apply hb
      intro i hf
      have hgi : g.testBit i = false := by
        have h0 := congrArg (fun m => m.testBit i) hdisj
        simpa [Nat.testBit_and, hf] using h0
      have h2 := hg i hf
      unfold addValidatorFlag at h2
      simpa [Nat.testBit_or, hgi] using h2
  · rw [hasValidatorFlag_add_mono b g f hb]

/-- Helper: replacing a list entry with the value it already holds is the
identity. -/
theorem list_set_self (p : List Nat) (i b : Nat) (h : p.get? i = some b) :
    p.set i b = p := by
  induction p generalizing i with
  | nil => simp at h
  | cons a t ih =>
    cases i with
    | zero =>
      simp at h
      simp [h]
    | succ j =>
      simp at h
      have h2 : t.get? j = some b := by rw [List.get?_eq_getElem?]; exact h
      simp [ih j h2]

/-- Helper: getD agrees with a successful get?. -/
theorem getD_of_getQ (p : List Nat) (i b : Nat) (h : p.get? i = some b) :
    p.getD i 0 = b := by
  rw [List.getD_eq_get?, h]
  rfl

/-- Helper: getD at the overwritten in-range position returns the new
value. -/
theorem getD_set_self (p : List Nat) (i v : Nat) (h : i < p.length) :
    (p.set i v).getD i 0 = v := by
  rw [List.getD_eq_get?, List.get?_set_eq, List.get?_eq_get h]
  rfl

/-- Helper: getD at any other position is untouched by a set. -/
theorem getD_set_other (p : List Nat) (i j v : Nat) (hne : i ≠ j) :
    (p.set i v).getD j 0 = p.getD j 0 := by
  rw [List.getD_eq_get?, List.getD_eq_get?, List.get?_set_ne _ _ hne]

open Att in
/-- Helper: one conditional flag step never clears a present flag. -/
theorem applyFlagStep_fst_mono (fon : Bool) (flag numer br : Nat) (bn : Nat × Nat)
    (f : Nat) (h : hasValidatorFlag bn.1 f = true) :
    hasValidatorFlag (applyFlagStep fon flag numer br bn).1 f = true := by
  unfold applyFlagStep
  split
  · exact hasValidatorFlag_add_mono _ _ _ h
  · exact h

open Att in
/-- Helper: after an enabled flag step the granted flag is present. -/
theorem applyFlagStep_sets (fon : Bool) (flag numer br : Nat) (bn : Nat × Nat)
    (h : fon = true) :
    hasValidatorFlag (applyFlagStep fon flag numer br bn).1 flag = true := by
  unfold applyFlagStep
  split
  · exact hasValidatorFlag_add_self _ _
  · next hc =>
    simp [h] at hc
    exact hc

open Att in
/-- Helper: a flag step on a byte that already carries the flag is the
identity. -/
theorem applyFlagStep_skip (fon : Bool) (flag numer br : Nat) (bn : Nat × Nat)
    (h : hasValidatorFlag bn.1 flag = true) :
    applyFlagStep fon flag numer br bn = bn := by
  unfold applyFlagStep
  rw [if_neg]
  simp [h]

open Att in
/-- Helper: a disabled flag step is the identity. -/
theorem applyFlagStep_off (flag numer br : Nat) (bn : Nat × Nat) :
    applyFlagStep false flag numer br bn = bn := by
  unfold applyFlagStep
  simp

open Att in
/-- Helper: one full loop-iteration byte update never clears a present
flag. -/
theorem updateByte_fst_mono (cfg : Att.Config) (fl : Att.FlagSet) (br b num f : Nat)
    (h : hasValidatorFlag b f = true) :
    hasValidatorFlag (updateByte cfg fl br b num).1 f = true := by
  unfold updateByte
  exact applyFlagStep_fst_mono _ _ _ _ _ _
    (applyFlagStep_fst_mono _ _ _ _ _ _
      (applyFlagStep_fst_mono _ _ _ _ _ _ h))

open Att in
/-- Helper: after one loop-iteration byte update every granted flag is
present in the byte. -/
theorem updateByte_grants (cfg : Att.Config) (fl : Att.FlagSet) (br b num : Nat) :
    (fl.head = true →
      hasValidatorFlag (updateByte cfg fl br b num).1 cfg.timelyHeadFlag = true)
    ∧ (fl.source = true →
      hasValidatorFlag (updateByte cfg fl br b num).1 cfg.timelySourceFlag = true)
    ∧ (fl.target = true →
      hasValidatorFlag (updateByte cfg fl br b num).1 cfg.timelyTargetFlag = true) := by
  unfold updateByte
  refine ⟨?_, ?_, ?_⟩
  · intro h
    exact applyFlagStep_fst_mono _ _ _ _ _ _
      (applyFlagStep_fst_mono _ _ _ _ _ _ (applyFlagStep_sets _ _ _ _ _ h))
  · intro h
    exact applyFlagStep_fst_mono _ _ _ _ _ _ (applyFlagStep_sets _ _ _ _ _ h)
  · intro h
    exact applyFlagStep_sets _ _ _ _ _ h

open Att in
/-- Helper: when every granted flag is already present in the byte, the
loop-iteration byte update changes neither byte nor numerator. -/
theorem updateByte_skip (cfg : Att.Config) (fl : Att.FlagSet) (br b num : Nat)
    (hh : fl.head = true → hasValidatorFlag b cfg.timelyHeadFlag = true)
    (hs : fl.source = true → hasValidatorFlag b cfg.timelySourceFlag = true)
    (ht : fl.target = true → hasValidatorFlag b cfg.timelyTargetFlag = true) :
    updateByte cfg fl br b num = (b, num) := by
  unfold updateByte
  have e1 : applyFlagStep fl.head cfg.timelyHeadFlag cfg.timelyHeadNumerator br
      (b, num) = (b, num) := by
    cases hflag : fl.head
    · exact applyFlagStep_off _ _ _ _
    · exact applyFlagStep_skip _ _ _ _ _ (hh hflag)
  rw [e1]
  have e2 : applyFlagStep fl.source cfg.timelySourceFlag cfg.timelySourceNumerator br
      (b, num) = (b, num) := by
    cases hflag : fl.source
    · exact applyFlagStep_off _ _ _ _
    · exact applyFlagStep_skip _ _ _ _ _ (hs hflag)
  rw [e2]
  cases hflag : fl.target
  · exact applyFlagStep_off _ _ _ _
  · exact applyFlagStep_skip _ _ _ _ _ (ht hflag)

open Att in
/-- Helper: invariants of a successful participation/reward loop run — the
array length is preserved, no set flag bit is ever cleared, and every
attesting index has a base reward, lies in range, and carries every granted
flag afterwards. -/
theorem updateLoop_ok_facts (cfg : Att.Config) (env : Att.Env)
    (fl : Att.FlagSet) (l : List Nat) (p : List Nat) (num : Nat)
    (p' : List Nat) (n : Nat) (h : updateLoop cfg env fl p num l = .ok (p', n)) :
    p'.length = p.length
    ∧ (∀ i f, hasValidatorFlag (p.getD i 0) f = true →
        hasValidatorFlag (p'.getD i 0) f = true)
    ∧ (∀ idx, idx ∈ l → (∃ br, env.baseReward idx = some br) ∧ idx < p.length
        ∧ (fl.head = true →
            hasValidatorFlag (p'.getD idx 0) cfg.timelyHeadFlag = true)
        ∧ (fl.source = true →
            hasValidatorFlag (p'.getD idx 0) cfg.timelySourceFlag = true)
        ∧ (fl.target = true →
            hasValidatorFlag (p'.getD idx 0) cfg.timelyTargetFlag = true)) := by
  induction l generalizing p num with
  | nil =>
    simp [updateLoop] at h
    obtain ⟨hp, -⟩ := h
    subst hp
    refine ⟨rfl, fun i f hf => hf, fun idx hidx => absurd hidx (List.not_mem_nil idx)⟩
  | cons idx rest ih =>
    rw [updateLoop] at h
    rcases hbr : env.baseReward idx with _ | br <;> rw [hbr] at h
    · simp at h
    · rcases hb : p.get? idx with _ | b <;> rw [hb] at h
      · simp at h
      · obtain ⟨ihl, ihm, ihmem⟩ := ih _ _ h
        have hlt : idx < p.length := by
          obtain ⟨hlt, -⟩ := List.get?_eq_some.mp hb
          exact hlt
        have hgd : p.getD idx 0 = b := getD_of_getQ p idx b hb
        have hsetD :
            (p.set idx (updateByte cfg fl br b num).1).getD idx 0
              = (updateByte cfg fl br b num).1 := getD_set_self p idx _ hlt
        refine ⟨ihl.trans (List.length_set p idx _), ?_, ?_⟩
        · intro i f hf
          by_cases hi : idx = i
          · subst hi
            apply ihm idx f
            rw [hsetD]
            exact updateByte_fst_mono cfg fl br b num f (hgd ▸ hf)
          · apply ihm i f
            rw [getD_set_other p idx i _ hi]
            exact hf
        · intro j hj
          rcases List.mem_cons.mp hj with hj | hj
          · subst hj
            obtain ⟨g1, g2, g3⟩ := updateByte_grants cfg fl br b num
            refine ⟨⟨br, hbr⟩, hlt, ?_, ?_, ?_⟩
            · intro hflag
              apply ihm j cfg.timelyHeadFlag
              rw [hsetD]
              exact g1 hflag
            · intro hflag
              apply ihm j cfg.timelySourceFlag
              rw [hsetD]
              exact g2 hflag
            · intro hflag
              apply ihm j cfg.timelyTargetFlag
              rw [hsetD]
              exact g3 hflag
          · obtain ⟨hbrj, hltj, hgr⟩ := ihmem j hj
            exact ⟨hbrj, by simpa [List.length_set] using hltj, hgr⟩

open Att in
/-- Helper: when every attesting index already carries every granted flag,
the participation/reward loop changes nothing: the array and the numerator
come back untouched. -/
theorem updateLoop_noop (cfg : Att.Config) (env : Att.Env) (fl : Att.FlagSet)
    (l : List Nat) (p : List Nat) (num : Nat)
    (hbr : ∀ idx, idx ∈ l → ∃ br, env.baseReward idx = some br)
    (hlt : ∀ idx, idx ∈ l → idx < p.length)
    (hfl : ∀ idx, idx ∈ l →
        (fl.head = true → hasValidatorFlag (p.getD idx 0) cfg.timelyHeadFlag = true)
        ∧ (fl.source = true → hasValidatorFlag (p.getD idx 0) cfg.timelySourceFlag = true)
        ∧ (fl.target = true → hasValidatorFlag (p.getD idx 0) cfg.timelyTargetFlag = true)) :
    updateLoop cfg env fl p num l = .ok (p, num) := by
  induction l with
  | nil => rfl
  | cons idx rest ih =>
    obtain ⟨br, hbr0⟩ := hbr idx (List.mem_cons_self idx rest)
    have hlt0 := hlt idx (List.mem_cons_self idx rest)
    obtain ⟨b, hb⟩ : ∃ b, p.get? idx = some b :=
      ⟨p.get ⟨idx, hlt0⟩, List.get?_eq_get hlt0⟩
    have hgd : p.getD idx 0 = b := getD_of_getQ p idx b hb
    obtain ⟨f1, f2, f3⟩ := hfl idx (List.mem_cons_self idx rest)
    have hub : updateByte cfg fl br b num = (b, num) :=
      updateByte_skip cfg fl br b num
        (fun hh => hgd ▸ f1 hh) (fun hh => hgd ▸ f2 hh) (fun hh => hgd ▸ f3 hh)
    rw [updateLoop, hbr0, hb]
    show updateLoop cfg env fl (p.set idx (updateByte cfg fl br b num).1)
        (updateByte cfg fl br b num).2 rest = .ok (p, num)
    rw [hub]
    show updateLoop cfg env fl (p.set idx b) num rest = .ok (p, num)
    rw [list_set_self p idx b hb]
    exact ih (fun j hj => hbr j (List.mem_cons_of_mem idx hj))
      (fun j hj => hlt j (List.mem_cons_of_mem idx hj))
      (fun j hj => hfl j (List.mem_cons_of_mem idx hj))

open Att in
/-- Helper: forward computation of the no-signature pipeline — when every
validation check passes and every collaborator lookup, the loop and the
proposer credit succeed, the pipeline returns the credited state with no
error. -/
theorem processNoVerify_ok_build (cfg : Att.Config) (env : Att.Env)
    (s : Att.BState) (att : Att.Attestation) (avc : Nat) (committee : List Nat)
    (rT rH : List Nat) (p : List Nat) (num propIdx : Nat) (s₂ : Att.BState)
    (hmem : ¬ (att.data.target.epoch ≠ prevEpoch cfg s
        ∧ att.data.target.epoch ≠ currentEpoch cfg s))
    (hval : validateSlotTargetEpoch cfg att.data = true)
    (hminc : minInclusionCheck cfg att.data.slot s.slot = true)
    (hepc : epochInclusionCheck cfg att.data.slot s.slot = true)
    (havc : env.activeValidatorCount att.data.target.epoch = some avc)
    (hci : att.data.committeeIndex < env.slotCommitteeCount avc)
    (hcom : env.beaconCommittee att.data.slot att.data.committeeIndex = some committee)
    (hlen : att.aggregationBits.length = committee.length)
    (hvalid : isValidAttestationIndices
        ((attestingIndices att.aggregationBits committee).insertionSort (· ≤ ·)) = true)
    (hsrc : checkPointIsEqual att.data.source (justifiedCheckpoint cfg s att) = true)
    (hrt : env.blockRoot att.data.target.epoch = some rT)
    (hrh : env.blockRootAtSlot att.data.slot = some rH)
    (hul : updateLoop cfg env
        (participatedFlags cfg s.slot att.data.slot
          (rH == att.data.beaconBlockRoot)
          (checkPointIsEqual att.data.source (justifiedCheckpoint cfg s att))
          (rT == att.data.target.root))
        (selectedParticipation cfg s att)
        0 (attestingIndices att.aggregationBits committee) = .ok (p, num))
    (hpi : env.beaconProposerIndex = some propIdx)
    (hib : increaseBalance (setParticipation cfg s att p) propIdx
        (num / (cfg.rewardDenominator * cfg.proposerRewardQuotient)) = some s₂) :
    processAttestationNoVerifySignature cfg env s att = (s₂, none) := by
  have hffg : ¬ (att.data.target.epoch ≠
      (if att.data.target.epoch == currentEpoch cfg s
        then currentEpoch cfg s else prevEpoch cfg s)) := by
    by_cases hc : att.data.target.epoch = currentEpoch cfg s
    · simp [hc]
    · have hp : att.data.target.epoch = prevEpoch cfg s := by tauto
      by_cases h2 : prevEpoch cfg s = currentEpoch cfg s <;> simp [hc, hp, h2]
  unfold processAttestationNoVerifySignature
  rw [if_neg hmem, if_neg (not_not.mpr hval), if_neg (not_not.mpr hminc),
    if_neg (not_not.mpr hepc)]
  split
  · next heq => rw [havc] at heq; cases heq
  · next avc' heq =>
    rw [havc] at heq
    injection heq with h1
    subst h1
    rw [if_neg (by omega : ¬ att.data.committeeIndex ≥ env.slotCommitteeCount avc)]
    split
    · next heq2 => rw [hcom] at heq2; cases heq2
    · next committee' heq2 =>
      rw [hcom] at heq2
      injection heq2 with h2
      subst h2
      rw [if_neg (not_not.mpr hlen), if_neg (not_not.mpr hvalid), if_neg hffg,
        if_neg (not_not.mpr hsrc)]
      split
      · next heq3 => rw [hrt] at heq3; cases heq3
      · next rT' heq3 =>
        rw [hrt] at heq3
        injection heq3 with h3
        subst h3
        split
        · next heq4 => rw [hrh] at heq4; cases heq4
        · next rH' heq4 =>
          rw [hrh] at heq4
          injection heq4 with h4
          subst h4
          split
          · next heq5 => rw [hul] at heq5; cases heq5
          · next p' num' heq5 =>
            rw [hul] at heq5
            injection heq5 with h5
            injection h5 with h6 h7
            subst h6
            subst h7
            split
            · next heq6 => rw [hpi] at heq6; cases heq6
            · next propIdx' heq6 =>
              rw [hpi] at heq6
              injection heq6 with h8
              subst h8
              split
              · next heq7 => rw [hib] at heq7; cases heq7
              · next s₂' heq7 =>
                rw [hib] at heq7
                injection heq7 with h9
                subst h9
                rfl

open Att in
/-- Helper: inversion of a successful balance credit — the index was in
range and the result is the state with that single balance replaced by its
wrapping sum with the amount. -/
theorem increaseBalance_inv (s : Att.BState) (idx amt : Nat) (s' : Att.BState)
    (h : increaseBalance s idx amt = some s') :
    ∃ bal, s.balances.get? idx = some bal
      ∧ s' = { s with balances := s.balances.set idx (u64add bal amt) } := by
  unfold increaseBalance at h
  rcases hb : s.balances.get? idx with _ | bal <;> rw [hb] at h
  · simp at h
  · simp at h
    exact ⟨bal, rfl, h.symm⟩

open Att in
/-- Helper: inversion of a successful full processing run — the no-signature
phase succeeded with the same final state and the signature verified. -/
theorem processAttestation_ok_inv (cfg : Att.Config) (env : Att.Env)
    (s s₁ : Att.BState) (att : Att.Attestation)
    (h : processAttestation cfg env s att = (s₁, none)) :
    processAttestationNoVerifySignature cfg env s att = (s₁, none)
    ∧ verifyAttestationSignature env att = none := by
  unfold processAttestation at h
  rcases hnv : processAttestationNoVerifySignature cfg env s att with ⟨s1, oe⟩
  rw [hnv] at h
  rcases oe with _ | e
  · rcases hv : verifyAttestationSignature env att with _ | e <;> rw [hv] at h
    · simp at h
      exact ⟨by rw [h], rfl⟩
    · simp at h
  · simp at h

open Att in
/-- Helper: abstract no-op run of the no-signature pipeline — a state whose
selected participation array already carries every granted flag at every
attesting index, and whose proposer balance is in range and reduced, passes
the pipeline unchanged with a zero credit. -/
theorem processNoVerify_noop_run (cfg : Att.Config) (env : Att.Env)
    (s₁ : Att.BState) (att : Att.Attestation) (avc : Nat) (committee : List Nat)
    (rT rH : List Nat) (p : List Nat) (propIdx bal₁ : Nat)
    (hmem : ¬ (att.data.target.epoch ≠ prevEpoch cfg s₁
        ∧ att.data.target.epoch ≠ currentEpoch cfg s₁))
    (hval : validateSlotTargetEpoch cfg att.data = true)
    (hminc : minInclusionCheck cfg att.data.slot s₁.slot = true)
    (hepc : epochInclusionCheck cfg att.data.slot s₁.slot = true)
    (havc : env.activeValidatorCount att.data.target.epoch = some avc)
    (hci : att.data.committeeIndex < env.slotCommitteeCount avc)
    (hcom : env.beaconCommittee att.data.slot att.data.committeeIndex = some committee)
    (hlen : att.aggregationBits.length = committee.length)
    (hvalid : isValidAttestationIndices
        ((attestingIndices att.aggregationBits committee).insertionSort (· ≤ ·)) = true)
    (hsrc : checkPointIsEqual att.data.source (justifiedCheckpoint cfg s₁ att) = true)
    (hrt : env.blockRoot att.data.target.epoch = some rT)
    (hrh : env.blockRootAtSlot att.data.slot = some rH)
    (hsel : selectedParticipation cfg s₁ att = p)
    (hsp : setParticipation cfg s₁ att p = s₁)
    (hbr : ∀ idx, idx ∈ attestingIndices att.aggregationBits committee →
        ∃ br, env.baseReward idx = some br)
    (hlt : ∀ idx, idx ∈ attestingIndices att.aggregationBits committee →
        idx < p.length)
    (hfl : ∀ idx, idx ∈ attestingIndices att.aggregationBits committee →
        ((participatedFlags cfg s₁.slot att.data.slot
            (rH == att.data.beaconBlockRoot)
            (checkPointIsEqual att.data.source (justifiedCheckpoint cfg s₁ att))
            (rT == att.data.target.root)).head = true →
          hasValidatorFlag (p.getD idx 0) cfg.timelyHeadFlag = true)
        ∧ ((participatedFlags cfg s₁.slot att.data.slot
            (rH == att.data.beaconBlockRoot)
            (checkPointIsEqual att.data.source (justifiedCheckpoint cfg s₁ att))
            (rT == att.data.target.root)).source = true →
          hasValidatorFlag (p.getD idx 0) cfg.timelySourceFlag = true)
        ∧ ((participatedFlags cfg s₁.slot att.data.slot
            (rH == att.data.beaconBlockRoot)
            (checkPointIsEqual att.data.source (justifiedCheckpoint cfg s₁ att))
            (rT == att.data.target.root)).target = true →
          hasValidatorFlag (p.getD idx 0) cfg.timelyTargetFlag = true))
    (hpi : env.beaconProposerIndex = some propIdx)
    (hbal : s₁.balances.get? propIdx = some bal₁)
    (hb1 : bal₁ < U64MOD) :
    processAttestationNoVerifySignature cfg env s₁ att = (s₁, none) := by
  refine processNoVerify_ok_build cfg env s₁ att avc committee rT rH p 0 propIdx s₁
    hmem hval hminc hepc havc hci hcom hlen hvalid hsrc hrt hrh ?_ hpi ?_
  · rw [hsel]
    exact updateLoop_noop cfg env _ _ p 0 hbr hlt hfl
  · rw [Nat.zero_div, hsp]
    unfold increaseBalance
    rw [hbal]
    show some { s₁ with balances := s₁.balances.set propIdx (u64add bal₁ 0) } = some s₁
    have hz : u64add bal₁ 0 = bal₁ := by
      unfold u64add
      unfold U64MOD at hb1 ⊢
      omega
    rw [hz, list_set_self _ _ _ hbal]

open Att in
/-- C3: participation updates are monotonic and re-application is a no-op —
when the no-signature pipeline processes an attestation successfully, every
participation-flag bit set in the selected epoch-participation array before
the call is still set afterwards (no bit is ever cleared), and processing
the very same attestation again on the resulting state returns that state
unchanged with no error: no new bit is set and the proposer-reward numerator
of the second run is zero, so nothing is double-credited. -/
theorem c3_participation_monotonic_idempotent (cfg : Att.Config) (env : Att.Env)
    (s s₁ : Att.BState) (att : Att.Attestation)
    (h : processAttestationNoVerifySignature cfg env s att = (s₁, none)) :
    processAttestationNoVerifySignature cfg env s₁ att = (s₁, none)
    ∧ (∀ i f, hasValidatorFlag ((selectedParticipation cfg s att).getD i 0) f = true →
        hasValidatorFlag ((selectedParticipation cfg s₁ att).getD i 0) f = true) := by
  obtain ⟨avc, committee, rT, rH, p, num, propIdx, hmem, hval, hminc, hepc, havc,
    hci, hcom, hlen, hvalid, hsrc, hrt, hrh, hul, hpi, hib⟩ :=
    processNoVerify_ok_inv cfg env s s₁ att h
  obtain ⟨hlenp, hmono, hfacts⟩ := updateLoop_ok_facts _ _ _ _ _ _ _ _ hul
  obtain ⟨bal, hbal, hs1⟩ := increaseBalance_inv _ _ _ _ hib
  by_cases hcondP : att.data.target.epoch = currentEpoch cfg s
  · have hcond : (att.data.target.epoch == currentEpoch cfg s) = true :=
      beq_iff_eq.mpr hcondP
    have hsp0 : setParticipation cfg s att p = { s with currentEpochParticipation := p } := by
      simp [setParticipation, hcond]
    rw [hsp0] at hbal hs1
    dsimp only at hbal
    have hslot₁ : s₁.slot = s.slot := by rw [hs1]
    have hcur₁ : s₁.currentEpochParticipation = p := by rw [hs1]
    have hcurJ₁ : s₁.currentJustifiedCheckpoint = s.currentJustifiedCheckpoint := by
      rw [hs1]
    have hbal₁ : s₁.balances = s.balances.set propIdx
        (u64add bal (num / (cfg.rewardDenominator * cfg.proposerRewardQuotient))) := by
      rw [hs1]
    have hce : currentEpoch cfg s₁ = currentEpoch cfg s := by
      unfold currentEpoch
      rw [hslot₁]
    have hpe : prevEpoch cfg s₁ = prevEpoch cfg s := by
      unfold prevEpoch
      rw [hce]
    have hcond₁ : (att.data.target.epoch == currentEpoch cfg s₁) = true := by
      rw [hce]
      exact hcond
    have hsel₁ : selectedParticipation cfg s₁ att = p := by
      simp [selectedParticipation, hcond₁, hcur₁]
    have hjc₁ : justifiedCheckpoint cfg s₁ att = justifiedCheckpoint cfg s att := by
      simp [justifiedCheckpoint, hcond₁, hcond, hcurJ₁]
    have hsp₁ : setParticipation cfg s₁ att p = s₁ := by
      simp [setParticipation, hcond₁, ← hcur₁]
    refine ⟨processNoVerify_noop_run cfg env s₁ att avc committee rT rH p propIdx
        (u64add bal (num / (cfg.rewardDenominator * cfg.proposerRewardQuotient)))
        (by rw [hpe, hce]; exact hmem) hval (by rw [hslot₁]; exact hminc)
        (by rw [hslot₁]; exact hepc) havc hci hcom hlen hvalid
        (by rw [hjc₁]; exact hsrc) hrt hrh hsel₁ hsp₁
        (fun j hj => (hfacts j hj).1) ?_ ?_ hpi ?_ ?_, ?_⟩
    · intro j hj
      have h2 := (hfacts j hj).2.1
      omega
    · intro j hj
      rw [hslot₁, hjc₁]
      exact (hfacts j hj).2.2
    · rw [hbal₁, List.get?_set_eq, hbal]
      rfl
    · unfold u64add U64MOD
      exact Nat.mod_lt _ (by positivity)
    · intro i f hf
      rw [hsel₁]
      exact hmono i f hf
  · have hcond : (att.data.target.epoch == currentEpoch cfg s) = false := by
      simp [hcondP]
    have hsp0 : setParticipation cfg s att p
        = { s with previousEpochParticipation := p } := by
      simp [setParticipation, hcond]
    rw [hsp0] at hbal hs1
    dsimp only at hbal
    have hslot₁ : s₁.slot = s.slot := by rw [hs1]
    have hprev₁ : s₁.previousEpochParticipation = p := by rw [hs1]
    have hprevJ₁ : s₁.previousJustifiedCheckpoint = s.previousJustifiedCheckpoint := by
      rw [hs1]
    have hbal₁ : s₁.balances = s.balances.set propIdx
        (u64add bal (num / (cfg.rewardDenominator * cfg.proposerRewardQuotient))) := by
      rw [hs1]
    have hce : currentEpoch cfg s₁ = currentEpoch cfg s := by
      unfold currentEpoch
      rw [hslot₁]
    have hpe : prevEpoch cfg s₁ = prevEpoch cfg s := by
      unfold prevEpoch
      rw [hce]
    have hcond₁ : (att.data.target.epoch == currentEpoch cfg s₁) = false := by
      rw [hce]
      exact hcond
    have hsel₁ : selectedParticipation cfg s₁ att = p := by
      simp [selectedParticipation, hcond₁, hprev₁]
    have hjc₁ : justifiedCheckpoint cfg s₁ att = justifiedCheckpoint cfg s att := by
      simp [justifiedCheckpoint, hcond₁, hcond, hprevJ₁]
    have hsp₁ : setParticipation cfg s₁ att p = s₁ := by
      simp [setParticipation, hcond₁, ← hprev₁]
    refine ⟨processNoVerify_noop_run cfg env s₁ att avc committee rT rH p propIdx
        (u64add bal (num / (cfg.rewardDenominator * cfg.proposerRewardQuotient)))
        (by rw [hpe, hce]; exact hmem) hval (by rw [hslot₁]; exact hminc)
        (by rw [hslot₁]; exact hepc) havc hci hcom hlen hvalid
        (by rw [hjc₁]; exact hsrc) hrt hrh hsel₁ hsp₁
        (fun j hj => (hfacts j hj).1) ?_ ?_ hpi ?_ ?_, ?_⟩
    · intro j hj
      have h2 := (hfacts j hj).2.1
      omega
    · intro j hj
      rw [hslot₁, hjc₁]
      exact (hfacts j hj).2.2
    · rw [hbal₁, List.get?_set_eq, hbal]
      rfl
    · unfold u64add U64MOD
      exact Nat.mod_lt _ (by positivity)
    · intro i f hf
      rw [hsel₁]
      exact hmono i f hf

open Att in
/-- C3 witness: on the concrete fixture run (s0, att0), whose first
application succeeds and produces s1after, the theorem yields that a second
application of the same attestation returns s1after unchanged with no
error. -/
theorem c3_participation_monotonic_idempotent_witness :
    Att.processAttestationNoVerifySignature cfg0 env0 s0 att0 = (s1after, none)
    ∧ Att.processAttestationNoVerifySignature cfg0 env0 s1after att0
      = (s1after, none) :=
  ⟨by decide,
    (c3_participation_monotonic_idempotent cfg0 env0 s0 s1after att0 (by decide)).1⟩

open Att in
/-- Helper: with pairwise bit-disjoint flag constants and a reduced incoming
numerator, one loop-iteration byte update adds exactly the spec-side
contribution of that index (modulo 2^64) to the numerator. -/
theorem updateByte_snd_char (cfg : Att.Config) (fl : Att.FlagSet) (br b num : Nat)
    (hds : cfg.timelyHeadFlag &&& cfg.timelySourceFlag = 0)
    (hdt : cfg.timelyHeadFlag &&& cfg.timelyTargetFlag = 0)
    (hst : cfg.timelySourceFlag &&& cfg.timelyTargetFlag = 0)
    (hnum : num < U64MOD) :
    (updateByte cfg fl br b num).2
      = (num + specFlagContribution cfg fl br b) % U64MOD := by
  have hsd : cfg.timelySourceFlag &&& cfg.timelyHeadFlag = 0 := by
    rw [Nat.and_comm]; exact hds
  have htd : cfg.timelyTargetFlag &&& cfg.timelyHeadFlag = 0 := by
    rw [Nat.and_comm]; exact hdt
  have hts : cfg.timelyTargetFlag &&& cfg.timelySourceFlag = 0 := by
    rw [Nat.and_comm]; exact hst
  unfold U64MOD at hnum
  unfold updateByte applyFlagStep specFlagContribution
  cases h1 : fl.head <;> cases h2 : fl.source <;> cases h3 : fl.target <;>
    cases g1 : hasValidatorFlag b cfg.timelyHeadFlag <;>
    cases g2 : hasValidatorFlag b cfg.timelySourceFlag <;>
    cases g3 : hasValidatorFlag b cfg.timelyTargetFlag <;>
    simp [g1, g2, g3,
      hasValidatorFlag_add_disjoint _ _ _ hsd,
      hasValidatorFlag_add_disjoint _ _ _ htd,
      hasValidatorFlag_add_disjoint _ _ _ hts] <;>
    (try unfold u64add) <;> (try unfold u64mul) <;> (try unfold U64MOD) <;>
    omega

open Att in
/-- Helper: with pairwise bit-disjoint flag constants and duplicate-free
attesting indices, the numerator produced by a successful
participation/reward loop run is the spec-side sum of per-index
contributions, judged against the pre-call array, modulo 2^64. -/
theorem updateLoop_numerator (cfg : Att.Config) (env : Att.Env) (fl : Att.FlagSet)
    (hds : cfg.timelyHeadFlag &&& cfg.timelySourceFlag = 0)
    (hdt : cfg.timelyHeadFlag &&& cfg.timelyTargetFlag = 0)
    (hst : cfg.timelySourceFlag &&& cfg.timelyTargetFlag = 0)
    (l : List Nat) (hnd : l.Nodup) :
    ∀ p num p' n, num < U64MOD →
      updateLoop cfg env fl p num l = .ok (p', n) →
      n = (num + specNumerator cfg env fl p l) % U64MOD := by
  induction l with
  | nil =>
    intro p num p' n hnum h
    simp [updateLoop] at h
    obtain ⟨-, hn⟩ := h
    subst hn
    simp [specNumerator]
    unfold U64MOD at hnum ⊢
    omega
  | cons idx rest ih =>
    have hnd2 : rest.Nodup := hnd.of_cons
    have hnotmem : idx ∉ rest := (List.nodup_cons.mp hnd).1
    intro p num p' n hnum h
    rw [updateLoop] at h
    rcases hbr : env.baseReward idx with _ | br <;> rw [hbr] at h
    · simp at h
    · rcases hb : p.get? idx with _ | b <;> rw [hb] at h
      · simp at h
      · have hnum₁ : (updateByte cfg fl br b num).2 < U64MOD := by
          rw [updateByte_snd_char cfg fl br b num hds hdt hst hnum]
          unfold U64MOD
          exact Nat.mod_lt _ (by positivity)
        have hrec := ih hnd2 (p.set idx (updateByte cfg fl br b num).1) _ p' n hnum₁ h
        have hspec : specNumerator cfg env fl
            (p.set idx (updateByte cfg fl br b num).1) rest
            = specNumerator cfg env fl p rest := by
          unfold specNumerator
          congr 1
          apply List.map_congr_left
          intro j hj
          have hne : idx ≠ j := fun e => hnotmem (e ▸ hj)
          rw [getD_set_other p idx j _ hne]
        rw [hspec, updateByte_snd_char cfg fl br b num hds hdt hst hnum] at hrec
        have hexp : specNumerator cfg env fl p (idx :: rest)
            = specFlagContribution cfg fl br b + specNumerator cfg env fl p rest := by
          unfold specNumerator
          rw [List.map_cons, List.sum_cons, hbr, getD_of_getQ p idx b hb]
          rfl
        rw [hexp]
        unfold U64MOD at hrec hnum ⊢
        omega

open Att in
/-- Helper: in a strictly increasing list the head is below every later
element. -/
theorem strictlyIncreasing_head_lt (a : Nat) (t : List Nat)
    (h : strictlyIncreasing (a :: t) = true) : ∀ x, x ∈ t → a < x := by
  induction t generalizing a with
  | nil => intro x hx; cases hx
  | cons b t ih =>
    rw [strictlyIncreasing, Bool.and_eq_true, decide_eq_true_eq] at h
    intro x hx
    rcases List.mem_cons.mp hx with hx | hx
    · omega
    · exact Nat.lt_trans h.1 (ih b h.2 x hx)

open Att in
/-- Helper: a strictly increasing list has no duplicates. -/
theorem strictlyIncreasing_nodup (l : List Nat)
    (h : strictlyIncreasing l = true) : l.Nodup := by
  induction l with
  | nil => exact List.nodup_nil
  | cons a t ih =>
    cases t with
    | nil => simp
    | cons b t =>
      have hlt := strictlyIncreasing_head_lt a (b :: t) h
      rw [strictlyIncreasing, Bool.and_eq_true] at h
      exact List.nodup_cons.mpr
        ⟨fun hmem => Nat.lt_irrefl a (hlt a hmem), ih h.2⟩

open Att in
/-- Helper: the validity check on the sorted attesting indices makes the
unsorted attesting-index list duplicate-free. -/
theorem attestingIndices_nodup (bits : List Bool) (committee : List Nat)
    (h : isValidAttestationIndices
      ((attestingIndices bits committee).insertionSort (· ≤ ·)) = true) :
    (attestingIndices bits committee).Nodup := by
  unfold isValidAttestationIndices at h
  rw [Bool.and_eq_true] at h
  exact (List.perm_insertionSort (· ≤ ·) (attestingIndices bits committee)).nodup
    (strictlyIncreasing_nodup _ h.2)

open Att in
/-- C5: on a successful no-signature run, with the pipeline's three flag
constants pairwise bit-disjoint (they are distinct bits in every real
configuration), the proposer's balance is credited exactly
floor(numerator / (REWARD_DENOMINATOR * PROPOSER_REWARD_QUOTIENT)), where
the numerator is the spec-side sum, over attesting indices and flags newly
set for them, of base_reward(index) times the flag's numerator constant
(taken modulo 2^64, the code's wrapping accumulator; the exact sum whenever
it fits in 64 bits), and no balance other than the proposer's changes. -/
theorem c5_proposer_reward (cfg : Att.Config) (env : Att.Env)
    (s s₁ : Att.BState) (att : Att.Attestation)
    (h : processAttestationNoVerifySignature cfg env s att = (s₁, none))
    (hds : cfg.timelyHeadFlag &&& cfg.timelySourceFlag = 0)
    (hdt : cfg.timelyHeadFlag &&& cfg.timelyTargetFlag = 0)
    (hst : cfg.timelySourceFlag &&& cfg.timelyTargetFlag = 0) :
    ∃ committee rT rH propIdx bal,
      env.beaconCommittee att.data.slot att.data.committeeIndex = some committee
      ∧ env.blockRoot att.data.target.epoch = some rT
      ∧ env.blockRootAtSlot att.data.slot = some rH
      ∧ env.beaconProposerIndex = some propIdx
      ∧ s.balances.get? propIdx = some bal
      ∧ s₁.balances = s.balances.set propIdx
          (u64add bal ((specNumerator cfg env
              (participatedFlags cfg s.slot att.data.slot
                (rH == att.data.beaconBlockRoot)
                (checkPointIsEqual att.data.source (justifiedCheckpoint cfg s att))
                (rT == att.data.target.root))
              (selectedParticipation cfg s att)
              (attestingIndices att.aggregationBits committee) % U64MOD)
            / (cfg.rewardDenominator * cfg.proposerRewardQuotient)))
      ∧ (specNumerator cfg env
            (participatedFlags cfg s.slot att.data.slot
              (rH == att.data.beaconBlockRoot)
              (checkPointIsEqual att.data.source (justifiedCheckpoint cfg s att))
              (rT == att.data.target.root))
            (selectedParticipation cfg s att)
            (attestingIndices att.aggregationBits committee) < U64MOD →
          s₁.balances = s.balances.set propIdx
            (u64add bal (specNumerator cfg env
                (participatedFlags cfg s.slot att.data.slot
                  (rH == att.data.beaconBlockRoot)
                  (checkPointIsEqual att.data.source (justifiedCheckpoint cfg s att))
                  (rT == att.data.target.root))
                (selectedParticipation cfg s att)
                (attestingIndices att.aggregationBits committee)
              / (cfg.rewardDenominator * cfg.proposerRewardQuotient))))
      ∧ (∀ i, i ≠ propIdx → s₁.balances.get? i = s.balances.get? i) := by
  obtain ⟨avc, committee, rT, rH, p, num, propIdx, hmem, hval, hminc, hepc, havc,
    hci, hcom, hlen, hvalid, hsrc, hrt, hrh, hul, hpi, hib⟩ :=
    processNoVerify_ok_inv cfg env s s₁ att h
  obtain ⟨bal, hbal, hs1⟩ := increaseBalance_inv _ _ _ _ hib
  have hspb : ∀ q, (setParticipation cfg s att q).balances = s.balances := by
    intro q
    unfold setParticipation
    split <;> rfl
  rw [hspb] at hbal
  have hnum : num = specNumerator cfg env
      (participatedFlags cfg s.slot att.data.slot
        (rH == att.data.beaconBlockRoot)
        (checkPointIsEqual att.data.source (justifiedCheckpoint cfg s att))
        (rT == att.data.target.root))
      (selectedParticipation cfg s att)
      (attestingIndices att.aggregationBits committee) % U64MOD := by
    have h0 := updateLoop_numerator cfg env _ hds hdt hst _
      (attestingIndices_nodup _ _ hvalid) (selectedParticipation cfg s att) 0
      p num (by unfold U64MOD; positivity) hul
    simpa using h0
  have hbal₁ : s₁.balances = s.balances.set propIdx
      (u64add bal (num / (cfg.rewardDenominator * cfg.proposerRewardQuotient))) := by
    rw [hs1]
    dsimp only
    rw [hspb]
  refine ⟨committee, rT, rH, propIdx, bal, hcom, hrt, hrh, hpi, hbal, ?_, ?_, ?_⟩
  · rw [hbal₁, hnum]
  · intro hfit
    rw [hbal₁, hnum, Nat.mod_eq_of_lt hfit]
  · intro i hne
    rw [hbal₁, List.get?_set_ne _ _ (Ne.symm hne)]

/-! ## SSZ codec lemmas -/

open Ssz in
/-- Helper: an 8-byte little-endian encode decodes to the value modulo
2^64. -/
theorem unmarshalU64_marshalU64 (v : Nat) :
    unmarshalU64 (marshalU64 v) = v % 2 ^ 64 := by
  unfold unmarshalU64 marshalU64
  simp [List.getD]
  omega

open Ssz in
/-- Helper: a 4-byte offset encode decodes to the value modulo 2^32 — the
Go uint32 truncation. -/
theorem readOffset_writeOffset (v : Nat) :
    readOffset (writeOffset v) = v % 2 ^ 32 := by
  unfold readOffset writeOffset
  simp [List.getD]
  omega

open Ssz in
/-- Helper: the boolean byte round-trips. -/
theorem unmarshalBool_marshalBool (b : Bool) :
    unmarshalBool (marshalBool b) = b := by
  cases b <;> rfl

open Ssz in
/-- Helper: an in-range slice has length j - i. -/
theorem length_slice (l : List Nat) (i j : Nat) (h : j ≤ l.length) :
    (bslice l i j).length = j - i := by
  unfold bslice
  rw [List.length_take, List.length_drop]
  omega

open Ssz in
/-- Helper: the full slice is the list itself. -/
theorem slice_full (l : List Nat) : bslice l 0 l.length = l := by
  unfold bslice
  simp

open Ssz in
/-- Helper: slicing the leading block of a concatenation returns it. -/
theorem slice_pre (a b : List Nat) (n : Nat) (h : a.length = n) :
    bslice (a ++ b) 0 n = a := by
  unfold bslice
  rw [List.drop_zero, Nat.sub_zero, ← h, List.take_left]

open Ssz in
/-- Helper: a slice past a leading block reads from the remainder. -/
theorem slice_skip (a b : List Nat) (i j n : Nat) (h : a.length = n)
    (hle : n ≤ i) : bslice (a ++ b) i j = bslice b (i - n) (j - n) := by
  subst h
  unfold bslice
  obtain ⟨k, hk⟩ := Nat.exists_eq_add_of_le hle
  subst hk
  have e1 : a.length + k - a.length = k := by omega
  have e2 : j - (a.length + k) = j - a.length - k := by omega
  rw [List.drop_append, e1, e2]

open Ssz in
/-- Helper: slicing out the entire block right after a leading one. -/
theorem slice_self (a : List Nat) (n : Nat) (h : a.length = n) :
    bslice a 0 n = a := by
  subst h
  exact slice_full a

open Ssz in
/-- Helper: the 8-byte integer encode has length 8. -/
theorem length_marshalU64 (v : Nat) : (marshalU64 v).length = 8 := rfl

open Ssz in
/-- Helper: the 4-byte offset encode has length 4. -/
theorem length_writeOffset (v : Nat) : (writeOffset v).length = 4 := rfl

open Ssz in
/-- Helper: the boolean encode has length 1. -/
theorem length_marshalBool (b : Bool) : (marshalBool b).length = 1 := by
  cases b <;> rfl

open Ssz in
/-- Helper: round-trip 8-byte decode of the exact encode block with any
tail. -/
theorem unmarshalU64_slice_pre (v : Nat) (b : List Nat) :
    unmarshalU64 (bslice (marshalU64 v ++ b) 0 8) = v % 2 ^ 64 := by
  rw [slice_pre (marshalU64 v) b 8 rfl, unmarshalU64_marshalU64]

open Ssz in
/-- Helper: reducing modulo 2^64 (as a numeral) is the identity below it. -/
theorem mod_u64_eq (a : Nat) (h : a < 18446744073709551616) :
    a % 18446744073709551616 = a := by
  omega

open Ssz in
/-- C6 building block: the Fork codec round-trips and its encoded length is
its declared size. -/
theorem fork_roundtrip (f : Ssz.Fork) (bytes : List Nat)
    (hb : f.u64Bounded = true) (h : f.marshalSSZ = .ok bytes) :
    Ssz.Fork.unmarshalSSZ bytes = .ok f ∧ bytes.length = f.sizeSSZ := by
  unfold Ssz.Fork.marshalSSZ at h
  unfold Ssz.Fork.u64Bounded at hb
  rw [decide_eq_true_eq] at hb
  split at h
  · simp at h
  split at h
  · simp at h
  next h1 h2 =>
  rw [not_not] at h1 h2
  injection h with hbytes
  subst hbytes
  have hlen : (f.previousVersion ++ f.currentVersion ++ marshalU64 f.epoch).length
      = 16 := by
    simp [h1, h2, length_marshalU64]
  refine ⟨?_, by simpa [Ssz.Fork.sizeSSZ] using hlen⟩
  unfold Ssz.Fork.unmarshalSSZ
  rw [if_neg (by omega)]
  rw [List.append_assoc]
  rw [slice_pre _ _ _ h1,
    slice_skip _ _ 4 8 _ h1 (by omega),
    slice_skip _ _ 8 16 _ h1 (by omega)]
  norm_num
  rw [slice_pre _ _ _ h2,
    slice_skip _ _ 4 12 _ h2 (by omega)]
  norm_num
  rw [slice_self (marshalU64 f.epoch) 8 rfl, unmarshalU64_marshalU64,
    Nat.mod_eq_of_lt hb]

open Ssz in
/-- C6 building block: the SigningData codec round-trips and its encoded
length is its declared size. -/
theorem signingData_roundtrip (s : Ssz.SigningData) (bytes : List Nat)
    (h : s.marshalSSZ = .ok bytes) :
    Ssz.SigningData.unmarshalSSZ bytes = .ok s ∧ bytes.length = s.sizeSSZ := by
  unfold Ssz.SigningData.marshalSSZ at h
  split at h
  · simp at h
  split at h
  · simp at h
  next h1 h2 =>
  rw [not_not] at h1 h2
  injection h with hbytes
  subst hbytes
  have hlen : (s.objectRoot ++ s.domain).length = 64 := by
    simp [h1, h2]
  refine ⟨?_, by simpa [Ssz.SigningData.sizeSSZ] using hlen⟩
  unfold Ssz.SigningData.unmarshalSSZ
  rw [if_neg (by omega)]
  rw [slice_pre _ _ _ h1, slice_skip _ _ 32 64 _ h1 (by omega)]
  norm_num
  rw [slice_self _ _ h2]

open Ssz in
/-- C6 building block: the ForkData codec round-trips and its encoded
length is its declared size. -/
theorem forkData_roundtrip (f : Ssz.ForkData) (bytes : List Nat)
    (h : f.marshalSSZ = .ok bytes) :
    Ssz.ForkData.unmarshalSSZ bytes = .ok f ∧ bytes.length = f.sizeSSZ := by
  unfold Ssz.ForkData.marshalSSZ at h
  split at h
  · simp at h
  split at h
  · simp at h
  next h1 h2 =>
  rw [not_not] at h1 h2
  injection h with hbytes
  subst hbytes
  have hlen : (f.currentVersion ++ f.genesisValidatorsRoot).length = 36 := by
    simp [h1, h2]
  refine ⟨?_, by simpa [Ssz.ForkData.sizeSSZ] using hlen⟩
  unfold Ssz.ForkData.unmarshalSSZ
  rw [if_neg (by omega)]
  rw [slice_pre _ _ _ h1, slice_skip _ _ 4 36 _ h1 (by omega)]
  norm_num
  rw [slice_self _ _ h2]

open Ssz in
/-- C6 building block: the Status codec round-trips and its encoded length
is its declared size. -/
theorem status_roundtrip (s : Ssz.Status) (bytes : List Nat)
    (hb : s.u64Bounded = true) (h : s.marshalSSZ = .ok bytes) :
    Ssz.Status.unmarshalSSZ bytes = .ok s ∧ bytes.length = s.sizeSSZ := by
  unfold Ssz.Status.marshalSSZ at h
  unfold Ssz.Status.u64Bounded at hb
  rw [Bool.and_eq_true, decide_eq_true_eq, decide_eq_true_eq] at hb
  obtain ⟨hb1, hb2⟩ := hb
  split at h
  · simp at h
  split at h
  · simp at h
  split at h
  · simp at h
  next h1 h2 h3 =>
  rw [not_not] at h1 h2 h3
  injection h with hbytes
  subst hbytes
  have hlen : (s.forkDigest ++ s.finalizedRoot ++ marshalU64 s.finalizedEpoch
      ++ s.headRoot ++ marshalU64 s.headSlot).length = 84 := by
    simp [h1, h2, h3, length_marshalU64]
  refine ⟨?_, by simpa [Ssz.Status.sizeSSZ] using hlen⟩
  unfold Ssz.Status.unmarshalSSZ
  rw [if_neg (by omega)]
  simp only [List.append_assoc]
  rw [slice_pre _ _ _ h1,
    slice_skip _ _ 4 36 _ h1 (by omega),
    slice_skip _ _ 36 44 _ h1 (by omega),
    slice_skip _ _ 44 76 _ h1 (by omega),
    slice_skip _ _ 76 84 _ h1 (by omega)]
  norm_num
  rw [slice_pre _ _ _ h2,
    slice_skip _ _ 32 40 _ h2 (by omega),
    slice_skip _ _ 40 72 _ h2 (by omega),
    slice_skip _ _ 72 80 _ h2 (by omega)]
  norm_num
  rw [unmarshalU64_slice_pre,
    slice_skip _ _ 8 40 _ (length_marshalU64 s.finalizedEpoch) (by omega),
    slice_skip _ _ 40 48 _ (length_marshalU64 s.finalizedEpoch) (by omega)]
  norm_num
  rw [slice_pre _ _ _ h3,
    slice_skip _ _ 32 40 _ h3 (by omega)]
  norm_num
  rw [slice_self (marshalU64 s.headSlot) 8 rfl, unmarshalU64_marshalU64]
  norm_num at hb1 hb2
  norm_num
  simp [mod_u64_eq, hb1, hb2]

open Ssz in
/-- C6 building block: the DepositMessage codec round-trips and its encoded
length is its declared size. -/
theorem depositMessage_roundtrip (d : Ssz.DepositMessage) (bytes : List Nat)
    (hb : d.u64Bounded = true) (h : d.marshalSSZ = .ok bytes) :
    Ssz.DepositMessage.unmarshalSSZ bytes = .ok d
      ∧ bytes.length = d.sizeSSZ := by
  unfold Ssz.DepositMessage.marshalSSZ at h
  unfold Ssz.DepositMessage.u64Bounded at hb
  rw [decide_eq_true_eq] at hb
  split at h
  · simp at h
  split at h
  · simp at h
  next h1 h2 =>
  rw [not_not] at h1 h2
  injection h with hbytes
  subst hbytes
  have hlen : (d.publicKey ++ d.withdrawalCredentials
      ++ marshalU64 d.amount).length = 88 := by
    simp [h1, h2, length_marshalU64]
  refine ⟨?_, by simpa [Ssz.DepositMessage.sizeSSZ] using hlen⟩
  unfold Ssz.DepositMessage.unmarshalSSZ
  rw [if_neg (by omega)]
  simp only [List.append_assoc]
  rw [slice_pre _ _ _ h1,
    slice_skip _ _ 48 80 _ h1 (by omega),
    slice_skip _ _ 80 88 _ h1 (by omega)]
  norm_num
  rw [slice_pre _ _ _ h2,
    slice_skip _ _ 32 40 _ h2 (by omega)]
  norm_num
  rw [slice_self (marshalU64 d.amount) 8 rfl, unmarshalU64_marshalU64,
    Nat.mod_eq_of_lt hb]

open Ssz in
/-- Helper: a flatten of constant-width rows has length rows times
width. -/
theorem length_flatten_const (w : Nat) (L : List (List Nat))
    (h : ∀ x, x ∈ L → x.length = w) : L.flatten.length = L.length * w := by
  induction L with
  | nil => simp
  | cons a t ih =>
    rw [List.flatten_cons, List.length_append, h a (List.mem_cons_self a t),
      ih (fun x hx => h x (List.mem_cons_of_mem a hx))]
    simp [Nat.succ_mul]
    omega

open Ssz in
/-- Helper: the generated fixed-width vector decode inverts row
concatenation. -/
theorem unmarshalVector_flatten (w : Nat) (L : List (List Nat))
    (h : ∀ x, x ∈ L → x.length = w) :
    unmarshalVector w L.length L.flatten = L := by
  induction L with
  | nil => rfl
  | cons a t ih =>
    unfold unmarshalVector
    rw [List.length_cons, List.range_succ_eq_map, List.map_cons, List.map_map,
      List.flatten_cons]
    congr 1
    · rw [Nat.zero_mul, show (0 + 1) * w = w from by ring]
      exact slice_pre a t.flatten w (h a (List.mem_cons_self a t))
    · have hstep : ∀ i, i ∈ List.range t.length →
          ((fun ii => bslice (a ++ t.flatten) (ii * w) ((ii + 1) * w))
            ∘ Nat.succ) i
          = bslice t.flatten (i * w) ((i + 1) * w) := by
        intro i hi
        show bslice (a ++ t.flatten) (Nat.succ i * w) ((Nat.succ i + 1) * w)
          = bslice t.flatten (i * w) ((i + 1) * w)
        rw [slice_skip a t.flatten _ _ w (h a (List.mem_cons_self a t))
          (by rw [Nat.succ_mul]; omega)]
        have e1 : Nat.succ i * w - w = i * w := by
          rw [Nat.succ_mul]
          omega
        have e2 : (Nat.succ i + 1) * w - w = (i + 1) * w := by
          rw [Nat.succ_mul, Nat.add_mul]
          omega
        rw [e1, e2]
      rw [List.map_congr_left hstep]
      exact ih (fun x hx => h x (List.mem_cons_of_mem a hx))

open Ssz in
/-- Helper: the generated uint64-list decode is the vector decode followed
by the per-chunk integer decode. -/
theorem unmarshalU64List_eq_vector (n : Nat) (buf : List Nat) :
    unmarshalU64List n buf = (unmarshalVector 8 n buf).map unmarshalU64 := by
  unfold unmarshalU64List unmarshalVector
  rw [List.map_map]
  rfl

open Ssz in
/-- Helper: the generated uint64-list decode inverts the per-element
encode. -/
theorem unmarshalU64List_flatten (L : List Nat) (h : ∀ x, x ∈ L → x < 2 ^ 64) :
    unmarshalU64List L.length ((L.map marshalU64).flatten) = L := by
  rw [unmarshalU64List_eq_vector]
  have hn : L.length = (L.map marshalU64).length := by rw [List.length_map]
  rw [hn, unmarshalVector_flatten 8 (L.map marshalU64)
    (by intro x hx; obtain ⟨v, -, hv⟩ := List.mem_map.mp hx; rw [← hv]; rfl)]
  rw [List.map_map]
  refine List.map_congr_left ?_ |>.trans L.map_id
  intro v hv
  show unmarshalU64 (marshalU64 v) = v
  rw [unmarshalU64_marshalU64, Nat.mod_eq_of_lt (h v hv)]

open Ssz in
/-- Helper: the generated fallible-element list decode inverts the generated
list encode, for any leading block of the enclosing buffer. -/
theorem unmarshalChunks_marshalList {α : Type} (g : List Nat → Except SszErr α)
    (f : α → Except SszErr (List Nat)) (w : Nat) (L : List α)
    (hrt : ∀ e, e ∈ L → ∀ be, f e = .ok be → g be = .ok e ∧ be.length = w) :
    ∀ B pre i, pre.length = i → marshalList f L = .ok B →
      unmarshalChunks g w L.length i (pre ++ B) = .ok L
        ∧ B.length = L.length * w := by
  induction L with
  | nil =>
    intro B pre i hpre h
    unfold marshalList at h
    simp at h
    subst h
    exact ⟨rfl, by simp⟩
  | cons a t ih =>
    intro B pre i hpre h
    rw [marshalList] at h
    rcases hfa : f a with e | fa <;> rw [hfa] at h
    · simp at h
    rcases hml : marshalList f t with e | Bt <;> rw [hml] at h
    · simp at h
    simp at h
    subst h
    obtain ⟨hga, hwa⟩ := hrt a (List.mem_cons_self a t) fa hfa
    obtain ⟨ih1, ih2⟩ := ih
      (fun e he => hrt e (List.mem_cons_of_mem a he)) Bt (pre ++ fa) (i + w)
      (by rw [List.length_append, hpre, hwa]) hml
    constructor
    · rw [List.length_cons, unmarshalChunks]
      have hsl : bslice (pre ++ (fa ++ Bt)) i (i + w) = fa := by
        rw [slice_skip pre (fa ++ Bt) i (i + w) i hpre (le_refl i)]
        norm_num
        exact slice_pre fa Bt w hwa
      have hB : pre ++ (fa ++ Bt) = (pre ++ fa) ++ Bt :=
        (List.append_assoc _ _ _).symm
      rw [hsl, hB, hga, ih1]
    · rw [List.length_append, hwa, ih2, List.length_cons]
      ring

open Ssz in
/-- Helper: an empty-range slice is empty. -/
theorem slice_empty (l : List Nat) (i : Nat) : bslice l i i = [] := by
  unfold bslice
  rw [Nat.sub_self, List.take_zero]

open Ssz in
/-- Helper: the block starting at the running position of a buffer
decomposition is read back exactly. -/
theorem read_block (bytes block rest : List Nat) (c w j : Nat)
    (hsuf : bytes.drop c = block ++ rest) (hw : block.length = w)
    (hj : j = c + w) : bslice bytes c j = block := by
  unfold bslice
  rw [hsuf, hj, Nat.add_sub_cancel_left, ← hw, List.take_left]

open Ssz in
/-- Helper: advancing the running position of a buffer decomposition past
the current block. -/
theorem drop_block (bytes block rest : List Nat) (c w c2 : Nat)
    (hsuf : bytes.drop c = block ++ rest) (hw : block.length = w)
    (hc2 : c2 = c + w) : bytes.drop c2 = rest := by
  have h2 : bytes.drop c2 = (bytes.drop c).drop w := by
    rw [List.drop_drop, hc2, Nat.add_comm]
  rw [h2, hsuf, ← hw, List.drop_left]

open Ssz in
/-- Helper: the final block of a buffer decomposition is the tail slice. -/
theorem read_tail (bytes block : List Nat) (c : Nat)
    (hsuf : bytes.drop c = block) : bslice bytes c bytes.length = block := by
  unfold bslice
  rw [hsuf]
  have h2 : block.length = bytes.length - c := by
    rw [← hsuf, List.length_drop]
  rw [← h2, List.take_length]

open Ssz in
/-- C6 building block: the SyncCommittee codec round-trips and its encoded
length is its declared size. -/
theorem syncCommittee_roundtrip (s : Ssz.SyncCommittee) (bytes : List Nat)
    (h : s.marshalSSZ = .ok bytes) :
    Ssz.SyncCommittee.unmarshalSSZ bytes = .ok s ∧ bytes.length = s.sizeSSZ := by
  unfold Ssz.SyncCommittee.marshalSSZ at h
  split at h
  · simp at h
  split at h
  · simp at h
  split at h
  · simp at h
  split at h
  · simp at h
  next h1 h2 h3 h4 =>
  rw [not_not] at h1 h3
  have h2a : ∀ x, x ∈ s.pubkeys → x.length = 48 := by
    intro x hx
    by_contra hne
    exact h2 (List.any_eq_true.mpr ⟨x, hx, by simp [hne]⟩)
  have h4a : ∀ x, x ∈ s.pubkeyAggregates → x.length = 48 := by
    intro x hx
    by_contra hne
    exact h4 (List.any_eq_true.mpr ⟨x, hx, by simp [hne]⟩)
  injection h with hbytes
  subst hbytes
  have hl1 : s.pubkeys.flatten.length = 49152 := by
    rw [length_flatten_const 48 _ h2a, h1]
  have hl2 : s.pubkeyAggregates.flatten.length = 768 := by
    rw [length_flatten_const 48 _ h4a, h3]
  have hlen : (s.pubkeys.flatten ++ s.pubkeyAggregates.flatten).length = 49920 := by
    rw [List.length_append, hl1, hl2]
  refine ⟨?_, by simpa [Ssz.SyncCommittee.sizeSSZ] using hlen⟩
  unfold Ssz.SyncCommittee.unmarshalSSZ
  rw [if_neg (by omega)]
  rw [slice_pre _ _ _ hl1, slice_skip _ _ 49152 49920 _ hl1 (by omega)]
  norm_num
  rw [slice_self _ _ hl2]
  rw [← h1, ← h3, unmarshalVector_flatten 48 _ h2a, unmarshalVector_flatten 48 _ h4a]

open Ssz in
/-- C6 building block: the HistoricalBatch codec round-trips and its
encoded length is its declared size. -/
theorem historicalBatch_roundtrip (hb : Ssz.HistoricalBatch) (bytes : List Nat)
    (h : hb.marshalSSZ = .ok bytes) :
    Ssz.HistoricalBatch.unmarshalSSZ bytes = .ok hb
      ∧ bytes.length = hb.sizeSSZ := by
  unfold Ssz.HistoricalBatch.marshalSSZ at h
  split at h
  · simp at h
  split at h
  · simp at h
  split at h
  · simp at h
  split at h
  · simp at h
  next h1 h2 h3 h4 =>
  rw [not_not] at h1 h3
  have h2a : ∀ x, x ∈ hb.blockRoots → x.length = 32 := by
    intro x hx
    by_contra hne
    exact h2 (List.any_eq_true.mpr ⟨x, hx, by simp [hne]⟩)
  have h4a : ∀ x, x ∈ hb.stateRoots → x.length = 32 := by
    intro x hx
    by_contra hne
    exact h4 (List.any_eq_true.mpr ⟨x, hx, by simp [hne]⟩)
  injection h with hbytes
  subst hbytes
  have hl1 : hb.blockRoots.flatten.length = 262144 := by
    rw [length_flatten_const 32 _ h2a, h1]
  have hl2 : hb.stateRoots.flatten.length = 262144 := by
    rw [length_flatten_const 32 _ h4a, h3]
  have hlen : (hb.blockRoots.flatten ++ hb.stateRoots.flatten).length = 524288 := by
    rw [List.length_append, hl1, hl2]
  refine ⟨?_, by simpa [Ssz.HistoricalBatch.sizeSSZ] using hlen⟩
  unfold Ssz.HistoricalBatch.unmarshalSSZ
  rw [if_neg (by omega)]
  rw [slice_pre _ _ _ hl1, slice_skip _ _ 262144 524288 _ hl1 (by omega)]
  norm_num
  rw [slice_self _ _ hl2]
  have e1 : unmarshalVector 32 8192 hb.blockRoots.flatten = hb.blockRoots := by
    rw [← h1]
    exact unmarshalVector_flatten 32 _ h2a
  have e2 : unmarshalVector 32 8192 hb.stateRoots.flatten = hb.stateRoots := by
    rw [← h3]
    exact unmarshalVector_flatten 32 _ h4a
  rw [e1, e2]

open Ssz in
/-- Round-trip of the spec-modelled external Checkpoint codec. -/
theorem checkpoint_roundtrip (c : Ssz.Checkpoint) (bytes : List Nat)
    (hb : c.u64Bounded = true) (h : c.marshalSSZ = .ok bytes) :
    Ssz.Checkpoint.unmarshalSSZ bytes = .ok c ∧ bytes.length = 40 := by
  unfold Ssz.Checkpoint.marshalSSZ at h
  unfold Ssz.Checkpoint.u64Bounded at hb
  rw [decide_eq_true_eq] at hb
  split at h
  · simp at h
  next h1 =>
  rw [not_not] at h1
  injection h with hbytes
  subst hbytes
  have hlen : (marshalU64 c.epoch ++ c.root).length = 40 := by
    simp [h1, length_marshalU64]
  refine ⟨?_, hlen⟩
  unfold Ssz.Checkpoint.unmarshalSSZ
  rw [if_neg (by omega)]
  rw [unmarshalU64_slice_pre,
    slice_skip _ _ 8 40 _ (length_marshalU64 c.epoch) (by omega)]
  norm_num
  rw [slice_self _ _ h1]
  norm_num at hb
  norm_num
  simp [mod_u64_eq, hb]

open Ssz in
/-- Round-trip of the spec-modelled external Eth1Data codec. -/
theorem eth1Data_roundtrip (e : Ssz.Eth1Data) (bytes : List Nat)
    (hb : e.u64Bounded = true) (h : e.marshalSSZ = .ok bytes) :
    Ssz.Eth1Data.unmarshalSSZ bytes = .ok e ∧ bytes.length = 72 := by
  unfold Ssz.Eth1Data.marshalSSZ at h
  unfold Ssz.Eth1Data.u64Bounded at hb
  rw [decide_eq_true_eq] at hb
  split at h
  · simp at h
  split at h
  · simp at h
  next h1 h2 =>
  rw [not_not] at h1 h2
  injection h with hbytes
  subst hbytes
  have hlen : (e.depositRoot ++ marshalU64 e.depositCount
      ++ e.blockHash).length = 72 := by
    simp [h1, h2, length_marshalU64]
  refine ⟨?_, hlen⟩
  unfold Ssz.Eth1Data.unmarshalSSZ
  rw [if_neg (by omega)]
  simp only [List.append_assoc]
  rw [slice_pre _ _ _ h1,
    slice_skip _ _ 32 40 _ h1 (by omega),
    slice_skip _ _ 40 72 _ h1 (by omega)]
  norm_num
  rw [unmarshalU64_slice_pre,
    slice_skip _ _ 8 40 _ (length_marshalU64 e.depositCount) (by omega)]
  norm_num
  rw [slice_self _ _ h2]
  norm_num at hb
  norm_num
  simp [mod_u64_eq, hb]

open Ssz in
/-- Round-trip of the spec-modelled external BeaconBlockHeader codec. -/
theorem beaconBlockHeader_roundtrip (hd : Ssz.BeaconBlockHeader) (bytes : List Nat)
    (hb : hd.u64Bounded = true) (h : hd.marshalSSZ = .ok bytes) :
    Ssz.BeaconBlockHeader.unmarshalSSZ bytes = .ok hd ∧ bytes.length = 112 := by
  unfold Ssz.BeaconBlockHeader.marshalSSZ at h
  unfold Ssz.BeaconBlockHeader.u64Bounded at hb
  rw [Bool.and_eq_true, decide_eq_true_eq, decide_eq_true_eq] at hb
  obtain ⟨hb1, hb2⟩ := hb
  split at h
  · simp at h
  split at h
  · simp at h
  split at h
  · simp at h
  next h1 h2 h3 =>
  rw [not_not] at h1 h2 h3
  injection h with hbytes
  subst hbytes
  have hlen : (marshalU64 hd.slot ++ marshalU64 hd.proposerIndex ++ hd.parentRoot
      ++ hd.stateRoot ++ hd.bodyRoot).length = 112 := by
    simp [h1, h2, h3, length_marshalU64]
  refine ⟨?_, hlen⟩
  unfold Ssz.BeaconBlockHeader.unmarshalSSZ
  rw [if_neg (by omega)]
  simp only [List.append_assoc]
  rw [unmarshalU64_slice_pre,
    slice_skip _ _ 8 16 _ (length_marshalU64 hd.slot) (by omega),
    slice_skip _ _ 16 48 _ (length_marshalU64 hd.slot) (by omega),
    slice_skip _ _ 48 80 _ (length_marshalU64 hd.slot) (by omega),
    slice_skip _ _ 80 112 _ (length_marshalU64 hd.slot) (by omega)]
  norm_num
  rw [unmarshalU64_slice_pre,
    slice_skip _ _ 8 40 _ (length_marshalU64 hd.proposerIndex) (by omega),
    slice_skip _ _ 40 72 _ (length_marshalU64 hd.proposerIndex) (by omega),
    slice_skip _ _ 72 104 _ (length_marshalU64 hd.proposerIndex) (by omega)]
  norm_num
  rw [slice_pre _ _ _ h1,
    slice_skip _ _ 32 64 _ h1 (by omega),
    slice_skip _ _ 64 96 _ h1 (by omega)]
  norm_num
  rw [slice_pre _ _ _ h2,
    slice_skip _ _ 32 64 _ h2 (by omega)]
  norm_num
  rw [slice_self _ _ h3]
  norm_num at hb1 hb2
  norm_num
  simp [mod_u64_eq, hb1, hb2]

open Ssz in
/-- Round-trip of the spec-modelled external Validator codec. -/
theorem validator_roundtrip (v : Ssz.Validator) (bytes : List Nat)
    (hb : v.u64Bounded = true) (h : v.marshalSSZ = .ok bytes) :
    Ssz.Validator.unmarshalSSZ bytes = .ok v ∧ bytes.length = 121 := by
  unfold Ssz.Validator.marshalSSZ at h
  unfold Ssz.Validator.u64Bounded at hb
  simp only [Bool.and_eq_true, decide_eq_true_eq] at hb
  obtain ⟨⟨⟨⟨hb1, hb2⟩, hb3⟩, hb4⟩, hb5⟩ := hb
  split at h
  · simp at h
  split at h
  · simp at h
  next h1 h2 =>
  rw [not_not] at h1 h2
  injection h with hbytes
  subst hbytes
  have hlen : (v.publicKey ++ v.withdrawalCredentials ++ marshalU64 v.effectiveBalance
      ++ marshalBool v.slashed ++ marshalU64 v.activationEligibilityEpoch
      ++ marshalU64 v.activationEpoch ++ marshalU64 v.exitEpoch
      ++ marshalU64 v.withdrawableEpoch).length = 121 := by
    simp [h1, h2, length_marshalU64, length_marshalBool]
  refine ⟨?_, hlen⟩
  unfold Ssz.Validator.unmarshalSSZ
  rw [if_neg (by omega)]
  simp only [List.append_assoc]
  rw [slice_pre _ _ _ h1,
    slice_skip _ _ 48 80 _ h1 (by omega),
    slice_skip _ _ 80 88 _ h1 (by omega),
    slice_skip _ _ 88 89 _ h1 (by omega),
    slice_skip _ _ 89 97 _ h1 (by omega),
    slice_skip _ _ 97 105 _ h1 (by omega),
    slice_skip _ _ 105 113 _ h1 (by omega),
    slice_skip _ _ 113 121 _ h1 (by omega)]
  norm_num
  rw [slice_pre _ _ _ h2,
    slice_skip _ _ 32 40 _ h2 (by omega),
    slice_skip _ _ 40 41 _ h2 (by omega),
    slice_skip _ _ 41 49 _ h2 (by omega),
    slice_skip _ _ 49 57 _ h2 (by omega),
    slice_skip _ _ 57 65 _ h2 (by omega),
    slice_skip _ _ 65 73 _ h2 (by omega)]
  norm_num
  rw [unmarshalU64_slice_pre,
    slice_skip _ _ 8 9 _ (length_marshalU64 v.effectiveBalance) (by omega),
    slice_skip _ _ 9 17 _ (length_marshalU64 v.effectiveBalance) (by omega),
    slice_skip _ _ 17 25 _ (length_marshalU64 v.effectiveBalance) (by omega),
    slice_skip _ _ 25 33 _ (length_marshalU64 v.effectiveBalance) (by omega),
    slice_skip _ _ 33 41 _ (length_marshalU64 v.effectiveBalance) (by omega)]
  norm_num
  rw [slice_pre _ _ _ (length_marshalBool v.slashed),
    slice_skip _ _ 1 9 _ (length_marshalBool v.slashed) (by omega),
    slice_skip _ _ 9 17 _ (length_marshalBool v.slashed) (by omega),
    slice_skip _ _ 17 25 _ (length_marshalBool v.slashed) (by omega),
    slice_skip _ _ 25 33 _ (length_marshalBool v.slashed) (by omega)]
  norm_num
  rw [unmarshalU64_slice_pre,
    slice_skip _ _ 8 16 _ (length_marshalU64 v.activationEligibilityEpoch) (by omega),
    slice_skip _ _ 16 24 _ (length_marshalU64 v.activationEligibilityEpoch) (by omega),
    slice_skip _ _ 24 32 _ (length_marshalU64 v.activationEligibilityEpoch) (by omega)]
  norm_num
  rw [unmarshalU64_slice_pre,
    slice_skip _ _ 8 16 _ (length_marshalU64 v.activationEpoch) (by omega),
    slice_skip _ _ 16 24 _ (length_marshalU64 v.activationEpoch) (by omega)]
  norm_num
  rw [unmarshalU64_slice_pre,
    slice_skip _ _ 8 16 _ (length_marshalU64 v.exitEpoch) (by omega)]
  norm_num
  rw [slice_self (marshalU64 v.withdrawableEpoch) 8 rfl, unmarshalU64_marshalU64,
    unmarshalBool_marshalBool]
  norm_num at hb1 hb2 hb3 hb4 hb5
  norm_num
  simp [mod_u64_eq, hb1, hb2, hb3, hb4, hb5]

open Att in
/-- C5 witness: the proposer-reward theorem applied to the concrete
successful fixture run (s0, att0), whose hypotheses (successful processing
and the disjointness of the flag bits 1, 2 and 4) hold by computation. -/
theorem c5_proposer_reward_witness :
    ∃ committee rT rH propIdx bal,
      env0.beaconCommittee att0.data.slot att0.data.committeeIndex = some committee
      ∧ env0.blockRoot att0.data.target.epoch = some rT
      ∧ env0.blockRootAtSlot att0.data.slot = some rH
      ∧ env0.beaconProposerIndex = some propIdx
      ∧ s0.balances.get? propIdx = some bal
      ∧ s1after.balances = s0.balances.set propIdx
          (u64add bal ((specNumerator cfg0 env0
              (participatedFlags cfg0 s0.slot att0.data.slot
                (rH == att0.data.beaconBlockRoot)
                (checkPointIsEqual att0.data.source (justifiedCheckpoint cfg0 s0 att0))
                (rT == att0.data.target.root))
              (selectedParticipation cfg0 s0 att0)
              (attestingIndices att0.aggregationBits committee) % U64MOD)
            / (cfg0.rewardDenominator * cfg0.proposerRewardQuotient)))
      ∧ (specNumerator cfg0 env0
            (participatedFlags cfg0 s0.slot att0.data.slot
              (rH == att0.data.beaconBlockRoot)
              (checkPointIsEqual att0.data.source (justifiedCheckpoint cfg0 s0 att0))
              (rT == att0.data.target.root))
            (selectedParticipation cfg0 s0 att0)
            (attestingIndices att0.aggregationBits committee) < U64MOD →
          s1after.balances = s0.balances.set propIdx
            (u64add bal (specNumerator cfg0 env0
                (participatedFlags cfg0 s0.slot att0.data.slot
                  (rH == att0.data.beaconBlockRoot)
                  (checkPointIsEqual att0.data.source (justifiedCheckpoint cfg0 s0 att0))
                  (rT == att0.data.target.root))
                (selectedParticipation cfg0 s0 att0)
                (attestingIndices att0.aggregationBits committee)
              / (cfg0.rewardDenominator * cfg0.proposerRewardQuotient))))
      ∧ (∀ i, i ≠ propIdx → s1after.balances.get? i = s0.balances.get? i) :=
  c5_proposer_reward cfg0 env0 s0 s1after att0
    (by decide) (by decide) (by decide) (by decide)


set_option maxHeartbeats 2000000 in
open Ssz in
/-- C6 building block: the BeaconState codec round-trips whenever the
encoding fits the 32-bit offset space, and its encoded length is its
declared size unconditionally. -/
theorem beaconState_roundtrip (b : Ssz.BeaconState) (bytes : List Nat)
    (hb : b.u64Bounded = true) (h : b.marshalSSZ = .ok bytes)
    (hsz : bytes.length < 2 ^ 32) :
    Ssz.BeaconState.unmarshalSSZ bytes = .ok b ∧ bytes.length = b.sizeSSZ := by
  unfold Ssz.BeaconState.u64Bounded at hb
  simp only [Bool.and_eq_true, decide_eq_true_eq] at hb
  obtain ⟨⟨⟨⟨⟨⟨⟨⟨⟨⟨⟨⟨hbGT, hbSlot⟩, hbFork⟩, hbLbh⟩, hbE1⟩, hbEdi⟩, hbVotes⟩,
    hbVals⟩, hbBal⟩, hbSl⟩, hbPjc⟩, hbCjc⟩, hbFc⟩ := hb
  unfold Ssz.BeaconState.marshalSSZ at h
  rcases hgvr0 : decide (b.genesisValidatorsRoot.length ≠ 32) with _ | _
  case true =>
    rw [hgvr0] at h
    exact Except.noConfusion h
  rw [hgvr0] at h
  rcases hforkM : b.fork.marshalSSZ with e | forkB
  · rw [hforkM] at h
    exact Except.noConfusion h
  rw [hforkM] at h
  rcases hlbhM : b.latestBlockHeader.marshalSSZ with e | lbhB
  · rw [hlbhM] at h
    exact Except.noConfusion h
  rw [hlbhM] at h
  rcases hbrn0 : decide (b.blockRoots.length ≠ 8192) with _ | _
  case true =>
    rw [hbrn0] at h
    exact Except.noConfusion h
  rw [hbrn0] at h
  rcases hbra : b.blockRoots.any fun x => decide (x.length ≠ 32) with _ | _
  case true =>
    rw [hbra] at h
    exact Except.noConfusion h
  rw [hbra] at h
  rcases hsrn0 : decide (b.stateRoots.length ≠ 8192) with _ | _
  case true =>
    rw [hsrn0] at h
    exact Except.noConfusion h
  rw [hsrn0] at h
  rcases hsra : b.stateRoots.any fun x => decide (x.length ≠ 32) with _ | _
  case true =>
    rw [hsra] at h
    exact Except.noConfusion h
  rw [hsra] at h
  rcases he1M : b.eth1Data.marshalSSZ with e | e1B
  · rw [he1M] at h
    exact Except.noConfusion h
  rw [he1M] at h
  rcases hrmn0 : decide (b.randaoMixes.length ≠ 65536) with _ | _
  case true =>
    rw [hrmn0] at h
    exact Except.noConfusion h
  rw [hrmn0] at h
  rcases hrma : b.randaoMixes.any fun x => decide (x.length ≠ 32) with _ | _
  case true =>
    rw [hrma] at h
    exact Except.noConfusion h
  rw [hrma] at h
  rcases hsln0 : decide (b.slashings.length ≠ 8192) with _ | _
  case true =>
    rw [hsln0] at h
    exact Except.noConfusion h
  rw [hsln0] at h
  rcases hjbn0 : decide (b.justificationBits.length ≠ 1) with _ | _
  case true =>
    rw [hjbn0] at h
    exact Except.noConfusion h
  rw [hjbn0] at h
  rcases hpjcM : b.previousJustifiedCheckpoint.marshalSSZ with e | pjcB
  · rw [hpjcM] at h
    exact Except.noConfusion h
  rw [hpjcM] at h
  rcases hcjcM : b.currentJustifiedCheckpoint.marshalSSZ with e | cjcB
  · rw [hcjcM] at h
    exact Except.noConfusion h
  rw [hcjcM] at h
  rcases hfcM : b.finalizedCheckpoint.marshalSSZ with e | fcB
  · rw [hfcM] at h
    exact Except.noConfusion h
  rw [hfcM] at h
  rcases hcscM : b.currentSyncCommittee.marshalSSZ with e | cscB
  · rw [hcscM] at h
    exact Except.noConfusion h
  rw [hcscM] at h
  rcases hnscM : b.nextSyncCommittee.marshalSSZ with e | nscB
  · rw [hnscM] at h
    exact Except.noConfusion h
  rw [hnscM] at h
  rcases hhrn0 : decide (b.historicalRoots.length > 16777216) with _ | _
  case true =>
    rw [hhrn0] at h
    exact Except.noConfusion h
  rw [hhrn0] at h
  rcases hhra : b.historicalRoots.any fun x => decide (x.length ≠ 32) with _ | _
  case true =>
    rw [hhra] at h
    exact Except.noConfusion h
  rw [hhra] at h
  rcases hvn0 : decide (b.eth1DataVotes.length > 2048) with _ | _
  case true =>
    rw [hvn0] at h
    exact Except.noConfusion h
  rw [hvn0] at h
  rcases hvM : marshalList Eth1Data.marshalSSZ b.eth1DataVotes with e | votesB
  · rw [hvM] at h
    exact Except.noConfusion h
  rw [hvM] at h
  rcases hvaln0 : decide (b.validators.length > 1099511627776) with _ | _
  case true =>
    rw [hvaln0] at h
    exact Except.noConfusion h
  rw [hvaln0] at h
  rcases hvalM : marshalList Validator.marshalSSZ b.validators with e | valsB
  · rw [hvalM] at h
    exact Except.noConfusion h
  rw [hvalM] at h
  rcases hbaln0 : decide (b.balances.length > 1099511627776) with _ | _
  case true =>
    rw [hbaln0] at h
    exact Except.noConfusion h
  rw [hbaln0] at h
  rcases hprevn0 : decide (b.previousEpochParticipation.length > 1099511627776) with _ | _
  case true =>
    rw [hprevn0] at h
    exact Except.noConfusion h
  rw [hprevn0] at h
  rcases hcurn0 : decide (b.currentEpochParticipation.length > 1099511627776) with _ | _
  case true =>
    rw [hcurn0] at h
    exact Except.noConfusion h
  rw [hcurn0] at h
  injection h with hbytes
  simp only [List.append_assoc] at hbytes
  have hgvr : b.genesisValidatorsRoot.length = 32 :=
    not_not.mp (of_decide_eq_false hgvr0)
  have hbrn : b.blockRoots.length = 8192 := not_not.mp (of_decide_eq_false hbrn0)
  have hsrn : b.stateRoots.length = 8192 := not_not.mp (of_decide_eq_false hsrn0)
  have hrmn : b.randaoMixes.length = 65536 := not_not.mp (of_decide_eq_false hrmn0)
  have hsln : b.slashings.length = 8192 := not_not.mp (of_decide_eq_false hsln0)
  have hjbn : b.justificationBits.length = 1 := not_not.mp (of_decide_eq_false hjbn0)
  have hjbL := hjbn
  have hhrn := of_decide_eq_false hhrn0
  have hvn := of_decide_eq_false hvn0
  have hvaln := of_decide_eq_false hvaln0
  have hbaln := of_decide_eq_false hbaln0
  have hprevn := of_decide_eq_false hprevn0
  have hcurn := of_decide_eq_false hcurn0
  have hbrA : ∀ x, x ∈ b.blockRoots → x.length = 32 := by
    intro x hx
    by_contra hne
    have hany : (b.blockRoots.any fun x => decide (x.length ≠ 32)) = true :=
      List.any_eq_true.mpr ⟨x, hx, by simp [hne]⟩
    rw [hbra] at hany
    exact Bool.noConfusion hany
  have hsrA : ∀ x, x ∈ b.stateRoots → x.length = 32 := by
    intro x hx
    by_contra hne
    have hany : (b.stateRoots.any fun x => decide (x.length ≠ 32)) = true :=
      List.any_eq_true.mpr ⟨x, hx, by simp [hne]⟩
    rw [hsra] at hany
    exact Bool.noConfusion hany
  have hrmA : ∀ x, x ∈ b.randaoMixes → x.length = 32 := by
    intro x hx
    by_contra hne
    have hany : (b.randaoMixes.any fun x => decide (x.length ≠ 32)) = true :=
      List.any_eq_true.mpr ⟨x, hx, by simp [hne]⟩
    rw [hrma] at hany
    exact Bool.noConfusion hany
  have hhrA : ∀ x, x ∈ b.historicalRoots → x.length = 32 := by
    intro x hx
    by_contra hne
    have hany : (b.historicalRoots.any fun x => decide (x.length ≠ 32)) = true :=
      List.any_eq_true.mpr ⟨x, hx, by simp [hne]⟩
    rw [hhra] at hany
    exact Bool.noConfusion hany
  obtain ⟨hforkRT, hforkL⟩ := fork_roundtrip b.fork forkB hbFork hforkM
  have hforkL16 : forkB.length = 16 := hforkL
  obtain ⟨hlbhRT, hlbhL⟩ :=
    beaconBlockHeader_roundtrip b.latestBlockHeader lbhB hbLbh hlbhM
  obtain ⟨he1RT, he1L⟩ := eth1Data_roundtrip b.eth1Data e1B hbE1 he1M
  obtain ⟨hpjcRT, hpjcL⟩ :=
    checkpoint_roundtrip b.previousJustifiedCheckpoint pjcB hbPjc hpjcM
  obtain ⟨hcjcRT, hcjcL⟩ :=
    checkpoint_roundtrip b.currentJustifiedCheckpoint cjcB hbCjc hcjcM
  obtain ⟨hfcRT, hfcL⟩ := checkpoint_roundtrip b.finalizedCheckpoint fcB hbFc hfcM
  obtain ⟨hcscRT, hcscL0⟩ := syncCommittee_roundtrip b.currentSyncCommittee cscB hcscM
  have hcscL : cscB.length = 49920 := hcscL0
  obtain ⟨hnscRT, hnscL0⟩ := syncCommittee_roundtrip b.nextSyncCommittee nscB hnscM
  have hnscL : nscB.length = 49920 := hnscL0
  have hlBR : b.blockRoots.flatten.length = 262144 := by
    rw [length_flatten_const 32 _ hbrA, hbrn]
  have hlSR : b.stateRoots.flatten.length = 262144 := by
    rw [length_flatten_const 32 _ hsrA, hsrn]
  have hlRM : b.randaoMixes.flatten.length = 2097152 := by
    rw [length_flatten_const 32 _ hrmA, hrmn]
  have hlSL : (b.slashings.map marshalU64).flatten.length = 65536 := by
    rw [length_flatten_const 8 _
      (by intro x hx; obtain ⟨v, -, hv⟩ := List.mem_map.mp hx; rw [← hv]; rfl),
      List.length_map, hsln]
  have hlHR : b.historicalRoots.flatten.length = b.historicalRoots.length * 32 :=
    length_flatten_const 32 _ hhrA
  have hlBAL : (b.balances.map marshalU64).flatten.length = b.balances.length * 8 := by
    rw [length_flatten_const 8 _
      (by intro x hx; obtain ⟨v, -, hv⟩ := List.mem_map.mp hx; rw [← hv]; rfl),
      List.length_map]
  have hvotesAll : ∀ x, x ∈ b.eth1DataVotes → Ssz.Eth1Data.u64Bounded x = true :=
    fun x hx => List.all_eq_true.mp hbVotes x hx
  have hvalsAll : ∀ x, x ∈ b.validators → Ssz.Validator.u64Bounded x = true :=
    fun x hx => List.all_eq_true.mp hbVals x hx
  obtain ⟨hvotesRT0, hvotesL⟩ := unmarshalChunks_marshalList
    Ssz.Eth1Data.unmarshalSSZ Ssz.Eth1Data.marshalSSZ 72 b.eth1DataVotes
    (fun e he be hbe => eth1Data_roundtrip e be (hvotesAll e he) hbe)
    votesB [] 0 rfl hvM
  rw [List.nil_append] at hvotesRT0
  obtain ⟨hvalsRT0, hvalsL⟩ := unmarshalChunks_marshalList
    Ssz.Validator.unmarshalSSZ Ssz.Validator.marshalSSZ 121 b.validators
    (fun e he be hbe => validator_roundtrip e be (hvalsAll e he) hbe)
    valsB [] 0 rfl hvalM
  rw [List.nil_append] at hvalsRT0
  have hbalB : ∀ x, x ∈ b.balances → x < 2 ^ 64 := by
    intro x hx
    have hx2 := List.all_eq_true.mp hbBal x hx
    simpa using hx2
  have hslB : ∀ x, x ∈ b.slashings → x < 2 ^ 64 := by
    intro x hx
    have hx2 := List.all_eq_true.mp hbSl x hx
    simpa using hx2
  have hlen : bytes.length = 2787217 + b.historicalRoots.length * 32
      + b.eth1DataVotes.length * 72 + b.validators.length * 121
      + b.balances.length * 8 + b.previousEpochParticipation.length
      + b.currentEpochParticipation.length := by
    rw [← hbytes]
    simp only [List.length_append, length_marshalU64, length_writeOffset,
      hgvr, hforkL16, hlbhL, hlBR, hlSR, he1L, hlRM, hlSL, hjbL, hpjcL, hcjcL,
      hfcL, hcscL, hnscL, hlHR, hvotesL, hvalsL, hlBAL]
    try omega
  refine ⟨?_, by rw [hlen]; unfold Ssz.BeaconState.sizeSSZ; ring⟩
  have hsuf0 := (List.drop_zero bytes).trans hbytes.symm
  have hread1 := read_block bytes _ _ (0) (8) (8) hsuf0 (length_marshalU64 b.genesisTime) (by norm_num)
  have hsuf1 := drop_block bytes _ _ (0) (8) (8) hsuf0 (length_marshalU64 b.genesisTime) (by norm_num)
  have hread2 := read_block bytes _ _ (8) (32) (40) hsuf1 (hgvr) (by norm_num)
  have hsuf2 := drop_block bytes _ _ (8) (32) (40) hsuf1 (hgvr) (by norm_num)
  have hread3 := read_block bytes _ _ (40) (8) (48) hsuf2 (length_marshalU64 b.slot) (by norm_num)
  have hsuf3 := drop_block bytes _ _ (40) (8) (48) hsuf2 (length_marshalU64 b.slot) (by norm_num)
  have hread4 := read_block bytes _ _ (48) (16) (64) hsuf3 (hforkL16) (by norm_num)
  have hsuf4 := drop_block bytes _ _ (48) (16) (64) hsuf3 (hforkL16) (by norm_num)
  have hread5 := read_block bytes _ _ (64) (112) (176) hsuf4 (hlbhL) (by norm_num)
  have hsuf5 := drop_block bytes _ _ (64) (112) (176) hsuf4 (hlbhL) (by norm_num)
  have hread6 := read_block bytes _ _ (176) (262144) (262320) hsuf5 (hlBR) (by norm_num)
  have hsuf6 := drop_block bytes _ _ (176) (262144) (262320) hsuf5 (hlBR) (by norm_num)
  have hread7 := read_block bytes _ _ (262320) (262144) (524464) hsuf6 (hlSR) (by norm_num)
  have hsuf7 := drop_block bytes _ _ (262320) (262144) (524464) hsuf6 (hlSR) (by norm_num)
  have hread8 := read_block bytes _ _ (524464) (4) (524468) hsuf7 (length_writeOffset 2787217) (by norm_num)
  have hsuf8 := drop_block bytes _ _ (524464) (4) (524468) hsuf7 (length_writeOffset 2787217) (by norm_num)
  have hread9 := read_block bytes _ _ (524468) (72) (524540) hsuf8 (he1L) (by norm_num)
  have hsuf9 := drop_block bytes _ _ (524468) (72) (524540) hsuf8 (he1L) (by norm_num)
  have hread10 := read_block bytes _ _ (524540) (4) (524544) hsuf9 (length_writeOffset _) (by norm_num)
  have hsuf10 := drop_block bytes _ _ (524540) (4) (524544) hsuf9 (length_writeOffset _) (by norm_num)
  have hread11 := read_block bytes _ _ (524544) (8) (524552) hsuf10 (length_marshalU64 b.eth1DepositIndex) (by norm_num)
  have hsuf11 := drop_block bytes _ _ (524544) (8) (524552) hsuf10 (length_marshalU64 b.eth1DepositIndex) (by norm_num)
  have hread12 := read_block bytes _ _ (524552) (4) (524556) hsuf11 (length_writeOffset _) (by norm_num)
  have hsuf12 := drop_block bytes _ _ (524552) (4) (524556) hsuf11 (length_writeOffset _) (by norm_num)
  have hread13 := read_block bytes _ _ (524556) (4) (524560) hsuf12 (length_writeOffset _) (by norm_num)
  have hsuf13 := drop_block bytes _ _ (524556) (4) (524560) hsuf12 (length_writeOffset _) (by norm_num)
  have hread14 := read_block bytes _ _ (524560) (2097152) (2621712) hsuf13 (hlRM) (by norm_num)
  have hsuf14 := drop_block bytes _ _ (524560) (2097152) (2621712) hsuf13 (hlRM) (by norm_num)
  have hread15 := read_block bytes _ _ (2621712) (65536) (2687248) hsuf14 (hlSL) (by norm_num)
  have hsuf15 := drop_block bytes _ _ (2621712) (65536) (2687248) hsuf14 (hlSL) (by norm_num)
  have hread16 := read_block bytes _ _ (2687248) (4) (2687252) hsuf15 (length_writeOffset _) (by norm_num)
  have hsuf16 := drop_block bytes _ _ (2687248) (4) (2687252) hsuf15 (length_writeOffset _) (by norm_num)
  have hread17 := read_block bytes _ _ (2687252) (4) (2687256) hsuf16 (length_writeOffset _) (by norm_num)
  have hsuf17 := drop_block bytes _ _ (2687252) (4) (2687256) hsuf16 (length_writeOffset _) (by norm_num)
  have hread18 := read_block bytes _ _ (2687256) (1) (2687257) hsuf17 (hjbL) (by norm_num)
  have hsuf18 := drop_block bytes _ _ (2687256) (1) (2687257) hsuf17 (hjbL) (by norm_num)
  have hread19 := read_block bytes _ _ (2687257) (40) (2687297) hsuf18 (hpjcL) (by norm_num)
  have hsuf19 := drop_block bytes _ _ (2687257) (40) (2687297) hsuf18 (hpjcL) (by norm_num)
  have hread20 := read_block bytes _ _ (2687297) (40) (2687337) hsuf19 (hcjcL) (by norm_num)
  have hsuf20 := drop_block bytes _ _ (2687297) (40) (2687337) hsuf19 (hcjcL) (by norm_num)
  have hread21 := read_block bytes _ _ (2687337) (40) (2687377) hsuf20 (hfcL) (by norm_num)
  have hsuf21 := drop_block bytes _ _ (2687337) (40) (2687377) hsuf20 (hfcL) (by norm_num)
  have hread22 := read_block bytes _ _ (2687377) (49920) (2737297) hsuf21 (hcscL) (by norm_num)
  have hsuf22 := drop_block bytes _ _ (2687377) (49920) (2737297) hsuf21 (hcscL) (by norm_num)
  have hread23 := read_block bytes _ _ (2737297) (49920) (2787217) hsuf22 (hnscL) (by norm_num)
  have hsuf23 := drop_block bytes _ _ (2737297) (49920) (2787217) hsuf22 (hnscL) (by norm_num)
  have hread24 := read_block bytes _ _ (2787217) (b.historicalRoots.length * 32) (2787217 + b.historicalRoots.length * 32) hsuf23 (hlHR) (by ring)
  have hsuf24 := drop_block bytes _ _ (2787217) (b.historicalRoots.length * 32) (2787217 + b.historicalRoots.length * 32) hsuf23 (hlHR) (by ring)
  have hread25 := read_block bytes _ _ (2787217 + b.historicalRoots.length * 32) (b.eth1DataVotes.length * 72) (2787217 + b.historicalRoots.length * 32 + b.eth1DataVotes.length * 72) hsuf24 (hvotesL) (by ring)
  have hsuf25 := drop_block bytes _ _ (2787217 + b.historicalRoots.length * 32) (b.eth1DataVotes.length * 72) (2787217 + b.historicalRoots.length * 32 + b.eth1DataVotes.length * 72) hsuf24 (hvotesL) (by ring)
  have hread26 := read_block bytes _ _ (2787217 + b.historicalRoots.length * 32 + b.eth1DataVotes.length * 72) (b.validators.length * 121) (2787217 + b.historicalRoots.length * 32 + b.eth1DataVotes.length * 72 + b.validators.length * 121) hsuf25 (hvalsL) (by ring)
  have hsuf26 := drop_block bytes _ _ (2787217 + b.historicalRoots.length * 32 + b.eth1DataVotes.length * 72) (b.validators.length * 121) (2787217 + b.historicalRoots.length * 32 + b.eth1DataVotes.length * 72 + b.validators.length * 121) hsuf25 (hvalsL) (by ring)
  have hread27 := read_block bytes _ _ (2787217 + b.historicalRoots.length * 32 + b.eth1DataVotes.length * 72 + b.validators.length * 121) (b.balances.length * 8) (2787217 + b.historicalRoots.length * 32 + b.eth1DataVotes.length * 72 + b.validators.length * 121 + b.balances.length * 8) hsuf26 (hlBAL) (by ring)
  have hsuf27 := drop_block bytes _ _ (2787217 + b.historicalRoots.length * 32 + b.eth1DataVotes.length * 72 + b.validators.length * 121) (b.balances.length * 8) (2787217 + b.historicalRoots.length * 32 + b.eth1DataVotes.length * 72 + b.validators.length * 121 + b.balances.length * 8) hsuf26 (hlBAL) (by ring)
  have hread28 := read_block bytes _ _ (2787217 + b.historicalRoots.length * 32 + b.eth1DataVotes.length * 72 + b.validators.length * 121 + b.balances.length * 8) (b.previousEpochParticipation.length) (2787217 + b.historicalRoots.length * 32 + b.eth1DataVotes.length * 72 + b.validators.length * 121 + b.balances.length * 8 + b.previousEpochParticipation.length) hsuf27 (rfl) (by ring)
  have hsuf28 := drop_block bytes _ _ (2787217 + b.historicalRoots.length * 32 + b.eth1DataVotes.length * 72 + b.validators.length * 121 + b.balances.length * 8) (b.previousEpochParticipation.length) (2787217 + b.historicalRoots.length * 32 + b.eth1DataVotes.length * 72 + b.validators.length * 121 + b.balances.length * 8 + b.previousEpochParticipation.length) hsuf27 (rfl) (by ring)
  have hread29 := read_tail bytes _ (2787217 + b.historicalRoots.length * 32 + b.eth1DataVotes.length * 72 + b.validators.length * 121 + b.balances.length * 8 + b.previousEpochParticipation.length) hsuf28
  have ho7 : bsO7 bytes = 2787217 := by
    unfold bsO7
    rw [hread8, readOffset_writeOffset, Nat.mod_eq_of_lt (by omega)]
  have ho9 : bsO9 bytes = 2787217 + b.historicalRoots.length * 32 := by
    unfold bsO9
    rw [hread10, readOffset_writeOffset, Nat.mod_eq_of_lt (by omega)]
  have ho11 : bsO11 bytes = 2787217 + b.historicalRoots.length * 32 + b.eth1DataVotes.length * 72 := by
    unfold bsO11
    rw [hread12, readOffset_writeOffset, Nat.mod_eq_of_lt (by omega)]
  have ho12 : bsO12 bytes = 2787217 + b.historicalRoots.length * 32 + b.eth1DataVotes.length * 72 + b.validators.length * 121 := by
    unfold bsO12
    rw [hread13, readOffset_writeOffset, Nat.mod_eq_of_lt (by omega)]
  have ho15 : bsO15 bytes = 2787217 + b.historicalRoots.length * 32 + b.eth1DataVotes.length * 72 + b.validators.length * 121 + b.balances.length * 8 := by
    unfold bsO15
    rw [hread16, readOffset_writeOffset, Nat.mod_eq_of_lt (by omega)]
  have ho16 : bsO16 bytes = 2787217 + b.historicalRoots.length * 32 + b.eth1DataVotes.length * 72 + b.validators.length * 121 + b.balances.length * 8 + b.previousEpochParticipation.length := by
    unfold bsO16
    rw [hread17, readOffset_writeOffset, Nat.mod_eq_of_lt (by omega)]
  unfold Ssz.BeaconState.unmarshalSSZ
  rw [ho7, ho9, ho11, ho12, ho15, ho16]
  rw [show decide (bytes.length < 2787217) = false from by
    rw [decide_eq_false_iff_not]; omega]
  rw [hread4, hforkRT, hread5, hlbhRT]
  rw [hread9, he1RT]
  rw [show decide (2787217 + b.historicalRoots.length * 32 > bytes.length ∨ 2787217 > 2787217 + b.historicalRoots.length * 32) = false from by
    rw [decide_eq_false_iff_not]; omega]
  rw [show decide (2787217 + b.historicalRoots.length * 32 + b.eth1DataVotes.length * 72 > bytes.length ∨ 2787217 + b.historicalRoots.length * 32 > 2787217 + b.historicalRoots.length * 32 + b.eth1DataVotes.length * 72) = false from by
    rw [decide_eq_false_iff_not]; omega]
  rw [show decide (2787217 + b.historicalRoots.length * 32 + b.eth1DataVotes.length * 72 + b.validators.length * 121 > bytes.length ∨ 2787217 + b.historicalRoots.length * 32 + b.eth1DataVotes.length * 72 > 2787217 + b.historicalRoots.length * 32 + b.eth1DataVotes.length * 72 + b.validators.length * 121) = false from by
    rw [decide_eq_false_iff_not]; omega]
  rw [show decide (2787217 + b.historicalRoots.length * 32 + b.eth1DataVotes.length * 72 + b.validators.length * 121 + b.balances.length * 8 > bytes.length ∨ 2787217 + b.historicalRoots.length * 32 + b.eth1DataVotes.length * 72 + b.validators.length * 121 > 2787217 + b.historicalRoots.length * 32 + b.eth1DataVotes.length * 72 + b.validators.length * 121 + b.balances.length * 8) = false from by
    rw [decide_eq_false_iff_not]; omega]
  rw [show decide (2787217 + b.historicalRoots.length * 32 + b.eth1DataVotes.length * 72 + b.validators.length * 121 + b.balances.length * 8 + b.previousEpochParticipation.length > bytes.length ∨ 2787217 + b.historicalRoots.length * 32 + b.eth1DataVotes.length * 72 + b.validators.length * 121 + b.balances.length * 8 > 2787217 + b.historicalRoots.length * 32 + b.eth1DataVotes.length * 72 + b.validators.length * 121 + b.balances.length * 8 + b.previousEpochParticipation.length) = false from by
    rw [decide_eq_false_iff_not]; omega]
  rw [hread19, hpjcRT, hread20, hcjcRT, hread21, hfcRT, hread22, hcscRT,
    hread23, hnscRT]
  rw [hread24, hlHR]
  rw [show decide (¬ (b.historicalRoots.length * 32 % 32 = 0 ∧ b.historicalRoots.length * 32 / 32 ≤ 16777216)) = false from by
    rw [decide_eq_false_iff_not, not_not]
    exact ⟨by omega, by omega⟩]
  rw [hread25, hvotesL]
  rw [show decide (¬ (b.eth1DataVotes.length * 72 % 72 = 0 ∧ b.eth1DataVotes.length * 72 / 72 ≤ 2048)) = false from by
    rw [decide_eq_false_iff_not, not_not]
    exact ⟨by omega, by omega⟩]
  rw [show b.eth1DataVotes.length * 72 / 72 = b.eth1DataVotes.length from by omega]
  rw [hvotesRT0]
  rw [hread26, hvalsL]
  rw [show decide (¬ (b.validators.length * 121 % 121 = 0 ∧ b.validators.length * 121 / 121 ≤ 1099511627776)) = false from by
    rw [decide_eq_false_iff_not, not_not]
    exact ⟨by omega, by omega⟩]
  rw [show b.validators.length * 121 / 121 = b.validators.length from by omega]
  rw [hvalsRT0]
  rw [hread27, hlBAL]
  rw [show decide (¬ (b.balances.length * 8 % 8 = 0 ∧ b.balances.length * 8 / 8 ≤ 1099511627776)) = false from by
    rw [decide_eq_false_iff_not, not_not]
    exact ⟨by omega, by omega⟩]
  rw [hread28]
  rw [show decide (b.previousEpochParticipation.length > 1099511627776) = false from by
    rw [decide_eq_false_iff_not]; omega]
  rw [hread29]
  rw [show decide (b.currentEpochParticipation.length > 1099511627776) = false from by
    rw [decide_eq_false_iff_not]; omega]
  rw [hread1, hread2, hread3, hread6, hread7, hread11, hread14, hread15, hread18]
  simp only [unmarshalU64_marshalU64]
  rw [Nat.mod_eq_of_lt hbGT, Nat.mod_eq_of_lt hbSlot, Nat.mod_eq_of_lt hbEdi]
  rw [show b.historicalRoots.length * 32 / 32 = b.historicalRoots.length from by omega]
  rw [show b.balances.length * 8 / 8 = b.balances.length from by omega]
  have eBR : unmarshalVector 32 8192 b.blockRoots.flatten = b.blockRoots := by
    rw [← hbrn]
    exact unmarshalVector_flatten 32 _ hbrA
  have eSR : unmarshalVector 32 8192 b.stateRoots.flatten = b.stateRoots := by
    rw [← hsrn]
    exact unmarshalVector_flatten 32 _ hsrA
  have eRM : unmarshalVector 32 65536 b.randaoMixes.flatten = b.randaoMixes := by
    rw [← hrmn]
    exact unmarshalVector_flatten 32 _ hrmA
  have eHR : unmarshalVector 32 b.historicalRoots.length b.historicalRoots.flatten
      = b.historicalRoots := unmarshalVector_flatten 32 _ hhrA
  have eSL : unmarshalU64List 8192 ((b.slashings.map marshalU64).flatten)
      = b.slashings := by
    rw [← hsln]
    exact unmarshalU64List_flatten _ hslB
  have eBAL : unmarshalU64List b.balances.length ((b.balances.map marshalU64).flatten)
      = b.balances := unmarshalU64List_flatten _ hbalB
  rw [eBR, eSR, eRM, eHR, eSL, eBAL]
  rfl


/-- Helper: a replicated list of w-length rows never trips a row-length
check against w. -/
theorem any_length_ne_replicate_false (n w a : Nat) :
    ((List.replicate n (List.replicate w a)).any fun x => decide (x.length ≠ w))
      = false := by
  rw [Bool.eq_false_iff]
  intro h
  obtain ⟨x, hx, hpx⟩ := List.any_eq_true.mp h
  rw [List.eq_of_mem_replicate hx] at hpx
  simp at hpx

/-- Helper: replicated elements all pass a test the element passes. -/
theorem all_replicate_true (n : Nat) (a : α) (p : α → Bool) (h : p a = true) :
    (List.replicate n a).all p = true := by
  rw [List.all_eq_true]
  intro x hx
  rw [List.eq_of_mem_replicate hx]
  exact h

open Ssz in
/-- Helper: the oversized fixture satisfies the uint64 bounds. -/
theorem sBig_u64Bounded : Ssz.sBig.u64Bounded = true := by
  unfold Ssz.BeaconState.u64Bounded
  rw [show Ssz.sBig.slashings = List.replicate 8192 (0 : Nat) from rfl,
    all_replicate_true 8192 (0 : Nat) _ (by decide)]
  decide

set_option maxRecDepth 40000 in
open Ssz in
/-- Helper: MarshalSSZ succeeds on the oversized fixture and produces
bigB — every vector length and list limit check passes. -/
theorem sBig_marshal : Ssz.sBig.marshalSSZ = Except.ok Ssz.bigB := by
  unfold Ssz.BeaconState.marshalSSZ
  rw [show (decide (Ssz.sBig.genesisValidatorsRoot.length ≠ 32)) = false from by
    rw [show Ssz.sBig.genesisValidatorsRoot = List.replicate 32 0 from rfl,
      List.length_replicate]
    decide]
  rw [show Ssz.sBig.fork.marshalSSZ = Except.ok Ssz.fkB from rfl]
  rw [show Ssz.sBig.latestBlockHeader.marshalSSZ = Except.ok Ssz.lbhZB from rfl]
  rw [show (decide (Ssz.sBig.blockRoots.length ≠ 8192)) = false from by
    rw [show Ssz.sBig.blockRoots = List.replicate 8192 (List.replicate 32 0) from rfl,
      List.length_replicate]
    decide]
  rw [show (Ssz.sBig.blockRoots.any fun x => decide (x.length ≠ 32)) = false from by
    rw [show Ssz.sBig.blockRoots = List.replicate 8192 (List.replicate 32 0) from rfl]
    exact any_length_ne_replicate_false 8192 32 0]
  rw [show (decide (Ssz.sBig.stateRoots.length ≠ 8192)) = false from by
    rw [show Ssz.sBig.stateRoots = List.replicate 8192 (List.replicate 32 0) from rfl,
      List.length_replicate]
    decide]
  rw [show (Ssz.sBig.stateRoots.any fun x => decide (x.length ≠ 32)) = false from by
    rw [show Ssz.sBig.stateRoots = List.replicate 8192 (List.replicate 32 0) from rfl]
    exact any_length_ne_replicate_false 8192 32 0]
  rw [show Ssz.sBig.eth1Data.marshalSSZ = Except.ok Ssz.e1ZB from rfl]
  rw [show (decide (Ssz.sBig.randaoMixes.length ≠ 65536)) = false from by
    rw [show Ssz.sBig.randaoMixes = List.replicate 65536 (List.replicate 32 0) from rfl,
      List.length_replicate]
    decide]
  rw [show (Ssz.sBig.randaoMixes.any fun x => decide (x.length ≠ 32)) = false from by
    rw [show Ssz.sBig.randaoMixes = List.replicate 65536 (List.replicate 32 0) from rfl]
    exact any_length_ne_replicate_false 65536 32 0]
  rw [show (decide (Ssz.sBig.slashings.length ≠ 8192)) = false from by
    rw [show Ssz.sBig.slashings = List.replicate 8192 (0 : Nat) from rfl,
      List.length_replicate]
    decide]
  rw [show (decide (Ssz.sBig.justificationBits.length ≠ 1)) = false from by
    rw [show Ssz.sBig.justificationBits = [0] from rfl]
    decide]
  rw [show Ssz.sBig.previousJustifiedCheckpoint.marshalSSZ = Except.ok Ssz.cpZB from rfl]
  rw [show Ssz.sBig.currentJustifiedCheckpoint.marshalSSZ = Except.ok Ssz.cpZB from rfl]
  rw [show Ssz.sBig.finalizedCheckpoint.marshalSSZ = Except.ok Ssz.cpZB from rfl]
  rw [show Ssz.sBig.currentSyncCommittee.marshalSSZ = Except.ok Ssz.scZB from rfl]
  rw [show Ssz.sBig.nextSyncCommittee.marshalSSZ = Except.ok Ssz.scZB from rfl]
  rw [show (decide (Ssz.sBig.historicalRoots.length > 16777216)) = false from by
    rw [show Ssz.sBig.historicalRoots = ([] : List (List Nat)) from rfl]
    decide]
  rw [show (Ssz.sBig.historicalRoots.any fun x => decide (x.length ≠ 32)) = false from by
    rw [show Ssz.sBig.historicalRoots = ([] : List (List Nat)) from rfl]
    rfl]
  rw [show (decide (Ssz.sBig.eth1DataVotes.length > 2048)) = false from by
    rw [show Ssz.sBig.eth1DataVotes = ([] : List Ssz.Eth1Data) from rfl]
    decide]
  rw [show Ssz.marshalList Ssz.Eth1Data.marshalSSZ Ssz.sBig.eth1DataVotes
      = Except.ok ([] : List Nat) from rfl]
  rw [show (decide (Ssz.sBig.validators.length > 1099511627776)) = false from by
    rw [show Ssz.sBig.validators = ([] : List Ssz.Validator) from rfl]
    decide]
  rw [show Ssz.marshalList Ssz.Validator.marshalSSZ Ssz.sBig.validators
      = Except.ok ([] : List Nat) from rfl]
  rw [show (decide (Ssz.sBig.balances.length > 1099511627776)) = false from by
    rw [show Ssz.sBig.balances = ([] : List Nat) from rfl]
    decide]
  rw [show (decide (Ssz.sBig.previousEpochParticipation.length > 1099511627776))
      = false from by
    rw [show Ssz.sBig.previousEpochParticipation = List.replicate 4294967296 0 from rfl,
      List.length_replicate]
    decide]
  rw [show (decide (Ssz.sBig.currentEpochParticipation.length > 1099511627776))
      = false from by
    rw [show Ssz.sBig.currentEpochParticipation = ([] : List Nat) from rfl]
    decide]
  rfl

set_option maxHeartbeats 1000000 in
open Ssz in
/-- Helper: the two participation offsets MarshalSSZ writes into the fixed
part, read back: the running offsets reduced modulo 2^32 by the uint32
write. -/
theorem marshal_offsets (b : Ssz.BeaconState) (bytes : List Nat)
    (hb : b.u64Bounded = true) (h : b.marshalSSZ = .ok bytes) :
    Ssz.bsO15 bytes = (2787217 + b.historicalRoots.length * 32
        + b.eth1DataVotes.length * 72 + b.validators.length * 121
        + b.balances.length * 8) % 2 ^ 32
      ∧ Ssz.bsO16 bytes = (2787217 + b.historicalRoots.length * 32
        + b.eth1DataVotes.length * 72 + b.validators.length * 121
        + b.balances.length * 8 + b.previousEpochParticipation.length) % 2 ^ 32 := by
  unfold Ssz.BeaconState.u64Bounded at hb
  simp only [Bool.and_eq_true, decide_eq_true_eq] at hb
  obtain ⟨⟨⟨⟨⟨⟨⟨⟨⟨⟨⟨⟨hbGT, hbSlot⟩, hbFork⟩, hbLbh⟩, hbE1⟩, hbEdi⟩, hbVotes⟩,
    hbVals⟩, hbBal⟩, hbSl⟩, hbPjc⟩, hbCjc⟩, hbFc⟩ := hb
  unfold Ssz.BeaconState.marshalSSZ at h
  rcases hgvr0 : decide (b.genesisValidatorsRoot.length ≠ 32) with _ | _
  case true =>
    rw [hgvr0] at h
    exact Except.noConfusion h
  rw [hgvr0] at h
  rcases hforkM : b.fork.marshalSSZ with e | forkB
  · rw [hforkM] at h
    exact Except.noConfusion h
  rw [hforkM] at h
  rcases hlbhM : b.latestBlockHeader.marshalSSZ with e | lbhB
  · rw [hlbhM] at h
    exact Except.noConfusion h
  rw [hlbhM] at h
  rcases hbrn0 : decide (b.blockRoots.length ≠ 8192) with _ | _
  case true =>
    rw [hbrn0] at h
    exact Except.noConfusion h
  rw [hbrn0] at h
  rcases hbra : b.blockRoots.any fun x => decide (x.length ≠ 32) with _ | _
  case true =>
    rw [hbra] at h
    exact Except.noConfusion h
  rw [hbra] at h
  rcases hsrn0 : decide (b.stateRoots.length ≠ 8192) with _ | _
  case true =>
    rw [hsrn0] at h
    exact Except.noConfusion h
  rw [hsrn0] at h
  rcases hsra : b.stateRoots.any fun x => decide (x.length ≠ 32) with _ | _
  case true =>
    rw [hsra] at h
    exact Except.noConfusion h
  rw [hsra] at h
  rcases he1M : b.eth1Data.marshalSSZ with e | e1B
  · rw [he1M] at h
    exact Except.noConfusion h
  rw [he1M] at h
  rcases hrmn0 : decide (b.randaoMixes.length ≠ 65536) with _ | _
  case true =>
    rw [hrmn0] at h
    exact Except.noConfusion h
  rw [hrmn0] at h
  rcases hrma : b.randaoMixes.any fun x => decide (x.length ≠ 32) with _ | _
  case true =>
    rw [hrma] at h
    exact Except.noConfusion h
  rw [hrma] at h
  rcases hsln0 : decide (b.slashings.length ≠ 8192) with _ | _
  case true =>
    rw [hsln0] at h
    exact Except.noConfusion h
  rw [hsln0] at h
  rcases hjbn0 : decide (b.justificationBits.length ≠ 1) with _ | _
  case true =>
    rw [hjbn0] at h
    exact Except.noConfusion h
  rw [hjbn0] at h
  rcases hpjcM : b.previousJustifiedCheckpoint.marshalSSZ with e | pjcB
  · rw [hpjcM] at h
    exact Except.noConfusion h
  rw [hpjcM] at h
  rcases hcjcM : b.currentJustifiedCheckpoint.marshalSSZ with e | cjcB
  · rw [hcjcM] at h
    exact Except.noConfusion h
  rw [hcjcM] at h
  rcases hfcM : b.finalizedCheckpoint.marshalSSZ with e | fcB
  · rw [hfcM] at h
    exact Except.noConfusion h
  rw [hfcM] at h
  rcases hcscM : b.currentSyncCommittee.marshalSSZ with e | cscB
  · rw [hcscM] at h
    exact Except.noConfusion h
  rw [hcscM] at h
  rcases hnscM : b.nextSyncCommittee.marshalSSZ with e | nscB
  · rw [hnscM] at h
    exact Except.noConfusion h
  rw [hnscM] at h
  rcases hhrn0 : decide (b.historicalRoots.length > 16777216) with _ | _
  case true =>
    rw [hhrn0] at h
    exact Except.noConfusion h
  rw [hhrn0] at h
  rcases hhra : b.historicalRoots.any fun x => decide (x.length ≠ 32) with _ | _
  case true =>
    rw [hhra] at h
    exact Except.noConfusion h
  rw [hhra] at h
  rcases hvn0 : decide (b.eth1DataVotes.length > 2048) with _ | _
  case true =>
    rw [hvn0] at h
    exact Except.noConfusion h
  rw [hvn0] at h
  rcases hvM : marshalList Eth1Data.marshalSSZ b.eth1DataVotes with e | votesB
  · rw [hvM] at h
    exact Except.noConfusion h
  rw [hvM] at h
  rcases hvaln0 : decide (b.validators.length > 1099511627776) with _ | _
  case true =>
    rw [hvaln0] at h
    exact Except.noConfusion h
  rw [hvaln0] at h
  rcases hvalM : marshalList Validator.marshalSSZ b.validators with e | valsB
  · rw [hvalM] at h
    exact Except.noConfusion h
  rw [hvalM] at h
  rcases hbaln0 : decide (b.balances.length > 1099511627776) with _ | _
  case true =>
    rw [hbaln0] at h
    exact Except.noConfusion h
  rw [hbaln0] at h
  rcases hprevn0 : decide (b.previousEpochParticipation.length > 1099511627776) with _ | _
  case true =>
    rw [hprevn0] at h
    exact Except.noConfusion h
  rw [hprevn0] at h
  rcases hcurn0 : decide (b.currentEpochParticipation.length > 1099511627776) with _ | _
  case true =>
    rw [hcurn0] at h
    exact Except.noConfusion h
  rw [hcurn0] at h
  injection h with hbytes
  simp only [List.append_assoc] at hbytes
  have hgvr : b.genesisValidatorsRoot.length = 32 :=
    not_not.mp (of_decide_eq_false hgvr0)
  have hbrn : b.blockRoots.length = 8192 := not_not.mp (of_decide_eq_false hbrn0)
  have hsrn : b.stateRoots.length = 8192 := not_not.mp (of_decide_eq_false hsrn0)
  have hrmn : b.randaoMixes.length = 65536 := not_not.mp (of_decide_eq_false hrmn0)
  have hsln : b.slashings.length = 8192 := not_not.mp (of_decide_eq_false hsln0)
  have hbrA : ∀ x, x ∈ b.blockRoots → x.length = 32 := by
    intro x hx
    by_contra hne
    have hany : (b.blockRoots.any fun x => decide (x.length ≠ 32)) = true :=
      List.any_eq_true.mpr ⟨x, hx, by simp [hne]⟩
    rw [hbra] at hany
    exact Bool.noConfusion hany
  have hsrA : ∀ x, x ∈ b.stateRoots → x.length = 32 := by
    intro x hx
    by_contra hne
    have hany : (b.stateRoots.any fun x => decide (x.length ≠ 32)) = true :=
      List.any_eq_true.mpr ⟨x, hx, by simp [hne]⟩
    rw [hsra] at hany
    exact Bool.noConfusion hany
  have hrmA : ∀ x, x ∈ b.randaoMixes → x.length = 32 := by
    intro x hx
    by_contra hne
    have hany : (b.randaoMixes.any fun x => decide (x.length ≠ 32)) = true :=
      List.any_eq_true.mpr ⟨x, hx, by simp [hne]⟩
    rw [hrma] at hany
    exact Bool.noConfusion hany
  obtain ⟨hforkRT, hforkL⟩ := fork_roundtrip b.fork forkB hbFork hforkM
  have hforkL16 : forkB.length = 16 := hforkL
  obtain ⟨hlbhRT, hlbhL⟩ :=
    beaconBlockHeader_roundtrip b.latestBlockHeader lbhB hbLbh hlbhM
  obtain ⟨he1RT, he1L⟩ := eth1Data_roundtrip b.eth1Data e1B hbE1 he1M
  have hlBR : b.blockRoots.flatten.length = 262144 := by
    rw [length_flatten_const 32 _ hbrA, hbrn]
  have hlSR : b.stateRoots.flatten.length = 262144 := by
    rw [length_flatten_const 32 _ hsrA, hsrn]
  have hlRM : b.randaoMixes.flatten.length = 2097152 := by
    rw [length_flatten_const 32 _ hrmA, hrmn]
  have hlSL : (b.slashings.map marshalU64).flatten.length = 65536 := by
    rw [length_flatten_const 8 _
      (by intro x hx; obtain ⟨v, -, hv⟩ := List.mem_map.mp hx; rw [← hv]; rfl),
      List.length_map, hsln]
  have hsuf0 := (List.drop_zero bytes).trans hbytes.symm
  have hread1 := read_block bytes _ _ (0) (8) (8) hsuf0 (length_marshalU64 b.genesisTime) (by norm_num)
  have hsuf1 := drop_block bytes _ _ (0) (8) (8) hsuf0 (length_marshalU64 b.genesisTime) (by norm_num)
  have hread2 := read_block bytes _ _ (8) (32) (40) hsuf1 (hgvr) (by norm_num)
  have hsuf2 := drop_block bytes _ _ (8) (32) (40) hsuf1 (hgvr) (by norm_num)
  have hread3 := read_block bytes _ _ (40) (8) (48) hsuf2 (length_marshalU64 b.slot) (by norm_num)
  have hsuf3 := drop_block bytes _ _ (40) (8) (48) hsuf2 (length_marshalU64 b.slot) (by norm_num)
  have hread4 := read_block bytes _ _ (48) (16) (64) hsuf3 (hforkL16) (by norm_num)
  have hsuf4 := drop_block bytes _ _ (48) (16) (64) hsuf3 (hforkL16) (by norm_num)
  have hread5 := read_block bytes _ _ (64) (112) (176) hsuf4 (hlbhL) (by norm_num)
  have hsuf5 := drop_block bytes _ _ (64) (112) (176) hsuf4 (hlbhL) (by norm_num)
  have hread6 := read_block bytes _ _ (176) (262144) (262320) hsuf5 (hlBR) (by norm_num)
  have hsuf6 := drop_block bytes _ _ (176) (262144) (262320) hsuf5 (hlBR) (by norm_num)
  have hread7 := read_block bytes _ _ (262320) (262144) (524464) hsuf6 (hlSR) (by norm_num)
  have hsuf7 := drop_block bytes _ _ (262320) (262144) (524464) hsuf6 (hlSR) (by norm_num)
  have hread8 := read_block bytes _ _ (524464) (4) (524468) hsuf7 (length_writeOffset 2787217) (by norm_num)
  have hsuf8 := drop_block bytes _ _ (524464) (4) (524468) hsuf7 (length_writeOffset 2787217) (by norm_num)
  have hread9 := read_block bytes _ _ (524468) (72) (524540) hsuf8 (he1L) (by norm_num)
  have hsuf9 := drop_block bytes _ _ (524468) (72) (524540) hsuf8 (he1L) (by norm_num)
  have hread10 := read_block bytes _ _ (524540) (4) (524544) hsuf9 (length_writeOffset _) (by norm_num)
  have hsuf10 := drop_block bytes _ _ (524540) (4) (524544) hsuf9 (length_writeOffset _) (by norm_num)
  have hread11 := read_block bytes _ _ (524544) (8) (524552) hsuf10 (length_marshalU64 b.eth1DepositIndex) (by norm_num)
  have hsuf11 := drop_block bytes _ _ (524544) (8) (524552) hsuf10 (length_marshalU64 b.eth1DepositIndex) (by norm_num)
  have hread12 := read_block bytes _ _ (524552) (4) (524556) hsuf11 (length_writeOffset _) (by norm_num)
  have hsuf12 := drop_block bytes _ _ (524552) (4) (524556) hsuf11 (length_writeOffset _) (by norm_num)
  have hread13 := read_block bytes _ _ (524556) (4) (524560) hsuf12 (length_writeOffset _) (by norm_num)
  have hsuf13 := drop_block bytes _ _ (524556) (4) (524560) hsuf12 (length_writeOffset _) (by norm_num)
  have hread14 := read_block bytes _ _ (524560) (2097152) (2621712) hsuf13 (hlRM) (by norm_num)
  have hsuf14 := drop_block bytes _ _ (524560) (2097152) (2621712) hsuf13 (hlRM) (by norm_num)
  have hread15 := read_block bytes _ _ (2621712) (65536) (2687248) hsuf14 (hlSL) (by norm_num)
  have hsuf15 := drop_block bytes _ _ (2621712) (65536) (2687248) hsuf14 (hlSL) (by norm_num)
  have hread16 := read_block bytes _ _ (2687248) (4) (2687252) hsuf15 (length_writeOffset _) (by norm_num)
  have hsuf16 := drop_block bytes _ _ (2687248) (4) (2687252) hsuf15 (length_writeOffset _) (by norm_num)
  have hread17 := read_block bytes _ _ (2687252) (4) (2687256) hsuf16 (length_writeOffset _) (by norm_num)
  constructor
  · unfold Ssz.bsO15
    rw [hread16, readOffset_writeOffset]
  · unfold Ssz.bsO16
    rw [hread17, readOffset_writeOffset]

set_option maxHeartbeats 1000000 in
open Ssz in
/-- Helper: whatever UnmarshalSSZ accepts has its previous-epoch
participation equal to the buffer slice between the two read-back
participation offsets. -/
theorem bs_unmarshal_prevPart (buf : List Nat) (s : Ssz.BeaconState)
    (h : Ssz.BeaconState.unmarshalSSZ buf = .ok s) :
    s.previousEpochParticipation = Ssz.bslice buf (Ssz.bsO15 buf) (Ssz.bsO16 buf) := by
  unfold Ssz.BeaconState.unmarshalSSZ at h
  rcases hg1 : decide (buf.length < 2787217) with _ | _
  case true =>
    rw [hg1] at h
    exact Except.noConfusion h
  rw [hg1] at h
  rcases hm1 : Ssz.Fork.unmarshalSSZ (Ssz.bslice buf 48 64) with e | fork
  · rw [hm1] at h
    exact Except.noConfusion h
  rw [hm1] at h
  rcases hm2 : Ssz.BeaconBlockHeader.unmarshalSSZ (Ssz.bslice buf 64 176) with e | lbh
  · rw [hm2] at h
    exact Except.noConfusion h
  rw [hm2] at h
  rcases hg2 : decide (Ssz.bsO7 buf > buf.length) with _ | _
  case true =>
    rw [hg2] at h
    exact Except.noConfusion h
  rw [hg2] at h
  rcases hm3 : Ssz.Eth1Data.unmarshalSSZ (Ssz.bslice buf 524468 524540) with e | e1
  · rw [hm3] at h
    exact Except.noConfusion h
  rw [hm3] at h
  rcases hg3 : decide (Ssz.bsO9 buf > buf.length ∨ Ssz.bsO7 buf > Ssz.bsO9 buf) with _ | _
  case true =>
    rw [hg3] at h
    exact Except.noConfusion h
  rw [hg3] at h
  rcases hg4 : decide (Ssz.bsO11 buf > buf.length ∨ Ssz.bsO9 buf > Ssz.bsO11 buf) with _ | _
  case true =>
    rw [hg4] at h
    exact Except.noConfusion h
  rw [hg4] at h
  rcases hg5 : decide (Ssz.bsO12 buf > buf.length ∨ Ssz.bsO11 buf > Ssz.bsO12 buf) with _ | _
  case true =>
    rw [hg5] at h
    exact Except.noConfusion h
  rw [hg5] at h
  rcases hg6 : decide (Ssz.bsO15 buf > buf.length ∨ Ssz.bsO12 buf > Ssz.bsO15 buf) with _ | _
  case true =>
    rw [hg6] at h
    exact Except.noConfusion h
  rw [hg6] at h
  rcases hg7 : decide (Ssz.bsO16 buf > buf.length ∨ Ssz.bsO15 buf > Ssz.bsO16 buf) with _ | _
  case true =>
    rw [hg7] at h
    exact Except.noConfusion h
  rw [hg7] at h
  rcases hm4 : Ssz.Checkpoint.unmarshalSSZ (Ssz.bslice buf 2687257 2687297) with e | pjc
  · rw [hm4] at h
    exact Except.noConfusion h
  rw [hm4] at h
  rcases hm5 : Ssz.Checkpoint.unmarshalSSZ (Ssz.bslice buf 2687297 2687337) with e | cjc
  · rw [hm5] at h
    exact Except.noConfusion h
  rw [hm5] at h
  rcases hm6 : Ssz.Checkpoint.unmarshalSSZ (Ssz.bslice buf 2687337 2687377) with e | fc
  · rw [hm6] at h
    exact Except.noConfusion h
  rw [hm6] at h
  rcases hm7 : Ssz.SyncCommittee.unmarshalSSZ (Ssz.bslice buf 2687377 2737297) with e | csc
  · rw [hm7] at h
    exact Except.noConfusion h
  rw [hm7] at h
  rcases hm8 : Ssz.SyncCommittee.unmarshalSSZ (Ssz.bslice buf 2737297 2787217) with e | nsc
  · rw [hm8] at h
    exact Except.noConfusion h
  rw [hm8] at h
  rcases hg8 : decide (¬ ((Ssz.bslice buf (Ssz.bsO7 buf) (Ssz.bsO9 buf)).length % 32 = 0
      ∧ (Ssz.bslice buf (Ssz.bsO7 buf) (Ssz.bsO9 buf)).length / 32 ≤ 16777216)) with _ | _
  case true =>
    rw [hg8] at h
    exact Except.noConfusion h
  rw [hg8] at h
  rcases hg9 : decide (¬ ((Ssz.bslice buf (Ssz.bsO9 buf) (Ssz.bsO11 buf)).length % 72 = 0
      ∧ (Ssz.bslice buf (Ssz.bsO9 buf) (Ssz.bsO11 buf)).length / 72 ≤ 2048)) with _ | _
  case true =>
    rw [hg9] at h
    exact Except.noConfusion h
  rw [hg9] at h
  rcases hm9 : Ssz.unmarshalChunks Ssz.Eth1Data.unmarshalSSZ 72
      ((Ssz.bslice buf (Ssz.bsO9 buf) (Ssz.bsO11 buf)).length / 72) 0
      (Ssz.bslice buf (Ssz.bsO9 buf) (Ssz.bsO11 buf)) with e | votes
  · rw [hm9] at h
    exact Except.noConfusion h
  rw [hm9] at h
  rcases hg10 : decide (¬ ((Ssz.bslice buf (Ssz.bsO11 buf) (Ssz.bsO12 buf)).length % 121 = 0
      ∧ (Ssz.bslice buf (Ssz.bsO11 buf) (Ssz.bsO12 buf)).length / 121 ≤ 1099511627776)) with _ | _
  case true =>
    rw [hg10] at h
    exact Except.noConfusion h
  rw [hg10] at h
  rcases hm10 : Ssz.unmarshalChunks Ssz.Validator.unmarshalSSZ 121
      ((Ssz.bslice buf (Ssz.bsO11 buf) (Ssz.bsO12 buf)).length / 121) 0
      (Ssz.bslice buf (Ssz.bsO11 buf) (Ssz.bsO12 buf)) with e | vals
  · rw [hm10] at h
    exact Except.noConfusion h
  rw [hm10] at h
  rcases hg11 : decide (¬ ((Ssz.bslice buf (Ssz.bsO12 buf) (Ssz.bsO15 buf)).length % 8 = 0
      ∧ (Ssz.bslice buf (Ssz.bsO12 buf) (Ssz.bsO15 buf)).length / 8 ≤ 1099511627776)) with _ | _
  case true =>
    rw [hg11] at h
    exact Except.noConfusion h
  rw [hg11] at h
  rcases hg12 : decide ((Ssz.bslice buf (Ssz.bsO15 buf) (Ssz.bsO16 buf)).length > 1099511627776) with _ | _
  case true =>
    rw [hg12] at h
    exact Except.noConfusion h
  rw [hg12] at h
  rcases hg13 : decide ((Ssz.bslice buf (Ssz.bsO16 buf) buf.length).length > 1099511627776) with _ | _
  case true =>
    rw [hg13] at h
    exact Except.noConfusion h
  rw [hg13] at h
  injection h with hs
  rw [← hs]

open Ssz in
/-- C6 counterexample: the oversized (but valid — every vector length and
list limit check passes) state sBig encodes successfully, yet decoding its
encoding does not give it back: the 2^32-byte participation list wraps the
uint32 offset write, so the decoder cuts an empty previous-participation
slice. -/
theorem c6_counterexample :
    Ssz.sBig.marshalSSZ = Except.ok Ssz.bigB
      ∧ Ssz.BeaconState.unmarshalSSZ Ssz.bigB ≠ Except.ok Ssz.sBig := by
  refine ⟨sBig_marshal, fun hcontra => ?_⟩
  have hPrev := bs_unmarshal_prevPart Ssz.bigB Ssz.sBig hcontra
  obtain ⟨ho15, ho16⟩ :=
    marshal_offsets Ssz.sBig Ssz.bigB sBig_u64Bounded sBig_marshal
  rw [show Ssz.sBig.historicalRoots = ([] : List (List Nat)) from rfl,
    show Ssz.sBig.eth1DataVotes = ([] : List Ssz.Eth1Data) from rfl,
    show Ssz.sBig.validators = ([] : List Ssz.Validator) from rfl,
    show Ssz.sBig.balances = ([] : List Nat) from rfl] at ho15 ho16
  rw [show Ssz.sBig.previousEpochParticipation = List.replicate 4294967296 0 from rfl,
    List.length_replicate] at ho16
  norm_num at ho15 ho16
  rw [ho15, ho16, slice_empty] at hPrev
  have hlen2 := congrArg List.length hPrev
  rw [show Ssz.sBig.previousEpochParticipation = List.replicate 4294967296 0 from rfl,
    List.length_replicate] at hlen2
  simp at hlen2

open Ssz in
/-- C6 (amended): every generated codec round-trips on valid records and
encodes exactly its declared size — unconditionally for the seven
fixed-layout types, and for BeaconState whenever the encoding fits the
32-bit offset space (the preceding counterexample shows the round-trip
fails beyond it). -/
theorem c6_codec_roundtrip :
    (∀ r bytes, Ssz.Fork.u64Bounded r = true → Ssz.Fork.marshalSSZ r = .ok bytes →
      Ssz.Fork.unmarshalSSZ bytes = .ok r ∧ bytes.length = r.sizeSSZ)
  ∧ (∀ r bytes, Ssz.Status.u64Bounded r = true → Ssz.Status.marshalSSZ r = .ok bytes →
      Ssz.Status.unmarshalSSZ bytes = .ok r ∧ bytes.length = r.sizeSSZ)
  ∧ (∀ r bytes, Ssz.SigningData.marshalSSZ r = .ok bytes →
      Ssz.SigningData.unmarshalSSZ bytes = .ok r ∧ bytes.length = r.sizeSSZ)
  ∧ (∀ r bytes, Ssz.ForkData.marshalSSZ r = .ok bytes →
      Ssz.ForkData.unmarshalSSZ bytes = .ok r ∧ bytes.length = r.sizeSSZ)
  ∧ (∀ r bytes, Ssz.DepositMessage.u64Bounded r = true →
      Ssz.DepositMessage.marshalSSZ r = .ok bytes →
      Ssz.DepositMessage.unmarshalSSZ bytes = .ok r ∧ bytes.length = r.sizeSSZ)
  ∧ (∀ r bytes, Ssz.SyncCommittee.marshalSSZ r = .ok bytes →
      Ssz.SyncCommittee.unmarshalSSZ bytes = .ok r ∧ bytes.length = r.sizeSSZ)
  ∧ (∀ r bytes, Ssz.HistoricalBatch.marshalSSZ r = .ok bytes →
      Ssz.HistoricalBatch.unmarshalSSZ bytes = .ok r ∧ bytes.length = r.sizeSSZ)
  ∧ (∀ r bytes, Ssz.BeaconState.u64Bounded r = true →
      Ssz.BeaconState.marshalSSZ r = .ok bytes → bytes.length < 2 ^ 32 →
      Ssz.BeaconState.unmarshalSSZ bytes = .ok r ∧ bytes.length = r.sizeSSZ) :=
  ⟨fork_roundtrip, status_roundtrip, signingData_roundtrip, forkData_roundtrip,
    depositMessage_roundtrip, syncCommittee_roundtrip, historicalBatch_roundtrip,
    beaconState_roundtrip⟩

open Ssz in
/-- C6 witness: the Fork conjunct applied to a concrete record. -/
theorem c6_codec_roundtrip_witness :
    Ssz.Fork.unmarshalSSZ [1, 2, 3, 4, 5, 6, 7, 8, 9, 0, 0, 0, 0, 0, 0, 0]
        = Except.ok ⟨[1, 2, 3, 4], [5, 6, 7, 8], 9⟩
      ∧ ([1, 2, 3, 4, 5, 6, 7, 8, 9, 0, 0, 0, 0, 0, 0, 0] : List Nat).length
        = Ssz.Fork.sizeSSZ ⟨[1, 2, 3, 4], [5, 6, 7, 8], 9⟩ :=
  c6_codec_roundtrip.1 ⟨[1, 2, 3, 4], [5, 6, 7, 8], 9⟩
    [1, 2, 3, 4, 5, 6, 7, 8, 9, 0, 0, 0, 0, 0, 0, 0] (by decide) (by rfl)

open Ssz in
/-- Helper: Fork decoding always succeeds on a 16-byte buffer. -/
theorem fork_unmarshal_total (buf : List Nat) (hl : buf.length = 16) :
    Ssz.Fork.unmarshalSSZ buf = .ok ⟨Ssz.bslice buf 0 4, Ssz.bslice buf 4 8,
      Ssz.unmarshalU64 (Ssz.bslice buf 8 16)⟩ := by
  unfold Ssz.Fork.unmarshalSSZ
  rw [if_neg (by omega)]

open Ssz in
/-- Helper: header decoding always succeeds on a 112-byte buffer. -/
theorem bbh_unmarshal_total (buf : List Nat) (hl : buf.length = 112) :
    Ssz.BeaconBlockHeader.unmarshalSSZ buf
      = .ok ⟨Ssz.unmarshalU64 (Ssz.bslice buf 0 8),
        Ssz.unmarshalU64 (Ssz.bslice buf 8 16), Ssz.bslice buf 16 48,
        Ssz.bslice buf 48 80, Ssz.bslice buf 80 112⟩ := by
  unfold Ssz.BeaconBlockHeader.unmarshalSSZ
  rw [if_neg (by omega)]

open Ssz in
/-- Helper: Eth1Data decoding always succeeds on a 72-byte buffer. -/
theorem eth1Data_unmarshal_total (buf : List Nat) (hl : buf.length = 72) :
    Ssz.Eth1Data.unmarshalSSZ buf = .ok ⟨Ssz.bslice buf 0 32,
      Ssz.unmarshalU64 (Ssz.bslice buf 32 40), Ssz.bslice buf 40 72⟩ := by
  unfold Ssz.Eth1Data.unmarshalSSZ
  rw [if_neg (by omega)]

open Ssz in
/-- Helper: Checkpoint decoding always succeeds on a 40-byte buffer. -/
theorem checkpoint_unmarshal_total (buf : List Nat) (hl : buf.length = 40) :
    Ssz.Checkpoint.unmarshalSSZ buf
      = .ok ⟨Ssz.unmarshalU64 (Ssz.bslice buf 0 8), Ssz.bslice buf 8 40⟩ := by
  unfold Ssz.Checkpoint.unmarshalSSZ
  rw [if_neg (by omega)]

open Ssz in
/-- Helper: SyncCommittee decoding always succeeds on a 49920-byte buffer. -/
theorem syncCommittee_unmarshal_total (buf : List Nat) (hl : buf.length = 49920) :
    Ssz.SyncCommittee.unmarshalSSZ buf
      = .ok ⟨Ssz.unmarshalVector 48 1024 (Ssz.bslice buf 0 49152),
        Ssz.unmarshalVector 48 16 (Ssz.bslice buf 49152 49920)⟩ := by
  unfold Ssz.SyncCommittee.unmarshalSSZ
  rw [if_neg (by omega)]

open Ssz in
/-- Helper: a failing Eth1Data decode only ever reports a size error. -/
theorem eth1Data_unmarshal_err (buf : List Nat) (e : Ssz.SszErr)
    (h : Ssz.Eth1Data.unmarshalSSZ buf = .error e) : e = Ssz.SszErr.errSize := by
  unfold Ssz.Eth1Data.unmarshalSSZ at h
  split at h
  · exact (Except.error.inj h).symm
  · exact Except.noConfusion h

open Ssz in
/-- Helper: a failing Validator decode only ever reports a size error. -/
theorem validator_unmarshal_err (buf : List Nat) (e : Ssz.SszErr)
    (h : Ssz.Validator.unmarshalSSZ buf = .error e) : e = Ssz.SszErr.errSize := by
  unfold Ssz.Validator.unmarshalSSZ at h
  split at h
  · exact (Except.error.inj h).symm
  · exact Except.noConfusion h

open Ssz in
/-- Helper: a failing chunked-list decode reports a size error whenever its
element decoder does. -/
theorem unmarshalChunks_err {α : Type} (g : List Nat → Except Ssz.SszErr α)
    (w : Nat) (hg : ∀ b e2, g b = .error e2 → e2 = Ssz.SszErr.errSize) :
    ∀ n i buf e, Ssz.unmarshalChunks g w n i buf = .error e
      → e = Ssz.SszErr.errSize := by
  intro n
  induction n with
  | zero =>
    intro i buf e h
    exact Except.noConfusion h
  | succ m ih =>
    intro i buf e h
    unfold Ssz.unmarshalChunks at h
    rcases hga : g (Ssz.bslice buf i (i + w)) with e2 | a
    · rw [hga] at h
      rw [← Except.error.inj h]
      exact hg _ _ hga
    rw [hga] at h
    rcases hrest : Ssz.unmarshalChunks g w m (i + w) buf with e3 | rest
    · rw [hrest] at h
      rw [← Except.error.inj h]
      exact ih _ _ _ hrest
    rw [hrest] at h
    exact Except.noConfusion h

set_option maxHeartbeats 1000000 in
open Ssz in
/-- C8: with the fixed part present, UnmarshalSSZ reports an offset error
exactly when the six variable-field offsets fail to be non-decreasing or
some offset exceeds the buffer length; when they validate, decoding
proceeds to the variable sections (whatever else may go wrong there, it is
never reported as an offset error). -/
theorem c8_offset_validation (buf : List Nat) (hlen : 2787217 ≤ buf.length) :
    Ssz.BeaconState.unmarshalSSZ buf = .error Ssz.SszErr.errOffset
      ↔ ¬ (Ssz.bsO7 buf ≤ Ssz.bsO9 buf ∧ Ssz.bsO9 buf ≤ Ssz.bsO11 buf
        ∧ Ssz.bsO11 buf ≤ Ssz.bsO12 buf ∧ Ssz.bsO12 buf ≤ Ssz.bsO15 buf
        ∧ Ssz.bsO15 buf ≤ Ssz.bsO16 buf ∧ Ssz.bsO7 buf ≤ buf.length
        ∧ Ssz.bsO9 buf ≤ buf.length ∧ Ssz.bsO11 buf ≤ buf.length
        ∧ Ssz.bsO12 buf ≤ buf.length ∧ Ssz.bsO15 buf ≤ buf.length
        ∧ Ssz.bsO16 buf ≤ buf.length) := by
  have l1 : (Ssz.bslice buf 48 64).length = 16 := by
    rw [length_slice _ _ _ (by omega)]
  have l2 : (Ssz.bslice buf 64 176).length = 112 := by
    rw [length_slice _ _ _ (by omega)]
  have l3 : (Ssz.bslice buf 524468 524540).length = 72 := by
    rw [length_slice _ _ _ (by omega)]
  have l4 : (Ssz.bslice buf 2687257 2687297).length = 40 := by
    rw [length_slice _ _ _ (by omega)]
  have l5 : (Ssz.bslice buf 2687297 2687337).length = 40 := by
    rw [length_slice _ _ _ (by omega)]
  have l6 : (Ssz.bslice buf 2687337 2687377).length = 40 := by
    rw [length_slice _ _ _ (by omega)]
  have l7 : (Ssz.bslice buf 2687377 2737297).length = 49920 := by
    rw [length_slice _ _ _ (by omega)]
  have l8 : (Ssz.bslice buf 2737297 2787217).length = 49920 := by
    rw [length_slice _ _ _ (by omega)]
  constructor
  · intro h hgood
    obtain ⟨h79, h911, h1112, h1215, h1516, h7l, h9l, h11l, h12l, h15l, h16l⟩ := hgood
    unfold Ssz.BeaconState.unmarshalSSZ at h
    rw [show decide (buf.length < 2787217) = false from by
        rw [decide_eq_false_iff_not]; omega] at h
    rw [fork_unmarshal_total _ l1, bbh_unmarshal_total _ l2] at h
    rw [show decide (Ssz.bsO7 buf > buf.length) = false from by
        rw [decide_eq_false_iff_not]; omega] at h
    rw [eth1Data_unmarshal_total _ l3] at h
    rw [show decide (Ssz.bsO9 buf > buf.length ∨ Ssz.bsO7 buf > Ssz.bsO9 buf) = false from by
        rw [decide_eq_false_iff_not]; omega] at h
    rw [show decide (Ssz.bsO11 buf > buf.length ∨ Ssz.bsO9 buf > Ssz.bsO11 buf) = false from by
        rw [decide_eq_false_iff_not]; omega] at h
    rw [show decide (Ssz.bsO12 buf > buf.length ∨ Ssz.bsO11 buf > Ssz.bsO12 buf) = false from by
        rw [decide_eq_false_iff_not]; omega] at h
    rw [show decide (Ssz.bsO15 buf > buf.length ∨ Ssz.bsO12 buf > Ssz.bsO15 buf) = false from by
        rw [decide_eq_false_iff_not]; omega] at h
    rw [show decide (Ssz.bsO16 buf > buf.length ∨ Ssz.bsO15 buf > Ssz.bsO16 buf) = false from by
        rw [decide_eq_false_iff_not]; omega] at h
    rw [checkpoint_unmarshal_total _ l4, checkpoint_unmarshal_total _ l5,
      checkpoint_unmarshal_total _ l6, syncCommittee_unmarshal_total _ l7,
      syncCommittee_unmarshal_total _ l8] at h
    rcases hd1 : decide (¬ ((Ssz.bslice buf (Ssz.bsO7 buf) (Ssz.bsO9 buf)).length % 32 = 0
        ∧ (Ssz.bslice buf (Ssz.bsO7 buf) (Ssz.bsO9 buf)).length / 32 ≤ 16777216)) with _ | _
    case true =>
      rw [hd1] at h
      exact Ssz.SszErr.noConfusion (Except.error.inj h)
    rw [hd1] at h
    rcases hd2 : decide (¬ ((Ssz.bslice buf (Ssz.bsO9 buf) (Ssz.bsO11 buf)).length % 72 = 0
        ∧ (Ssz.bslice buf (Ssz.bsO9 buf) (Ssz.bsO11 buf)).length / 72 ≤ 2048)) with _ | _
    case true =>
      rw [hd2] at h
      exact Ssz.SszErr.noConfusion (Except.error.inj h)
    rw [hd2] at h
    rcases hv1 : Ssz.unmarshalChunks Ssz.Eth1Data.unmarshalSSZ 72
        ((Ssz.bslice buf (Ssz.bsO9 buf) (Ssz.bsO11 buf)).length / 72) 0
        (Ssz.bslice buf (Ssz.bsO9 buf) (Ssz.bsO11 buf)) with e | votes
    · rw [hv1] at h
      have hes := unmarshalChunks_err Ssz.Eth1Data.unmarshalSSZ 72
        eth1Data_unmarshal_err _ _ _ _ hv1
      rw [Except.error.inj h] at hes
      exact Ssz.SszErr.noConfusion hes
    rw [hv1] at h
    rcases hd3 : decide (¬ ((Ssz.bslice buf (Ssz.bsO11 buf) (Ssz.bsO12 buf)).length % 121 = 0
        ∧ (Ssz.bslice buf (Ssz.bsO11 buf) (Ssz.bsO12 buf)).length / 121 ≤ 1099511627776)) with _ | _
    case true =>
      rw [hd3] at h
      exact Ssz.SszErr.noConfusion (Except.error.inj h)
    rw [hd3] at h
    rcases hv2 : Ssz.unmarshalChunks Ssz.Validator.unmarshalSSZ 121
        ((Ssz.bslice buf (Ssz.bsO11 buf) (Ssz.bsO12 buf)).length / 121) 0
        (Ssz.bslice buf (Ssz.bsO11 buf) (Ssz.bsO12 buf)) with e | vals
    · rw [hv2] at h
      have hes := unmarshalChunks_err Ssz.Validator.unmarshalSSZ 121
        validator_unmarshal_err _ _ _ _ hv2
      rw [Except.error.inj h] at hes
      exact Ssz.SszErr.noConfusion hes
    rw [hv2] at h
    rcases hd4 : decide (¬ ((Ssz.bslice buf (Ssz.bsO12 buf) (Ssz.bsO15 buf)).length % 8 = 0
        ∧ (Ssz.bslice buf (Ssz.bsO12 buf) (Ssz.bsO15 buf)).length / 8 ≤ 1099511627776)) with _ | _
    case true =>
      rw [hd4] at h
      exact Ssz.SszErr.noConfusion (Except.error.inj h)
    rw [hd4] at h
    rcases hd5 : decide ((Ssz.bslice buf (Ssz.bsO15 buf) (Ssz.bsO16 buf)).length
        > 1099511627776) with _ | _
    case true =>
      rw [hd5] at h
      exact Ssz.SszErr.noConfusion (Except.error.inj h)
    rw [hd5] at h
    rcases hd6 : decide ((Ssz.bslice buf (Ssz.bsO16 buf) buf.length).length
        > 1099511627776) with _ | _
    case true =>
      rw [hd6] at h
      exact Ssz.SszErr.noConfusion (Except.error.inj h)
    rw [hd6] at h
    exact Except.noConfusion h
  · intro hbad
    by_cases cv0 : Ssz.bsO7 buf > buf.length
    · unfold Ssz.BeaconState.unmarshalSSZ
      rw [show decide (buf.length < 2787217) = false from by
          rw [decide_eq_false_iff_not]; omega,
        fork_unmarshal_total _ l1, bbh_unmarshal_total _ l2,
        show decide (Ssz.bsO7 buf > buf.length) = true from by
          rw [decide_eq_true_eq]; exact cv0]
      try rfl
    by_cases cv1 : Ssz.bsO9 buf > buf.length ∨ Ssz.bsO7 buf > Ssz.bsO9 buf
    · unfold Ssz.BeaconState.unmarshalSSZ
      rw [show decide (buf.length < 2787217) = false from by
          rw [decide_eq_false_iff_not]; omega,
        fork_unmarshal_total _ l1, bbh_unmarshal_total _ l2,
        show decide (Ssz.bsO7 buf > buf.length) = false from by
        rw [decide_eq_false_iff_not]; omega,
        eth1Data_unmarshal_total _ l3,
        show decide (Ssz.bsO9 buf > buf.length ∨ Ssz.bsO7 buf > Ssz.bsO9 buf) = true from by
          rw [decide_eq_true_eq]; exact cv1]
      try rfl
    by_cases cv2 : Ssz.bsO11 buf > buf.length ∨ Ssz.bsO9 buf > Ssz.bsO11 buf
    · unfold Ssz.BeaconState.unmarshalSSZ
      rw [show decide (buf.length < 2787217) = false from by
          rw [decide_eq_false_iff_not]; omega,
        fork_unmarshal_total _ l1, bbh_unmarshal_total _ l2,
        show decide (Ssz.bsO7 buf > buf.length) = false from by
        rw [decide_eq_false_iff_not]; omega,
        eth1Data_unmarshal_total _ l3,
        show decide (Ssz.bsO9 buf > buf.length ∨ Ssz.bsO7 buf > Ssz.bsO9 buf) = false from by
        rw [decide_eq_false_iff_not]; omega,
        show decide (Ssz.bsO11 buf > buf.length ∨ Ssz.bsO9 buf > Ssz.bsO11 buf) = true from by
          rw [decide_eq_true_eq]; exact cv2]
      try rfl
    by_cases cv3 : Ssz.bsO12 buf > buf.length ∨ Ssz.bsO11 buf > Ssz.bsO12 buf
    · unfold Ssz.BeaconState.unmarshalSSZ
      rw [show decide (buf.length < 2787217) = false from by
          rw [decide_eq_false_iff_not]; omega,
        fork_unmarshal_total _ l1, bbh_unmarshal_total _ l2,
        show decide (Ssz.bsO7 buf > buf.length) = false from by
        rw [decide_eq_false_iff_not]; omega,
        eth1Data_unmarshal_total _ l3,
        show decide (Ssz.bsO9 buf > buf.length ∨ Ssz.bsO7 buf > Ssz.bsO9 buf) = false from by
        rw [decide_eq_false_iff_not]; omega,
        show decide (Ssz.bsO11 buf > buf.length ∨ Ssz.bsO9 buf > Ssz.bsO11 buf) = false from by
        rw [decide_eq_false_iff_not]; omega,
        show decide (Ssz.bsO12 buf > buf.length ∨ Ssz.bsO11 buf > Ssz.bsO12 buf) = true from by
          rw [decide_eq_true_eq]; exact cv3]
      try rfl
    by_cases cv4 : Ssz.bsO15 buf > buf.length ∨ Ssz.bsO12 buf > Ssz.bsO15 buf
    · unfold Ssz.BeaconState.unmarshalSSZ
      rw [show decide (buf.length < 2787217) = false from by
          rw [decide_eq_false_iff_not]; omega,
        fork_unmarshal_total _ l1, bbh_unmarshal_total _ l2,
        show decide (Ssz.bsO7 buf > buf.length) = false from by
        rw [decide_eq_false_iff_not]; omega,
        eth1Data_unmarshal_total _ l3,
        show decide (Ssz.bsO9 buf > buf.length ∨ Ssz.bsO7 buf > Ssz.bsO9 buf) = false from by
        rw [decide_eq_false_iff_not]; omega,
        show decide (Ssz.bsO11 buf > buf.length ∨ Ssz.bsO9 buf > Ssz.bsO11 buf) = false from by
        rw [decide_eq_false_iff_not]; omega,
        show decide (Ssz.bsO12 buf > buf.length ∨ Ssz.bsO11 buf > Ssz.bsO12 buf) = false from by
        rw [decide_eq_false_iff_not]; omega,
        show decide (Ssz.bsO15 buf > buf.length ∨ Ssz.bsO12 buf > Ssz.bsO15 buf) = true from by
          rw [decide_eq_true_eq]; exact cv4]
      try rfl
    by_cases cv5 : Ssz.bsO16 buf > buf.length ∨ Ssz.bsO15 buf > Ssz.bsO16 buf
    · unfold Ssz.BeaconState.unmarshalSSZ
      rw [show decide (buf.length < 2787217) = false from by
          rw [decide_eq_false_iff_not]; omega,
        fork_unmarshal_total _ l1, bbh_unmarshal_total _ l2,
        show decide (Ssz.bsO7 buf > buf.length) = false from by
        rw [decide_eq_false_iff_not]; omega,
        eth1Data_unmarshal_total _ l3,
        show decide (Ssz.bsO9 buf > buf.length ∨ Ssz.bsO7 buf > Ssz.bsO9 buf) = false from by
        rw [decide_eq_false_iff_not]; omega,
        show decide (Ssz.bsO11 buf > buf.length ∨ Ssz.bsO9 buf > Ssz.bsO11 buf) = false from by
        rw [decide_eq_false_iff_not]; omega,
        show decide (Ssz.bsO12 buf > buf.length ∨ Ssz.bsO11 buf > Ssz.bsO12 buf) = false from by
        rw [decide_eq_false_iff_not]; omega,
        show decide (Ssz.bsO15 buf > buf.length ∨ Ssz.bsO12 buf > Ssz.bsO15 buf) = false from by
        rw [decide_eq_false_iff_not]; omega,
        show decide (Ssz.bsO16 buf > buf.length ∨ Ssz.bsO15 buf > Ssz.bsO16 buf) = true from by
          rw [decide_eq_true_eq]; exact cv5]
      try rfl
    exact absurd ⟨by omega, by omega, by omega, by omega, by omega, by omega,
      by omega, by omega, by omega, by omega, by omega⟩ hbad

open Ssz in
/-- C8 witness: the characterization applied to the all-zero minimal
buffer. -/
theorem c8_offset_validation_witness :
    Ssz.BeaconState.unmarshalSSZ (List.replicate 2787217 0)
        = .error Ssz.SszErr.errOffset
      ↔ ¬ (Ssz.bsO7 (List.replicate 2787217 0) ≤ Ssz.bsO9 (List.replicate 2787217 0)
        ∧ Ssz.bsO9 (List.replicate 2787217 0) ≤ Ssz.bsO11 (List.replicate 2787217 0)
        ∧ Ssz.bsO11 (List.replicate 2787217 0) ≤ Ssz.bsO12 (List.replicate 2787217 0)
        ∧ Ssz.bsO12 (List.replicate 2787217 0) ≤ Ssz.bsO15 (List.replicate 2787217 0)
        ∧ Ssz.bsO15 (List.replicate 2787217 0) ≤ Ssz.bsO16 (List.replicate 2787217 0)
        ∧ Ssz.bsO7 (List.replicate 2787217 0) ≤ (List.replicate 2787217 (0 : Nat)).length
        ∧ Ssz.bsO9 (List.replicate 2787217 0) ≤ (List.replicate 2787217 (0 : Nat)).length
        ∧ Ssz.bsO11 (List.replicate 2787217 0) ≤ (List.replicate 2787217 (0 : Nat)).length
        ∧ Ssz.bsO12 (List.replicate 2787217 0) ≤ (List.replicate 2787217 (0 : Nat)).length
        ∧ Ssz.bsO15 (List.replicate 2787217 0) ≤ (List.replicate 2787217 (0 : Nat)).length
        ∧ Ssz.bsO16 (List.replicate 2787217 0) ≤ (List.replicate 2787217 (0 : Nat)).length) :=
  c8_offset_validation (List.replicate 2787217 0)
    (by rw [List.length_replicate])

/-- Helper: the zero-subtree hash of the sample combiner in closed form. -/
theorem zeroHash_addHash (d : Nat) :
    Merkle.zeroHash Merkle.addHash d = 2 ^ d - 1 := by
  induction d with
  | zero => rfl
  | succ m ih =>
    unfold Merkle.zeroHash
    rw [ih]
    unfold Merkle.addHash
    have h1 : 0 < 2 ^ m := Nat.two_pow_pos m
    rw [pow_succ]
    omega

/-- Helper: the depth-d root of a single chunk under the sample combiner in
closed form — strictly increasing in the depth. -/
theorem merkleize_addHash_single (d c : Nat) :
    Merkle.merkleize Merkle.addHash d [c] = c + (2 ^ d - 1) := by
  induction d with
  | zero => rfl
  | succ m ih =>
    unfold Merkle.merkleize
    have h1 : 0 < 2 ^ m := Nat.two_pow_pos m
    rw [List.take_of_length_le (by simp; omega), if_pos (by simp; omega), ih,
      zeroHash_addHash]
    unfold Merkle.addHash
    rw [pow_succ]
    omega

/-- Helper: the floor base-2 logarithm of an exact power of two. -/
theorem log2_pow (n : Nat) : Nat.log2 (2 ^ n) = n := by
  rw [Nat.log2_eq_log_two]
  exact Nat.log_pow (by norm_num) n

/-- C7: each variable-length list field of BeaconState hashes as the Merkle
root of its element chunks over a tree sized by the configured limit (2^24
chunk slots for HistoricalRoots, 2^11 for Eth1DataVotes, 2^40 for
Validators, 2^38 packed chunks for Balances), mixed with one extra hash
whose second leaf is the element count; and the root genuinely depends on
that limit — the same chunks and count merkleized at two different limits
give different roots. -/
theorem c7_list_limit_merkleization :
    (∀ H hr, hr.length ≤ 16777216 → (∀ x ∈ hr, x.length = 32) →
      Merkle.htrHistoricalRoots H hr = .ok (Merkle.mixInLength H
        (Merkle.merkleize H 24 (hr.map Merkle.chunkOfBytes)) hr.length))
  ∧ (∀ H roots, roots.length ≤ 2048 →
      Merkle.htrEth1DataVotes H roots = .ok (Merkle.mixInLength H
        (Merkle.merkleize H 11 roots) roots.length))
  ∧ (∀ H roots, roots.length ≤ 1099511627776 →
      Merkle.htrValidators H roots = .ok (Merkle.mixInLength H
        (Merkle.merkleize H 40 roots) roots.length))
  ∧ (∀ H bal, bal.length ≤ 1099511627776 →
      Merkle.htrBalances H bal = .ok (Merkle.mixInLength H
        (Merkle.merkleize H 38 (Merkle.packU64s bal)) bal.length))
  ∧ Merkle.merkleizeWithMixin Merkle.addHash 11 [5] 1
      ≠ Merkle.merkleizeWithMixin Merkle.addHash 24 [5] 1
  ∧ Merkle.merkleizeWithMixin Merkle.addHash 38 [5] 1
      ≠ Merkle.merkleizeWithMixin Merkle.addHash 40 [5] 1 := by
  refine ⟨?_, ?_, ?_, ?_, ?_, ?_⟩
  · intro H hr h1 h2
    unfold Merkle.htrHistoricalRoots
    have hany : (hr.any fun x => decide (x.length ≠ 32)) = false := by
      rw [Bool.eq_false_iff]
      intro hc
      obtain ⟨x, hx, hpx⟩ := List.any_eq_true.mp hc
      rw [h2 x hx] at hpx
      simp at hpx
    rw [if_neg (by omega), if_neg (by rw [hany]; exact Bool.false_ne_true)]
    rw [show Merkle.calculateLimit 16777216 hr.length 32 = 2 ^ 24 from by
      unfold Merkle.calculateLimit
      rw [if_neg (by norm_num)]
      norm_num, log2_pow 24]
    rfl
  · intro H roots h1
    unfold Merkle.htrEth1DataVotes
    rw [if_neg (by omega), show (2048 : Nat) = 2 ^ 11 from by norm_num, log2_pow 11]
    rfl
  · intro H roots h1
    unfold Merkle.htrValidators
    rw [if_neg (by omega),
      show (1099511627776 : Nat) = 2 ^ 40 from by norm_num, log2_pow 40]
    rfl
  · intro H bal h1
    unfold Merkle.htrBalances
    rw [if_neg (by omega)]
    rw [show Merkle.calculateLimit 1099511627776 bal.length 8 = 2 ^ 38 from by
      unfold Merkle.calculateLimit
      rw [if_neg (by norm_num)]
      norm_num, log2_pow 38]
    rfl
  · unfold Merkle.merkleizeWithMixin Merkle.mixInLength
    rw [merkleize_addHash_single 11 5, merkleize_addHash_single 24 5]
    unfold Merkle.addHash
    norm_num
  · unfold Merkle.merkleizeWithMixin Merkle.mixInLength
    rw [merkleize_addHash_single 38 5, merkleize_addHash_single 40 5]
    unfold Merkle.addHash
    norm_num

/-- C7 witness: the Eth1DataVotes conjunct applied to one concrete element
root, plus the instantiated limit-dependence inequality. -/
theorem c7_list_limit_merkleization_witness :
    Merkle.htrEth1DataVotes Merkle.addHash [7]
      = .ok (Merkle.mixInLength Merkle.addHash
        (Merkle.merkleize Merkle.addHash 11 [7]) ([7] : List Nat).length) :=
  c7_list_limit_merkleization.2.1 Merkle.addHash [7] (by decide)

end Prysm
